import Mathlib

/-!
Verification of the streaming hash engines of the Chocobo1/Hash library
(BLAKE1-224, BLAKE2b, HAS-160, MD2, MD5, RIPEMD-160, Whirlpool).

Each algorithm is embedded shallowly: machine words are `Nat` with explicit
reduction modulo `2^32` / `2^64` where the C++ uses fixed-width unsigned
arithmetic, byte buffers are `List Nat`, and each C++ member function becomes
a Lean function on an explicit state record.  `addData` / `addDataImpl` /
`finalize` / `reset` / `toVector` / `toString` follow the source line by line.
-/

set_option maxRecDepth 1000000

namespace HashSpec

/-- `ror<Byte>(x, s)` from the source: shift right then truncate to a byte. -/
def ror8 (x s : Nat) : Nat := (x >>> s) &&& 255

/-- `ror<uint32_t>(x, s)` from the source: shift right then truncate to 32 bits. -/
def ror32 (x s : Nat) : Nat := (x >>> s) &&& 4294967295

/-- 32-bit left rotation, `rotl` from the source (including its `s = 0` case). -/
def rotl32 (x s : Nat) : Nat :=
  if s = 0 then x else ((x <<< s) &&& 4294967295) ||| (x >>> (32 - s))

/-- 32-bit right rotation, `rotr` from the source (including its `s = 0` case). -/
def rotr32 (x s : Nat) : Nat :=
  if s = 0 then x else (x >>> s) ||| ((x <<< (32 - s)) &&& 4294967295)

/-- 64-bit right rotation, `rotr` from the source (including its `s = 0` case). -/
def rotr64 (x s : Nat) : Nat :=
  if s = 0 then x else (x >>> s) ||| ((x <<< (64 - s)) &&& 18446744073709551615)

/-- Bitwise complement on a 32-bit word (`~x` in C++ on `uint32_t`). -/
def compl32 (x : Nat) : Nat := x ^^^ 4294967295

/-- Bitwise complement on a 64-bit word (`~x` in C++ on `uint64_t`). -/
def compl64 (x : Nat) : Nat := x ^^^ 18446744073709551615

/-- Unsigned 32-bit subtraction `a - b` with wraparound (C `unsigned int`). -/
def sub32 (a b : Nat) : Nat := (a + (4294967296 - b % 4294967296)) % 4294967296

/-- Unsigned 64-bit subtraction `a - b` with wraparound (C `uint64_t`). -/
def sub64 (a b : Nat) : Nat :=
  (a + (18446744073709551616 - b % 18446744073709551616)) % 18446744073709551616

/-- The little-endian 32-bit `Loader` (MD5, HAS-160, RIPEMD-160). -/
def load32le (l : List Nat) (i : Nat) : Nat :=
  ((l.getD (4 * i) 0) <<< 0) ||| ((l.getD (4 * i + 1) 0) <<< 8) |||
  ((l.getD (4 * i + 2) 0) <<< 16) ||| ((l.getD (4 * i + 3) 0) <<< 24)

/-- The big-endian 32-bit `Loader` (BLAKE1-224). -/
def load32be (l : List Nat) (i : Nat) : Nat :=
  ((l.getD (4 * i) 0) <<< 24) ||| ((l.getD (4 * i + 1) 0) <<< 16) |||
  ((l.getD (4 * i + 2) 0) <<< 8) ||| ((l.getD (4 * i + 3) 0) <<< 0)

/-- The little-endian 64-bit `Loader` (BLAKE2b). -/
def load64le (l : List Nat) (i : Nat) : Nat :=
  ((l.getD (8 * i) 0) <<< 0) ||| ((l.getD (8 * i + 1) 0) <<< 8) |||
  ((l.getD (8 * i + 2) 0) <<< 16) ||| ((l.getD (8 * i + 3) 0) <<< 24) |||
  ((l.getD (8 * i + 4) 0) <<< 32) ||| ((l.getD (8 * i + 5) 0) <<< 40) |||
  ((l.getD (8 * i + 6) 0) <<< 48) ||| ((l.getD (8 * i + 7) 0) <<< 56)

/-- The big-endian 64-bit `Loader` (Whirlpool). -/
def load64be (l : List Nat) (i : Nat) : Nat :=
  ((l.getD (8 * i) 0) <<< 56) ||| ((l.getD (8 * i + 1) 0) <<< 48) |||
  ((l.getD (8 * i + 2) 0) <<< 40) ||| ((l.getD (8 * i + 3) 0) <<< 32) |||
  ((l.getD (8 * i + 4) 0) <<< 24) ||| ((l.getD (8 * i + 5) 0) <<< 16) |||
  ((l.getD (8 * i + 6) 0) <<< 8) ||| ((l.getD (8 * i + 7) 0) <<< 0)

/-- Lowercase hex digit, as produced by the source's `snprintf("%02x")`:
digits 0-9 map to codepoints 48-57 and digits 10-15 to 97-102 (a-f). -/
def hexDigit (n : Nat) : Char :=
  if n < 10 then Char.ofNat (48 + n) else Char.ofNat (87 + n)

/-- Lowercase hex encoding of a byte list, two characters per byte,
matching every algorithm's `toString` loop over `toVector`. -/
def hexOfBytes (bs : List Nat) : String :=
  String.mk (bs.foldr (fun b acc => hexDigit (b / 16) :: hexDigit (b % 16) :: acc) [])

/-- The block-processing loop shared by every `addDataImpl`: run `step` on
`n` consecutive `B`-byte blocks taken from the front of `data`
(the C++ `for (i = 0; i < data.size() / BLOCK_SIZE; ++i)` loop). -/
def blocksGo {ω : Type} (B : Nat) (step : ω → List Nat → ω) : Nat → ω → List Nat → ω
  | 0, w, _ => w
  | n + 1, w, data => blocksGo B step n (step w (data.take B)) (data.drop B)

/-- The state of one streaming hash instance: the byte accumulator `m_buffer`
plus the algorithm-specific core (counters and state words). -/
structure HState (ω : Type) where
  buffer : List Nat
  core : ω
deriving DecidableEq

/-- Second half of the eager `addData` (everything after the buffer top-up):
bulk-process all whole blocks of `data` and keep the remainder.  Shared
verbatim by MD5, MD2, HAS-160, RIPEMD-160, BLAKE1-224 and Whirlpool. -/
def addDataA2 {ω : Type} (B : Nat) (impl : ω → List Nat → ω)
    (st : HState ω) (data : List Nat) : HState ω :=
  if data.length < B then
    { st with buffer := data }
  else
    let len := data.length - data.length % B
    let core2 := impl st.core (data.take len)
    if len < data.length then { buffer := data.drop len, core := core2 }
    else { st with core := core2 }

/-- The eager `addData` of MD5, MD2, HAS-160, RIPEMD-160, BLAKE1-224 and
Whirlpool: top a nonempty buffer up to one block (compressing it as soon as
it is full), then bulk-process the rest. -/
def addDataA {ω : Type} (B : Nat) (impl : ω → List Nat → ω)
    (st : HState ω) (inData : List Nat) : HState ω :=
  if st.buffer.isEmpty then
    addDataA2 B impl st inData
  else
    let len := min (B - st.buffer.length) inData.length
    let buf2 := st.buffer ++ inData.take len
    if buf2.length < B then { st with buffer := buf2 }
    else addDataA2 B impl { buffer := [], core := impl st.core buf2 } (inData.drop len)

/-- Proof-side characterisation of the state reached by the eager engine:
after absorbing the whole message `m` from a fresh core `w0`, the core has
consumed the maximal whole-block prefix and the buffer holds the rest. -/
def absorbA {ω : Type} (B : Nat) (impl : ω → List Nat → ω)
    (w0 : ω) (m : List Nat) : HState ω :=
  ⟨m.drop (m.length - m.length % B), impl w0 (m.take (m.length - m.length % B))⟩

/-- Shared core of MD5, HAS-160 and RIPEMD-160: a 64-bit byte counter
(`m_sizeCounter`) plus the 32-bit state words (`m_state` / `m_h`). -/
structure MDCore where
  sizeCounter : Nat
  words : List Nat
deriving DecidableEq

/-- Shared `addDataImpl` of MD5, HAS-160 and RIPEMD-160: count the incoming
bytes into the 64-bit size counter, then compress each whole block with the
algorithm's compression function `cf`. -/
def mdImpl (B : Nat) (cf : List Nat → List Nat → List Nat)
    (w : MDCore) (data : List Nat) : MDCore :=
  blocksGo B (fun w block => { w with words := cf w.words block }) (data.length / B)
    { w with sizeCounter := (w.sizeCounter + data.length) % 18446744073709551616 } data

/-- The tail-writing loop of MD5/HAS-160/RIPEMD-160 `finalize`: store the two
32-bit counter halves into the final 8 buffer bytes, little-endian. -/
def writeTailLE8 (l : List Nat) (lo hi : Nat) : List Nat :=
  (List.range 4).foldl (fun acc i =>
    let acc1 := acc.set (acc.length - 8 + i) (ror8 lo (8 * i))
    acc1.set (acc1.length - 4 + i) (ror8 hi (8 * i))) l

/-- The padding built by MD5/HAS-160/RIPEMD-160 `finalize`: append `0x80`,
zero-pad so that 8 bytes remain to a block boundary, then write the bit
count (counter × 8, 64-bit little-endian) into those last 8 bytes. -/
def mdPad (buffer : List Nat) (sizeCounter : Nat) : List Nat :=
  let buf1 := buffer ++ [128]
  let len := 64 - ((buf1.length + 8) % 64)
  let buf2 := buf1 ++ List.replicate (len + 8) 0
  let bits := (sizeCounter * 8) % 18446744073709551616
  writeTailLE8 buf2 (ror32 bits 0) (ror32 bits 32)

/-- Little-endian serialisation of one 32-bit word, as in the `toVector` of
MD5, HAS-160 and RIPEMD-160 (`j = 0..3`, `ror<Byte>(w, 8 j)`). -/
def wordLE4 (w : Nat) : List Nat := [ror8 w 0, ror8 w 8, ror8 w 16, ror8 w 24]

/-- Big-endian serialisation of one 32-bit word, as in the `toVector` of
BLAKE1-224 (`j = 3..0`, `ror<Byte>(w, 8 j)`). -/
def wordBE4 (w : Nat) : List Nat := [ror8 w 24, ror8 w 16, ror8 w 8, ror8 w 0]

/-- Little-endian serialisation of one 64-bit word (BLAKE2b `toVector`). -/
def wordLE8 (w : Nat) : List Nat :=
  [ror8 w 0, ror8 w 8, ror8 w 16, ror8 w 24, ror8 w 32, ror8 w 40, ror8 w 48, ror8 w 56]

/-- Big-endian serialisation of one 64-bit word (Whirlpool `toArray`). -/
def wordBE8 (w : Nat) : List Nat :=
  [ror8 w 56, ror8 w 48, ror8 w 40, ror8 w 32, ror8 w 24, ror8 w 16, ror8 w 8, ror8 w 0]

/-- Specification-side encoder: `n` as a 64-bit little-endian byte list. -/
def leBytes64 (n : Nat) : List Nat :=
  [n % 256, n / 2 ^ 8 % 256, n / 2 ^ 16 % 256, n / 2 ^ 24 % 256,
   n / 2 ^ 32 % 256, n / 2 ^ 40 % 256, n / 2 ^ 48 % 256, n / 2 ^ 56 % 256]

/-- Specification-side encoder: `n` as a 64-bit big-endian byte list. -/
def beBytes64 (n : Nat) : List Nat :=
  [n / 2 ^ 56 % 256, n / 2 ^ 48 % 256, n / 2 ^ 40 % 256, n / 2 ^ 32 % 256,
   n / 2 ^ 24 % 256, n / 2 ^ 16 % 256, n / 2 ^ 8 % 256, n % 256]

/-- Specification-side encoder: `n` as a 128-bit big-endian byte list. -/
def beBytes128 (n : Nat) : List Nat :=
  [n / 2 ^ 120 % 256, n / 2 ^ 112 % 256, n / 2 ^ 104 % 256, n / 2 ^ 96 % 256,
   n / 2 ^ 88 % 256, n / 2 ^ 80 % 256, n / 2 ^ 72 % 256, n / 2 ^ 64 % 256,
   n / 2 ^ 56 % 256, n / 2 ^ 48 % 256, n / 2 ^ 40 % 256, n / 2 ^ 32 % 256,
   n / 2 ^ 24 % 256, n / 2 ^ 16 % 256, n / 2 ^ 8 % 256, n % 256]

namespace MD5

/-- The MD5 compression function over one 64-byte block (RFC 1321), the body
of the block loop of `MD5::addDataImpl`. -/
def compressWords (ws : List Nat) (block : List Nat) : List Nat :=
  let x := fun (i : Nat) => load32le block i
  let f := fun (x y z : Nat) => (x &&& (y ^^^ z)) ^^^ z
  let g := fun (x y z : Nat) => y ^^^ ((x ^^^ y) &&& z)
  let h := fun (x y z : Nat) => x ^^^ y ^^^ z
  let ii := fun (x y z : Nat) => y ^^^ (x ||| compl32 z)
  let a := ws.getD 0 0
  let b := ws.getD 1 0
  let c := ws.getD 2 0
  let d := ws.getD 3 0
  let rnd := fun (a b c d : Nat) (func : Nat → Nat → Nat → Nat) (k s t : Nat) =>
    (b + rotl32 ((a + func b c d + x k + t) % 4294967296) s) % 4294967296
  let a := rnd a b c d f 0 7 0xd76aa478
  let d := rnd d a b c f 1 12 0xe8c7b756
  let c := rnd c d a b f 2 17 0x242070db
  let b := rnd b c d a f 3 22 0xc1bdceee
  let a := rnd a b c d f 4 7 0xf57c0faf
  let d := rnd d a b c f 5 12 0x4787c62a
  let c := rnd c d a b f 6 17 0xa8304613
  let b := rnd b c d a f 7 22 0xfd469501
  let a := rnd a b c d f 8 7 0x698098d8
  let d := rnd d a b c f 9 12 0x8b44f7af
  let c := rnd c d a b f 10 17 0xffff5bb1
  let b := rnd b c d a f 11 22 0x895cd7be
  let a := rnd a b c d f 12 7 0x6b901122
  let d := rnd d a b c f 13 12 0xfd987193
  let c := rnd c d a b f 14 17 0xa679438e
  let b := rnd b c d a f 15 22 0x49b40821
  let a := rnd a b c d g 1 5 0xf61e2562
  let d := rnd d a b c g 6 9 0xc040b340
  let c := rnd c d a b g 11 14 0x265e5a51
  let b := rnd b c d a g 0 20 0xe9b6c7aa
  let a := rnd a b c d g 5 5 0xd62f105d
  let d := rnd d a b c g 10 9 0x02441453
  let c := rnd c d a b g 15 14 0xd8a1e681
  let b := rnd b c d a g 4 20 0xe7d3fbc8
  let a := rnd a b c d g 9 5 0x21e1cde6
  let d := rnd d a b c g 14 9 0xc33707d6
  let c := rnd c d a b g 3 14 0xf4d50d87
  let b := rnd b c d a g 8 20 0x455a14ed
  let a := rnd a b c d g 13 5 0xa9e3e905
  let d := rnd d a b c g 2 9 0xfcefa3f8
  let c := rnd c d a b g 7 14 0x676f02d9
  let b := rnd b c d a g 12 20 0x8d2a4c8a
  let a := rnd a b c d h 5 4 0xfffa3942
  let d := rnd d a b c h 8 11 0x8771f681
  let c := rnd c d a b h 11 16 0x6d9d6122
  let b := rnd b c d a h 14 23 0xfde5380c
  let a := rnd a b c d h 1 4 0xa4beea44
  let d := rnd d a b c h 4 11 0x4bdecfa9
  let c := rnd c d a b h 7 16 0xf6bb4b60
  let b := rnd b c d a h 10 23 0xbebfbc70
  let a := rnd a b c d h 13 4 0x289b7ec6
  let d := rnd d a b c h 0 11 0xeaa127fa
  let c := rnd c d a b h 3 16 0xd4ef3085
  let b := rnd b c d a h 6 23 0x04881d05
  let a := rnd a b c d h 9 4 0xd9d4d039
  let d := rnd d a b c h 12 11 0xe6db99e5
  let c := rnd c d a b h 15 16 0x1fa27cf8
  let b := rnd b c d a h 2 23 0xc4ac5665
  let a := rnd a b c d ii 0 6 0xf4292244
  let d := rnd d a b c ii 7 10 0x432aff97
  let c := rnd c d a b ii 14 15 0xab9423a7
  let b := rnd b c d a ii 5 21 0xfc93a039
  let a := rnd a b c d ii 12 6 0x655b59c3
  let d := rnd d a b c ii 3 10 0x8f0ccc92
  let c := rnd c d a b ii 10 15 0xffeff47d
  let b := rnd b c d a ii 1 21 0x85845dd1
  let a := rnd a b c d ii 8 6 0x6fa87e4f
  let d := rnd d a b c ii 15 10 0xfe2ce6e0
  let c := rnd c d a b ii 6 15 0xa3014314
  let b := rnd b c d a ii 13 21 0x4e0811a1
  let a := rnd a b c d ii 4 6 0xf7537e82
  let d := rnd d a b c ii 11 10 0xbd3af235
  let c := rnd c d a b ii 2 15 0x2ad7d2bb
  let b := rnd b c d a ii 9 21 0xeb86d391
  [(ws.getD 0 0 + a) % 4294967296, (ws.getD 1 0 + b) % 4294967296,
   (ws.getD 2 0 + c) % 4294967296, (ws.getD 3 0 + d) % 4294967296]

/-- `MD5::addDataImpl`: count the bytes, compress whole 64-byte blocks. -/
def addDataImpl (w : MDCore) (data : List Nat) : MDCore :=
  mdImpl 64 compressWords w data

/-- One MD5 instance's state. -/
abbrev State := HState MDCore

/-- `MD5::reset`: clear the buffer and counter, restore the RFC 1321 initial
state words (every field is overwritten, so the prior state is irrelevant). -/
def reset (_st : State) : State :=
  ⟨[], { sizeCounter := 0, words := [0x67452301, 0xefcdab89, 0x98badcfe, 0x10325476] }⟩

/-- A freshly constructed `MD5()` (the constructor just calls `reset`). -/
def initState : State := reset ⟨[], { sizeCounter := 0, words := [] }⟩

/-- `MD5::addData` (the span overload). -/
def addData (st : State) (inData : List Nat) : State :=
  addDataA 64 addDataImpl st inData

/-- The updated size counter computed at the top of `MD5::finalize`
(`m_sizeCounter += m_buffer.size()`). -/
def finalCounter (st : State) : Nat :=
  (st.core.sizeCounter + st.buffer.length) % 18446744073709551616

/-- The padded buffer that `MD5::finalize` compresses. -/
def finalPad (st : State) : List Nat := mdPad st.buffer (finalCounter st)

/-- `MD5::finalize`: count the buffered bytes, pad, compress the padding. -/
def finalize (st : State) : State :=
  ⟨[], addDataImpl { st.core with sizeCounter := finalCounter st } (finalPad st)⟩

/-- `MD5::toVector`: the four state words, each little-endian. -/
def toVector (st : State) : List Nat :=
  (st.core.words.map wordLE4).flatten

/-- `MD5::toString`: lowercase hex of `toVector`. -/
def toString (st : State) : String := hexOfBytes (toVector st)

end MD5

namespace HAS160

/-- The HAS-160 message-schedule index table `lTable[80]`. -/
def lTable : List Nat :=
  [
   18, 0, 1, 2, 3, 19, 4, 5, 6, 7, 16, 8, 9, 10, 11, 17, 12, 13, 14, 15,
   18, 3, 6, 9, 12, 19, 15, 2, 5, 8, 16, 11, 14, 1, 4, 17, 7, 10, 13, 0,
   18, 12, 5, 14, 7, 19, 0, 9, 2, 11, 16, 4, 13, 6, 15, 17, 8, 1, 10, 3,
   18, 7, 2, 13, 8, 19, 3, 14, 9, 4, 16, 15, 10, 5, 0, 17, 11, 6, 1, 12]

/-- `extendXTable`: fill the four derived words `xTable[16..19]` for one
round from fixed XOR combinations of loaded words. -/
def extendXTable (xt : List Nat) (r : Nat) : List Nat :=
  let gv := fun (l : List Nat) (i : Nat) => l.getD (lTable.getD i 0) 0
  let xt := xt.set 16 (gv xt (r + 1) ^^^ gv xt (r + 2) ^^^ gv xt (r + 3) ^^^ gv xt (r + 4))
  let xt := xt.set 17 (gv xt (r + 6) ^^^ gv xt (r + 7) ^^^ gv xt (r + 8) ^^^ gv xt (r + 9))
  let xt := xt.set 18 (gv xt (r + 11) ^^^ gv xt (r + 12) ^^^ gv xt (r + 13) ^^^ gv xt (r + 14))
  xt.set 19 (gv xt (r + 16) ^^^ gv xt (r + 17) ^^^ gv xt (r + 18) ^^^ gv xt (r + 19))

/-- The HAS-160 compression function over one 64-byte block: 4 rounds of 20
steps over the extended 20-word schedule, the body of `HAS_160::addDataImpl`. -/
def compressWords (ws : List Nat) (block : List Nat) : List Nat :=
  let x := fun (i : Nat) => load32le block i
  let xt := ((List.range 16).map x) ++ [0, 0, 0, 0]
  let a := ws.getD 0 0
  let b := ws.getD 1 0
  let c := ws.getD 2 0
  let d := ws.getD 3 0
  let e := ws.getD 4 0
  let rnd1 := fun (xt : List Nat) (a b c d e s1 t : Nat) =>
    let fv := (b &&& (c ^^^ d)) ^^^ d
    ((rotl32 a s1 + fv + e + xt.getD (lTable.getD t 0) 0 + 0x00000000) % 4294967296,
     rotl32 b 10)
  let rnd2 := fun (xt : List Nat) (a b c d e s1 t : Nat) =>
    let fv := b ^^^ c ^^^ d
    ((rotl32 a s1 + fv + e + xt.getD (lTable.getD t 0) 0 + 0x5A827999) % 4294967296,
     rotl32 b 17)
  let rnd3 := fun (xt : List Nat) (a b c d e s1 t : Nat) =>
    let fv := c ^^^ (b ||| compl32 d)
    ((rotl32 a s1 + fv + e + xt.getD (lTable.getD t 0) 0 + 0x6ED9EBA1) % 4294967296,
     rotl32 b 25)
  let rnd4 := fun (xt : List Nat) (a b c d e s1 t : Nat) =>
    let fv := b ^^^ c ^^^ d
    ((rotl32 a s1 + fv + e + xt.getD (lTable.getD t 0) 0 + 0x8F1BBCDC) % 4294967296,
     rotl32 b 30)
  let xt := extendXTable xt 0
  let (e, b) := rnd1 xt a b c d e 5 0
  let (d, a) := rnd1 xt e a b c d 11 1
  let (c, e) := rnd1 xt d e a b c 7 2
  let (b, d) := rnd1 xt c d e a b 15 3
  let (a, c) := rnd1 xt b c d e a 6 4
  let (e, b) := rnd1 xt a b c d e 13 5
  let (d, a) := rnd1 xt e a b c d 8 6
  let (c, e) := rnd1 xt d e a b c 14 7
  let (b, d) := rnd1 xt c d e a b 7 8
  let (a, c) := rnd1 xt b c d e a 12 9
  let (e, b) := rnd1 xt a b c d e 9 10
  let (d, a) := rnd1 xt e a b c d 11 11
  let (c, e) := rnd1 xt d e a b c 8 12
  let (b, d) := rnd1 xt c d e a b 15 13
  let (a, c) := rnd1 xt b c d e a 6 14
  let (e, b) := rnd1 xt a b c d e 12 15
  let (d, a) := rnd1 xt e a b c d 9 16
  let (c, e) := rnd1 xt d e a b c 14 17
  let (b, d) := rnd1 xt c d e a b 5 18
  let (a, c) := rnd1 xt b c d e a 13 19
  let xt := extendXTable xt 20
  let (e, b) := rnd2 xt a b c d e 5 20
  let (d, a) := rnd2 xt e a b c d 11 21
  let (c, e) := rnd2 xt d e a b c 7 22
  let (b, d) := rnd2 xt c d e a b 15 23
  let (a, c) := rnd2 xt b c d e a 6 24
  let (e, b) := rnd2 xt a b c d e 13 25
  let (d, a) := rnd2 xt e a b c d 8 26
  let (c, e) := rnd2 xt d e a b c 14 27
  let (b, d) := rnd2 xt c d e a b 7 28
  let (a, c) := rnd2 xt b c d e a 12 29
  let (e, b) := rnd2 xt a b c d e 9 30
  let (d, a) := rnd2 xt e a b c d 11 31
  let (c, e) := rnd2 xt d e a b c 8 32
  let (b, d) := rnd2 xt c d e a b 15 33
  let (a, c) := rnd2 xt b c d e a 6 34
  let (e, b) := rnd2 xt a b c d e 12 35
  let (d, a) := rnd2 xt e a b c d 9 36
  let (c, e) := rnd2 xt d e a b c 14 37
  let (b, d) := rnd2 xt c d e a b 5 38
  let (a, c) := rnd2 xt b c d e a 13 39
  let xt := extendXTable xt 40
  let (e, b) := rnd3 xt a b c d e 5 40
  let (d, a) := rnd3 xt e a b c d 11 41
  let (c, e) := rnd3 xt d e a b c 7 42
  let (b, d) := rnd3 xt c d e a b 15 43
  let (a, c) := rnd3 xt b c d e a 6 44
  let (e, b) := rnd3 xt a b c d e 13 45
  let (d, a) := rnd3 xt e a b c d 8 46
  let (c, e) := rnd3 xt d e a b c 14 47
  let (b, d) := rnd3 xt c d e a b 7 48
  let (a, c) := rnd3 xt b c d e a 12 49
  let (e, b) := rnd3 xt a b c d e 9 50
  let (d, a) := rnd3 xt e a b c d 11 51
  let (c, e) := rnd3 xt d e a b c 8 52
  let (b, d) := rnd3 xt c d e a b 15 53
  let (a, c) := rnd3 xt b c d e a 6 54
  let (e, b) := rnd3 xt a b c d e 12 55
  let (d, a) := rnd3 xt e a b c d 9 56
  let (c, e) := rnd3 xt d e a b c 14 57
  let (b, d) := rnd3 xt c d e a b 5 58
  let (a, c) := rnd3 xt b c d e a 13 59
  let xt := extendXTable xt 60
  let (e, b) := rnd4 xt a b c d e 5 60
  let (d, a) := rnd4 xt e a b c d 11 61
  let (c, e) := rnd4 xt d e a b c 7 62
  let (b, d) := rnd4 xt c d e a b 15 63
  let (a, c) := rnd4 xt b c d e a 6 64
  let (e, b) := rnd4 xt a b c d e 13 65
  let (d, a) := rnd4 xt e a b c d 8 66
  let (c, e) := rnd4 xt d e a b c 14 67
  let (b, d) := rnd4 xt c d e a b 7 68
  let (a, c) := rnd4 xt b c d e a 12 69
  let (e, b) := rnd4 xt a b c d e 9 70
  let (d, a) := rnd4 xt e a b c d 11 71
  let (c, e) := rnd4 xt d e a b c 8 72
  let (b, d) := rnd4 xt c d e a b 15 73
  let (a, c) := rnd4 xt b c d e a 6 74
  let (e, b) := rnd4 xt a b c d e 12 75
  let (d, a) := rnd4 xt e a b c d 9 76
  let (c, e) := rnd4 xt d e a b c 14 77
  let (b, d) := rnd4 xt c d e a b 5 78
  let (a, c) := rnd4 xt b c d e a 13 79
  [(ws.getD 0 0 + a) % 4294967296, (ws.getD 1 0 + b) % 4294967296,
   (ws.getD 2 0 + c) % 4294967296, (ws.getD 3 0 + d) % 4294967296,
   (ws.getD 4 0 + e) % 4294967296]

/-- `HAS_160::addDataImpl`: count the bytes, compress whole 64-byte blocks. -/
def addDataImpl (w : MDCore) (data : List Nat) : MDCore :=
  mdImpl 64 compressWords w data

/-- One HAS-160 instance's state. -/
abbrev State := HState MDCore

/-- `HAS_160::reset`. -/
def reset (_st : State) : State :=
  ⟨[], { sizeCounter := 0,
         words := [0x67452301, 0xEFCDAB89, 0x98BADCFE, 0x10325476, 0xC3D2E1F0] }⟩

/-- A freshly constructed `HAS_160()`. -/
def initState : State := reset ⟨[], { sizeCounter := 0, words := [] }⟩

/-- `HAS_160::addData` (the span overload). -/
def addData (st : State) (inData : List Nat) : State :=
  addDataA 64 addDataImpl st inData

/-- The updated size counter computed at the top of `HAS_160::finalize`
(`m_sizeCounter += m_buffer.size()`). -/
def finalCounter (st : State) : Nat :=
  (st.core.sizeCounter + st.buffer.length) % 18446744073709551616

/-- The padded buffer that `HAS_160::finalize` compresses. -/
def finalPad (st : State) : List Nat := mdPad st.buffer (finalCounter st)

/-- `HAS_160::finalize`. -/
def finalize (st : State) : State :=
  ⟨[], addDataImpl { st.core with sizeCounter := finalCounter st } (finalPad st)⟩

/-- `HAS_160::toVector`: the five state words, each little-endian. -/
def toVector (st : State) : List Nat :=
  (st.core.words.map wordLE4).flatten

/-- `HAS_160::toString`. -/
def toString (st : State) : String := hexOfBytes (toVector st)

end HAS160

namespace RIPEMD160

/-- The RIPEMD-160 compression function over one 64-byte block: two parallel
5-round 16-step lines, the body of `RIPEMD_160::addDataImpl`. -/
def compressWords (ws : List Nat) (block : List Nat) : List Nat :=
  let x := fun (i : Nat) => load32le block i
  let f1 := fun (x y z : Nat) => x ^^^ y ^^^ z
  let f2 := fun (x y z : Nat) => (x &&& (y ^^^ z)) ^^^ z
  let f3 := fun (x y z : Nat) => (x ||| compl32 y) ^^^ z
  let f4 := fun (x y z : Nat) => ((x ^^^ y) &&& z) ^^^ y
  let f5 := fun (x y z : Nat) => x ^^^ (y ||| compl32 z)
  let a := ws.getD 0 0
  let b := ws.getD 1 0
  let c := ws.getD 2 0
  let d := ws.getD 3 0
  let e := ws.getD 4 0
  let lineL := fun (a b c d e : Nat) (fv : Nat → Nat → Nat → Nat) (k r s : Nat) =>
    ((rotl32 ((a + fv b c d + x r + k) % 4294967296) s + e) % 4294967296, rotl32 c 10)
  let aa := ws.getD 0 0
  let bb := ws.getD 1 0
  let cc := ws.getD 2 0
  let dd := ws.getD 3 0
  let ee := ws.getD 4 0
  let lineR := lineL
  let (a, c) := lineL a b c d e f1 0x00000000 0 11
  let (e, b) := lineL e a b c d f1 0x00000000 1 14
  let (aa, cc) := lineR aa bb cc dd ee f5 0x50A28BE6 5 8
  let (ee, bb) := lineR ee aa bb cc dd f5 0x50A28BE6 14 9
  let (d, a) := lineL d e a b c f1 0x00000000 2 15
  let (c, e) := lineL c d e a b f1 0x00000000 3 12
  let (dd, aa) := lineR dd ee aa bb cc f5 0x50A28BE6 7 9
  let (cc, ee) := lineR cc dd ee aa bb f5 0x50A28BE6 0 11
  let (b, d) := lineL b c d e a f1 0x00000000 4 5
  let (a, c) := lineL a b c d e f1 0x00000000 5 8
  let (bb, dd) := lineR bb cc dd ee aa f5 0x50A28BE6 9 13
  let (aa, cc) := lineR aa bb cc dd ee f5 0x50A28BE6 2 15
  let (e, b) := lineL e a b c d f1 0x00000000 6 7
  let (d, a) := lineL d e a b c f1 0x00000000 7 9
  let (ee, bb) := lineR ee aa bb cc dd f5 0x50A28BE6 11 15
  let (dd, aa) := lineR dd ee aa bb cc f5 0x50A28BE6 4 5
  let (c, e) := lineL c d e a b f1 0x00000000 8 11
  let (b, d) := lineL b c d e a f1 0x00000000 9 13
  let (cc, ee) := lineR cc dd ee aa bb f5 0x50A28BE6 13 7
  let (bb, dd) := lineR bb cc dd ee aa f5 0x50A28BE6 6 7
  let (a, c) := lineL a b c d e f1 0x00000000 10 14
  let (e, b) := lineL e a b c d f1 0x00000000 11 15
  let (aa, cc) := lineR aa bb cc dd ee f5 0x50A28BE6 15 8
  let (ee, bb) := lineR ee aa bb cc dd f5 0x50A28BE6 8 11
  let (d, a) := lineL d e a b c f1 0x00000000 12 6
  let (c, e) := lineL c d e a b f1 0x00000000 13 7
  let (dd, aa) := lineR dd ee aa bb cc f5 0x50A28BE6 1 14
  let (cc, ee) := lineR cc dd ee aa bb f5 0x50A28BE6 10 14
  let (b, d) := lineL b c d e a f1 0x00000000 14 9
  let (a, c) := lineL a b c d e f1 0x00000000 15 8
  let (bb, dd) := lineR bb cc dd ee aa f5 0x50A28BE6 3 12
  let (aa, cc) := lineR aa bb cc dd ee f5 0x50A28BE6 12 6
  let (e, b) := lineL e a b c d f2 0x5A827999 7 7
  let (d, a) := lineL d e a b c f2 0x5A827999 4 6
  let (ee, bb) := lineR ee aa bb cc dd f4 0x5C4DD124 6 9
  let (dd, aa) := lineR dd ee aa bb cc f4 0x5C4DD124 11 13
  let (c, e) := lineL c d e a b f2 0x5A827999 13 8
  let (b, d) := lineL b c d e a f2 0x5A827999 1 13
  let (cc, ee) := lineR cc dd ee aa bb f4 0x5C4DD124 3 15
  let (bb, dd) := lineR bb cc dd ee aa f4 0x5C4DD124 7 7
  let (a, c) := lineL a b c d e f2 0x5A827999 10 11
  let (e, b) := lineL e a b c d f2 0x5A827999 6 9
  let (aa, cc) := lineR aa bb cc dd ee f4 0x5C4DD124 0 12
  let (ee, bb) := lineR ee aa bb cc dd f4 0x5C4DD124 13 8
  let (d, a) := lineL d e a b c f2 0x5A827999 15 7
  let (c, e) := lineL c d e a b f2 0x5A827999 3 15
  let (dd, aa) := lineR dd ee aa bb cc f4 0x5C4DD124 5 9
  let (cc, ee) := lineR cc dd ee aa bb f4 0x5C4DD124 10 11
  let (b, d) := lineL b c d e a f2 0x5A827999 12 7
  let (a, c) := lineL a b c d e f2 0x5A827999 0 12
  let (bb, dd) := lineR bb cc dd ee aa f4 0x5C4DD124 14 7
  let (aa, cc) := lineR aa bb cc dd ee f4 0x5C4DD124 15 7
  let (e, b) := lineL e a b c d f2 0x5A827999 9 15
  let (d, a) := lineL d e a b c f2 0x5A827999 5 9
  let (ee, bb) := lineR ee aa bb cc dd f4 0x5C4DD124 8 12
  let (dd, aa) := lineR dd ee aa bb cc f4 0x5C4DD124 12 7
  let (c, e) := lineL c d e a b f2 0x5A827999 2 11
  let (b, d) := lineL b c d e a f2 0x5A827999 14 7
  let (cc, ee) := lineR cc dd ee aa bb f4 0x5C4DD124 4 6
  let (bb, dd) := lineR bb cc dd ee aa f4 0x5C4DD124 9 15
  let (a, c) := lineL a b c d e f2 0x5A827999 11 13
  let (e, b) := lineL e a b c d f2 0x5A827999 8 12
  let (aa, cc) := lineR aa bb cc dd ee f4 0x5C4DD124 1 13
  let (ee, bb) := lineR ee aa bb cc dd f4 0x5C4DD124 2 11
  let (d, a) := lineL d e a b c f3 0x6ED9EBA1 3 11
  let (c, e) := lineL c d e a b f3 0x6ED9EBA1 10 13
  let (dd, aa) := lineR dd ee aa bb cc f3 0x6D703EF3 15 9
  let (cc, ee) := lineR cc dd ee aa bb f3 0x6D703EF3 5 7
  let (b, d) := lineL b c d e a f3 0x6ED9EBA1 14 6
  let (a, c) := lineL a b c d e f3 0x6ED9EBA1 4 7
  let (bb, dd) := lineR bb cc dd ee aa f3 0x6D703EF3 1 15
  let (aa, cc) := lineR aa bb cc dd ee f3 0x6D703EF3 3 11
  let (e, b) := lineL e a b c d f3 0x6ED9EBA1 9 14
  let (d, a) := lineL d e a b c f3 0x6ED9EBA1 15 9
  let (ee, bb) := lineR ee aa bb cc dd f3 0x6D703EF3 7 8
  let (dd, aa) := lineR dd ee aa bb cc f3 0x6D703EF3 14 6
  let (c, e) := lineL c d e a b f3 0x6ED9EBA1 8 13
  let (b, d) := lineL b c d e a f3 0x6ED9EBA1 1 15
  let (cc, ee) := lineR cc dd ee aa bb f3 0x6D703EF3 6 6
  let (bb, dd) := lineR bb cc dd ee aa f3 0x6D703EF3 9 14
  let (a, c) := lineL a b c d e f3 0x6ED9EBA1 2 14
  let (e, b) := lineL e a b c d f3 0x6ED9EBA1 7 8
  let (aa, cc) := lineR aa bb cc dd ee f3 0x6D703EF3 11 12
  let (ee, bb) := lineR ee aa bb cc dd f3 0x6D703EF3 8 13
  let (d, a) := lineL d e a b c f3 0x6ED9EBA1 0 13
  let (c, e) := lineL c d e a b f3 0x6ED9EBA1 6 6
  let (dd, aa) := lineR dd ee aa bb cc f3 0x6D703EF3 12 5
  let (cc, ee) := lineR cc dd ee aa bb f3 0x6D703EF3 2 14
  let (b, d) := lineL b c d e a f3 0x6ED9EBA1 13 5
  let (a, c) := lineL a b c d e f3 0x6ED9EBA1 11 12
  let (bb, dd) := lineR bb cc dd ee aa f3 0x6D703EF3 10 13
  let (aa, cc) := lineR aa bb cc dd ee f3 0x6D703EF3 0 13
  let (e, b) := lineL e a b c d f3 0x6ED9EBA1 5 7
  let (d, a) := lineL d e a b c f3 0x6ED9EBA1 12 5
  let (ee, bb) := lineR ee aa bb cc dd f3 0x6D703EF3 4 7
  let (dd, aa) := lineR dd ee aa bb cc f3 0x6D703EF3 13 5
  let (c, e) := lineL c d e a b f4 0x8F1BBCDC 1 11
  let (b, d) := lineL b c d e a f4 0x8F1BBCDC 9 12
  let (cc, ee) := lineR cc dd ee aa bb f2 0x7A6D76E9 8 15
  let (bb, dd) := lineR bb cc dd ee aa f2 0x7A6D76E9 6 5
  let (a, c) := lineL a b c d e f4 0x8F1BBCDC 11 14
  let (e, b) := lineL e a b c d f4 0x8F1BBCDC 10 15
  let (aa, cc) := lineR aa bb cc dd ee f2 0x7A6D76E9 4 8
  let (ee, bb) := lineR ee aa bb cc dd f2 0x7A6D76E9 1 11
  let (d, a) := lineL d e a b c f4 0x8F1BBCDC 0 14
  let (c, e) := lineL c d e a b f4 0x8F1BBCDC 8 15
  let (dd, aa) := lineR dd ee aa bb cc f2 0x7A6D76E9 3 14
  let (cc, ee) := lineR cc dd ee aa bb f2 0x7A6D76E9 11 14
  let (b, d) := lineL b c d e a f4 0x8F1BBCDC 12 9
  let (a, c) := lineL a b c d e f4 0x8F1BBCDC 4 8
  let (bb, dd) := lineR bb cc dd ee aa f2 0x7A6D76E9 15 6
  let (aa, cc) := lineR aa bb cc dd ee f2 0x7A6D76E9 0 14
  let (e, b) := lineL e a b c d f4 0x8F1BBCDC 13 9
  let (d, a) := lineL d e a b c f4 0x8F1BBCDC 3 14
  let (ee, bb) := lineR ee aa bb cc dd f2 0x7A6D76E9 5 6
  let (dd, aa) := lineR dd ee aa bb cc f2 0x7A6D76E9 12 9
  let (c, e) := lineL c d e a b f4 0x8F1BBCDC 7 5
  let (b, d) := lineL b c d e a f4 0x8F1BBCDC 15 6
  let (cc, ee) := lineR cc dd ee aa bb f2 0x7A6D76E9 2 12
  let (bb, dd) := lineR bb cc dd ee aa f2 0x7A6D76E9 13 9
  let (a, c) := lineL a b c d e f4 0x8F1BBCDC 14 8
  let (e, b) := lineL e a b c d f4 0x8F1BBCDC 5 6
  let (aa, cc) := lineR aa bb cc dd ee f2 0x7A6D76E9 9 12
  let (ee, bb) := lineR ee aa bb cc dd f2 0x7A6D76E9 7 5
  let (d, a) := lineL d e a b c f4 0x8F1BBCDC 6 5
  let (c, e) := lineL c d e a b f4 0x8F1BBCDC 2 12
  let (dd, aa) := lineR dd ee aa bb cc f2 0x7A6D76E9 10 15
  let (cc, ee) := lineR cc dd ee aa bb f2 0x7A6D76E9 14 8
  let (b, d) := lineL b c d e a f5 0xA953FD4E 4 9
  let (a, c) := lineL a b c d e f5 0xA953FD4E 0 15
  let (bb, dd) := lineR bb cc dd ee aa f1 0x00000000 12 8
  let (aa, cc) := lineR aa bb cc dd ee f1 0x00000000 15 5
  let (e, b) := lineL e a b c d f5 0xA953FD4E 5 5
  let (d, a) := lineL d e a b c f5 0xA953FD4E 9 11
  let (ee, bb) := lineR ee aa bb cc dd f1 0x00000000 10 12
  let (dd, aa) := lineR dd ee aa bb cc f1 0x00000000 4 9
  let (c, e) := lineL c d e a b f5 0xA953FD4E 7 6
  let (b, d) := lineL b c d e a f5 0xA953FD4E 12 8
  let (cc, ee) := lineR cc dd ee aa bb f1 0x00000000 1 12
  let (bb, dd) := lineR bb cc dd ee aa f1 0x00000000 5 5
  let (a, c) := lineL a b c d e f5 0xA953FD4E 2 13
  let (e, b) := lineL e a b c d f5 0xA953FD4E 10 12
  let (aa, cc) := lineR aa bb cc dd ee f1 0x00000000 8 14
  let (ee, bb) := lineR ee aa bb cc dd f1 0x00000000 7 6
  let (d, a) := lineL d e a b c f5 0xA953FD4E 14 5
  let (c, e) := lineL c d e a b f5 0xA953FD4E 1 12
  let (dd, aa) := lineR dd ee aa bb cc f1 0x00000000 6 8
  let (cc, ee) := lineR cc dd ee aa bb f1 0x00000000 2 13
  let (b, d) := lineL b c d e a f5 0xA953FD4E 3 13
  let (a, c) := lineL a b c d e f5 0xA953FD4E 8 14
  let (bb, dd) := lineR bb cc dd ee aa f1 0x00000000 13 6
  let (aa, cc) := lineR aa bb cc dd ee f1 0x00000000 14 5
  let (e, b) := lineL e a b c d f5 0xA953FD4E 11 11
  let (d, a) := lineL d e a b c f5 0xA953FD4E 6 8
  let (ee, bb) := lineR ee aa bb cc dd f1 0x00000000 0 15
  let (dd, aa) := lineR dd ee aa bb cc f1 0x00000000 3 13
  let (c, e) := lineL c d e a b f5 0xA953FD4E 15 5
  let (b, d) := lineL b c d e a f5 0xA953FD4E 13 6
  let (cc, ee) := lineR cc dd ee aa bb f1 0x00000000 9 11
  let (bb, dd) := lineR bb cc dd ee aa f1 0x00000000 11 11
  let t := (ws.getD 1 0 + c + dd) % 4294967296
  [t, (ws.getD 2 0 + d + ee) % 4294967296, (ws.getD 3 0 + e + aa) % 4294967296,
   (ws.getD 4 0 + a + bb) % 4294967296, (ws.getD 0 0 + b + cc) % 4294967296]

/-- `RIPEMD_160::addDataImpl`: count the bytes, compress whole 64-byte blocks. -/
def addDataImpl (w : MDCore) (data : List Nat) : MDCore :=
  mdImpl 64 compressWords w data

/-- One RIPEMD-160 instance's state. -/
abbrev State := HState MDCore

/-- `RIPEMD_160::reset`. -/
def reset (_st : State) : State :=
  ⟨[], { sizeCounter := 0,
         words := [0x67452301, 0xEFCDAB89, 0x98BADCFE, 0x10325476, 0xC3D2E1F0] }⟩

/-- A freshly constructed `RIPEMD_160()`. -/
def initState : State := reset ⟨[], { sizeCounter := 0, words := [] }⟩

/-- `RIPEMD_160::addData` (the span overload). -/
def addData (st : State) (inData : List Nat) : State :=
  addDataA 64 addDataImpl st inData

/-- The updated size counter computed at the top of `RIPEMD_160::finalize`
(`m_sizeCounter += m_buffer.size()`). -/
def finalCounter (st : State) : Nat :=
  (st.core.sizeCounter + st.buffer.length) % 18446744073709551616

/-- The padded buffer that `RIPEMD_160::finalize` compresses. -/
def finalPad (st : State) : List Nat := mdPad st.buffer (finalCounter st)

/-- `RIPEMD_160::finalize`. -/
def finalize (st : State) : State :=
  ⟨[], addDataImpl { st.core with sizeCounter := finalCounter st } (finalPad st)⟩

/-- `RIPEMD_160::toVector`: the five state words, each little-endian. -/
def toVector (st : State) : List Nat :=
  (st.core.words.map wordLE4).flatten

/-- `RIPEMD_160::toString`. -/
def toString (st : State) : String := hexOfBytes (toVector st)

end RIPEMD160

namespace MD2

/-- The fixed 256-entry substitution table `piSubst` of MD2 (RFC 1319). -/
def piSubst : List Nat :=
  [
  41, 46, 67, 201, 162, 216, 124, 1, 61, 54, 84, 161, 236, 240, 6, 19,
  98, 167, 5, 243, 192, 199, 115, 140, 152, 147, 43, 217, 188, 76, 130, 202,
  30, 155, 87, 60, 253, 212, 224, 22, 103, 66, 111, 24, 138, 23, 229, 18,
  190, 78, 196, 214, 218, 158, 222, 73, 160, 251, 245, 142, 187, 47, 238, 122,
  169, 104, 121, 145, 21, 178, 7, 63, 148, 194, 16, 137, 11, 34, 95, 33,
  128, 127, 93, 154, 90, 144, 50, 39, 53, 62, 204, 231, 191, 247, 151, 3,
  255, 25, 48, 179, 72, 165, 181, 209, 215, 94, 146, 42, 172, 86, 170, 198,
  79, 184, 56, 210, 150, 164, 125, 182, 118, 252, 107, 226, 156, 116, 4, 241,
  69, 157, 112, 89, 100, 113, 135, 32, 134, 91, 207, 101, 230, 45, 168, 2,
  27, 96, 37, 173, 174, 176, 185, 246, 28, 70, 97, 105, 52, 64, 126, 15,
  85, 71, 163, 35, 221, 81, 175, 58, 195, 92, 249, 206, 186, 197, 234, 38,
  44, 83, 13, 110, 133, 40, 132, 9, 211, 223, 205, 244, 65, 129, 77, 82,
  106, 220, 55, 200, 108, 193, 171, 250, 36, 225, 123, 8, 12, 189, 177, 74,
  120, 136, 149, 139, 227, 99, 232, 109, 233, 203, 213, 254, 59, 0, 29, 57,
  242, 239, 183, 14, 102, 88, 208, 228, 166, 119, 114, 248, 235, 117, 75, 10,
  49, 68, 80, 180, 143, 237, 31, 26, 219, 153, 141, 51, 159, 17, 131, 20
  ]

/-- MD2 core state: 48-byte working buffer `m_x`, 16-byte running checksum
`m_checksum`, and the last checksum byte `m_checksumL`. -/
structure Core where
  x : List Nat
  checksum : List Nat
  checksumL : Nat
deriving DecidableEq

/-- One step of the running-checksum loop of `MD2::addDataImpl`: feed one
block byte through `piSubst` into the checksum state. -/
def checksumStep (m : Nat → Nat) (p : List Nat × Nat) (j : Nat) : List Nat × Nat :=
  let v := (p.1.getD j 0) ^^^ (piSubst.getD ((m j) ^^^ p.2) 0)
  (p.1.set j v, v)

/-- The block-loading loop of one `MD2::addDataImpl` block step: copy the
block into `m_x[16..31]` and its XOR against `m_x[0..15]` into
`m_x[32..47]`. -/
def loadStep (m : Nat → Nat) (l : List Nat) (j : Nat) : List Nat :=
  let l := l.set (j + 16) (m j)
  l.set (j + 32) ((l.getD (j + 16) 0) ^^^ (l.getD j 0))

/-- One inner substitution step of the 18-round MD2 mixing loop. -/
def substStep (q : List Nat × Nat) (k : Nat) : List Nat × Nat :=
  let v := (q.1.getD k 0) ^^^ (piSubst.getD q.2 0)
  (q.1.set k v, v)

/-- One of the 18 MD2 mixing rounds over the 48-byte working buffer. -/
def substRound (p : List Nat × Nat) (j : Nat) : List Nat × Nat :=
  let q := (List.range 48).foldl substStep p
  (q.1, (q.2 + j) % 256)

/-- One 16-byte-block step of `MD2::addDataImpl`: update the running checksum
through `piSubst`, load the block into `m_x[16..47]`, then 18 rounds of
sequential table substitution over the 48-byte buffer. -/
def compressBlock (w : Core) (blockData : List Nat) : Core :=
  let m := fun (j : Nat) => blockData.getD j 0
  let cs := (List.range 16).foldl (checksumStep m) (w.checksum, w.checksumL)
  let xx := (List.range 16).foldl (loadStep m) w.x
  let xt := (List.range 18).foldl substRound (xx, 0)
  { x := xt.1, checksum := cs.1, checksumL := cs.2 }

/-- `MD2::addDataImpl`: compress whole 16-byte blocks (no size counter). -/
def addDataImpl (w : Core) (data : List Nat) : Core :=
  blocksGo 16 compressBlock (data.length / 16) w data

/-- One MD2 instance's state. -/
abbrev State := HState Core

/-- `MD2::reset`: clear buffer, working bytes, checksum and checksum byte. -/
def reset (_st : State) : State :=
  ⟨[], { x := List.replicate 48 0, checksum := List.replicate 16 0, checksumL := 0 }⟩

/-- A freshly constructed `MD2()`. -/
def initState : State := reset ⟨[], { x := [], checksum := [], checksumL := 0 }⟩

/-- `MD2::addData` (the span overload). -/
def addData (st : State) (inData : List Nat) : State :=
  addDataA 16 addDataImpl st inData

/-- `MD2::finalize`: append `len = 16 - (size mod 16)` bytes of value `len`,
compress, then compress the 16-byte running checksum as one more block. -/
def finalize (st : State) : State :=
  let len := 16 - st.buffer.length % 16
  let core1 := addDataImpl st.core (st.buffer ++ List.replicate len len)
  let core2 := addDataImpl core1 core1.checksum
  ⟨[], core2⟩

/-- `MD2::toVector`: the first 16 bytes of the 48-byte working buffer. -/
def toVector (st : State) : List Nat := st.core.x.take 16

/-- `MD2::toString`. -/
def toString (st : State) : String := hexOfBytes (toVector st)

end MD2

/-- The custom 128-bit counter (`Uint128` in blake2.h and whirlpool.h, two
identical definitions) as its pair of 64-bit words. -/
structure Uint128 where
  lo : Nat
  hi : Nat
deriving DecidableEq

/-- `Uint128::operator+=(uint64_t n)`: add `n` to the low word, carrying an
overflow into the high word (`n` is a 64-bit parameter). -/
def Uint128.addU64 (v : Uint128) (n0 : Nat) : Uint128 :=
  let n := n0 % 18446744073709551616
  let newLo := (v.lo + n) % 18446744073709551616
  if newLo < v.lo then { lo := newLo, hi := (v.hi + 1) % 18446744073709551616 }
  else { lo := newLo, hi := v.hi }

/-- `Uint128::operator*(8)` (the only supported multiplication): shift left by
3, carrying the top 3 bits of the low word into the high word. -/
def Uint128.mul8 (v : Uint128) : Uint128 :=
  let msb := (v.lo >>> 61) &&& 0xff
  { lo := (v.lo <<< 3) % 18446744073709551616,
    hi := ((v.hi <<< 3) ||| msb) % 18446744073709551616 }

/-- The value a `Uint128` denotes. -/
def Uint128.toNat (v : Uint128) : Nat := v.hi * 18446744073709551616 + v.lo

/-- The tail-writing loop of `Blake1_224::finalize`: the two 32-bit counter
halves into the final 8 buffer bytes, high half first, each big-endian. -/
def writeTailBE8 (l : List Nat) (hi lo : Nat) : List Nat :=
  (List.range 4).foldl (fun acc i =>
    let acc1 := acc.set (acc.length - 8 + i) (ror8 hi (8 * (3 - i)))
    acc1.set (acc1.length - 4 + i) (ror8 lo (8 * (3 - i)))) l

/-- The tail-writing loop of `Whirlpool::finalize`: the two 64-bit counter
halves into the final 16 buffer bytes, high half first, each big-endian. -/
def writeTailBE16 (l : List Nat) (hi lo : Nat) : List Nat :=
  (List.range 8).foldl (fun acc i =>
    let acc1 := acc.set (acc.length - 16 + i) (ror8 hi (8 * (7 - i)))
    acc1.set (acc1.length - 8 + i) (ror8 lo (8 * (7 - i)))) l

namespace Blake1_224

/-- The 16 BLAKE1 constants `cTable` (digits of pi). -/
def cTable : List Nat :=
  [0x243f6a88, 0x85a308d3, 0x13198a2e, 0x03707344, 0xa4093822, 0x299f31d0, 0x082efa98, 0xec4e6c89,
   0x452821e6, 0x38d01377, 0xbe5466cf, 0x34e90c6c, 0xc0ac29b7, 0xc97c50dd, 0x3f84d5b5, 0xb5470917]

/-- The full unrolled mixing schedule of the BLAKE1-224 compression function:
one entry `(ia, ib, ic, id, mx, my, k1, k2)` per `blakeMix(v[ia], v[ib],
v[ic], v[id], m[mx], m[my], cTable[k1], cTable[k2])` call in the source, in
source order (14 rounds of 8 calls). -/
def mixSchedule : List (Nat × Nat × Nat × Nat × Nat × Nat × Nat × Nat) :=
  [
-- round
   (0, 4, 8, 12, 0, 1, 1, 0),
   (1, 5, 9, 13, 2, 3, 3, 2),
   (2, 6, 10, 14, 4, 5, 5, 4),
   (3, 7, 11, 15, 6, 7, 7, 6),
   (0, 5, 10, 15, 8, 9, 9, 8),
   (1, 6, 11, 12, 10, 11, 11, 10),
   (2, 7, 8, 13, 12, 13, 13, 12),
   (3, 4, 9, 14, 14, 15, 15, 14),
-- round
   (0, 4, 8, 12, 14, 10, 10, 14),
   (1, 5, 9, 13, 4, 8, 8, 4),
   (2, 6, 10, 14, 9, 15, 15, 9),
   (3, 7, 11, 15, 13, 6, 6, 13),
   (0, 5, 10, 15, 1, 12, 12, 1),
   (1, 6, 11, 12, 0, 2, 2, 0),
   (2, 7, 8, 13, 11, 7, 7, 11),
   (3, 4, 9, 14, 5, 3, 3, 5),
-- round
   (0, 4, 8, 12, 11, 8, 8, 11),
   (1, 5, 9, 13, 12, 0, 0, 12),
   (2, 6, 10, 14, 5, 2, 2, 5),
   (3, 7, 11, 15, 15, 13, 13, 15),
   (0, 5, 10, 15, 10, 14, 14, 10),
   (1, 6, 11, 12, 3, 6, 6, 3),
   (2, 7, 8, 13, 7, 1, 1, 7),
   (3, 4, 9, 14, 9, 4, 4, 9),
-- round
   (0, 4, 8, 12, 7, 9, 9, 7),
   (1, 5, 9, 13, 3, 1, 1, 3),
   (2, 6, 10, 14, 13, 12, 12, 13),
   (3, 7, 11, 15, 11, 14, 14, 11),
   (0, 5, 10, 15, 2, 6, 6, 2),
   (1, 6, 11, 12, 5, 10, 10, 5),
   (2, 7, 8, 13, 4, 0, 0, 4),
   (3, 4, 9, 14, 15, 8, 8, 15),
-- round
   (0, 4, 8, 12, 9, 0, 0, 9),
   (1, 5, 9, 13, 5, 7, 7, 5),
   (2, 6, 10, 14, 2, 4, 4, 2),
   (3, 7, 11, 15, 10, 15, 15, 10),
   (0, 5, 10, 15, 14, 1, 1, 14),
   (1, 6, 11, 12, 11, 12, 12, 11),
   (2, 7, 8, 13, 6, 8, 8, 6),
   (3, 4, 9, 14, 3, 13, 13, 3),
-- round
   (0, 4, 8, 12, 2, 12, 12, 2),
   (1, 5, 9, 13, 6, 10, 10, 6),
   (2, 6, 10, 14, 0, 11, 11, 0),
   (3, 7, 11, 15, 8, 3, 3, 8),
   (0, 5, 10, 15, 4, 13, 13, 4),
   (1, 6, 11, 12, 7, 5, 5, 7),
   (2, 7, 8, 13, 15, 14, 14, 15),
   (3, 4, 9, 14, 1, 9, 9, 1),
-- round
   (0, 4, 8, 12, 12, 5, 5, 12),
   (1, 5, 9, 13, 1, 15, 15, 1),
   (2, 6, 10, 14, 14, 13, 13, 14),
   (3, 7, 11, 15, 4, 10, 10, 4),
   (0, 5, 10, 15, 0, 7, 7, 0),
   (1, 6, 11, 12, 6, 3, 3, 6),
   (2, 7, 8, 13, 9, 2, 2, 9),
   (3, 4, 9, 14, 8, 11, 11, 8),
-- round
   (0, 4, 8, 12, 13, 11, 11, 13),
   (1, 5, 9, 13, 7, 14, 14, 7),
   (2, 6, 10, 14, 12, 1, 1, 12),
   (3, 7, 11, 15, 3, 9, 9, 3),
   (0, 5, 10, 15, 5, 0, 0, 5),
   (1, 6, 11, 12, 15, 4, 4, 15),
   (2, 7, 8, 13, 8, 6, 6, 8),
   (3, 4, 9, 14, 2, 10, 10, 2),
-- round
   (0, 4, 8, 12, 6, 15, 15, 6),
   (1, 5, 9, 13, 14, 9, 9, 14),
   (2, 6, 10, 14, 11, 3, 3, 11),
   (3, 7, 11, 15, 0, 8, 8, 0),
   (0, 5, 10, 15, 12, 2, 2, 12),
   (1, 6, 11, 12, 13, 7, 7, 13),
   (2, 7, 8, 13, 1, 4, 4, 1),
   (3, 4, 9, 14, 10, 5, 5, 10),
-- round
   (0, 4, 8, 12, 10, 2, 2, 10),
   (1, 5, 9, 13, 8, 4, 4, 8),
   (2, 6, 10, 14, 7, 6, 6, 7),
   (3, 7, 11, 15, 1, 5, 5, 1),
   (0, 5, 10, 15, 15, 11, 11, 15),
   (1, 6, 11, 12, 9, 14, 14, 9),
   (2, 7, 8, 13, 3, 12, 12, 3),
   (3, 4, 9, 14, 13, 0, 0, 13),
-- round
   (0, 4, 8, 12, 0, 1, 1, 0),
   (1, 5, 9, 13, 2, 3, 3, 2),
   (2, 6, 10, 14, 4, 5, 5, 4),
   (3, 7, 11, 15, 6, 7, 7, 6),
   (0, 5, 10, 15, 8, 9, 9, 8),
   (1, 6, 11, 12, 10, 11, 11, 10),
   (2, 7, 8, 13, 12, 13, 13, 12),
   (3, 4, 9, 14, 14, 15, 15, 14),
-- round
   (0, 4, 8, 12, 14, 10, 10, 14),
   (1, 5, 9, 13, 4, 8, 8, 4),
   (2, 6, 10, 14, 9, 15, 15, 9),
   (3, 7, 11, 15, 13, 6, 6, 13),
   (0, 5, 10, 15, 1, 12, 12, 1),
   (1, 6, 11, 12, 0, 2, 2, 0),
   (2, 7, 8, 13, 11, 7, 7, 11),
   (3, 4, 9, 14, 5, 3, 3, 5),
-- round
   (0, 4, 8, 12, 11, 8, 8, 11),
   (1, 5, 9, 13, 12, 0, 0, 12),
   (2, 6, 10, 14, 5, 2, 2, 5),
   (3, 7, 11, 15, 15, 13, 13, 15),
   (0, 5, 10, 15, 10, 14, 14, 10),
   (1, 6, 11, 12, 3, 6, 6, 3),
   (2, 7, 8, 13, 7, 1, 1, 7),
   (3, 4, 9, 14, 9, 4, 4, 9),
-- round
   (0, 4, 8, 12, 7, 9, 9, 7),
   (1, 5, 9, 13, 3, 1, 1, 3),
   (2, 6, 10, 14, 13, 12, 12, 13),
   (3, 7, 11, 15, 11, 14, 14, 11),
   (0, 5, 10, 15, 2, 6, 6, 2),
   (1, 6, 11, 12, 5, 10, 10, 5),
   (2, 7, 8, 13, 4, 0, 0, 4),
   (3, 4, 9, 14, 15, 8, 8, 15)
  ]

/-- One `blakeMix` call of BLAKE1-224 (the macro body) applied at the indices
of a schedule entry. -/
def blakeMixStep (m : Nat → Nat) (v : List Nat)
    (e : Nat × Nat × Nat × Nat × Nat × Nat × Nat × Nat) : List Nat :=
  match e with
  | (ia, ib, ic, id, mx, my, k1, k2) =>
    let a := v.getD ia 0
    let b := v.getD ib 0
    let c := v.getD ic 0
    let d := v.getD id 0
    let a := (a + b + ((m mx) ^^^ cTable.getD k1 0)) % 4294967296
    let d := rotr32 (d ^^^ a) 16
    let c := (c + d) % 4294967296
    let b := rotr32 (b ^^^ c) 12
    let a := (a + b + ((m my) ^^^ cTable.getD k2 0)) % 4294967296
    let d := rotr32 (d ^^^ a) 8
    let c := (c + d) % 4294967296
    let b := rotr32 (b ^^^ c) 7
    (((v.set ia a).set ib b).set ic c).set id d

/-- BLAKE1-224 core: the 64-bit bit counter `m_sizeCounter` and the eight
32-bit chaining words `m_h`. -/
structure Core where
  sizeCounter : Nat
  h : List Nat
deriving DecidableEq

/-- One 64-byte-block step of `Blake1_224::addDataImpl`: mix the counter into
`v[12..15]` unless the block is all padding, run the mixing schedule, fold
the working words back into the chaining values. -/
def compressStep (paddingLen : Nat) (w : Core) (block : List Nat) : Core :=
  let m := fun (i : Nat) => load32be block i
  let v : List Nat :=
    [w.h.getD 0 0, w.h.getD 1 0, w.h.getD 2 0, w.h.getD 3 0,
     w.h.getD 4 0, w.h.getD 5 0, w.h.getD 6 0, w.h.getD 7 0,
     cTable.getD 0 0, cTable.getD 1 0, cTable.getD 2 0, cTable.getD 3 0,
     cTable.getD 4 0, cTable.getD 5 0, cTable.getD 6 0, cTable.getD 7 0]
  let nonPaddingBits := ((sub32 64 paddingLen) * 8) % 4294967296
  let counter := (w.sizeCounter + nonPaddingBits) % 18446744073709551616
  let v :=
    if nonPaddingBits > 0 then
      let t0 := ror32 counter 0
      let t1 := ror32 counter 32
      let v := v.set 12 ((v.getD 12 0) ^^^ t0)
      let v := v.set 13 ((v.getD 13 0) ^^^ t0)
      let v := v.set 14 ((v.getD 14 0) ^^^ t1)
      v.set 15 ((v.getD 15 0) ^^^ t1)
    else v
  let v := mixSchedule.foldl (blakeMixStep m) v
  { sizeCounter := counter,
    h := [(w.h.getD 0 0) ^^^ ((v.getD 0 0) ^^^ (v.getD 8 0)),
          (w.h.getD 1 0) ^^^ ((v.getD 1 0) ^^^ (v.getD 9 0)),
          (w.h.getD 2 0) ^^^ ((v.getD 2 0) ^^^ (v.getD 10 0)),
          (w.h.getD 3 0) ^^^ ((v.getD 3 0) ^^^ (v.getD 11 0)),
          (w.h.getD 4 0) ^^^ ((v.getD 4 0) ^^^ (v.getD 12 0)),
          (w.h.getD 5 0) ^^^ ((v.getD 5 0) ^^^ (v.getD 13 0)),
          (w.h.getD 6 0) ^^^ ((v.getD 6 0) ^^^ (v.getD 14 0)),
          (w.h.getD 7 0) ^^^ ((v.getD 7 0) ^^^ (v.getD 15 0))] }

/-- `Blake1_224::addDataImpl(data, paddingLen)`. -/
def addDataImpl (w : Core) (data : List Nat) (paddingLen : Nat) : Core :=
  blocksGo 64 (compressStep paddingLen) (data.length / 64) w data

/-- One BLAKE1-224 instance's state. -/
abbrev State := HState Core

/-- `Blake1_224::reset`. -/
def reset (_st : State) : State :=
  ⟨[], { sizeCounter := 0,
         h := [0xc1059ed8, 0x367cd507, 0x3070dd17, 0xf70e5939,
               0xffc00b31, 0x68581511, 0x64f98fa7, 0xbefa4fa4] }⟩

/-- A freshly constructed `Blake1_224()`. -/
def initState : State := reset ⟨[], { sizeCounter := 0, h := [] }⟩

/-- `Blake1_224::addData` (the span overload; `paddingLen` defaults to 0). -/
def addData (st : State) (inData : List Nat) : State :=
  addDataA 64 (fun w d => addDataImpl w d 0) st inData

/-- The final bit count computed at the top of `Blake1_224::finalize`
(`m_sizeCounter + m_buffer.size() * 8`, 64-bit). -/
def finalCounterBits (st : State) : Nat :=
  (st.core.sizeCounter + st.buffer.length * 8) % 18446744073709551616

/-- The zero-fill length `len` of `Blake1_224::finalize`
(computed after the `0x80` byte is appended). -/
def padLen (st : State) : Nat := 64 - ((st.buffer.length + 1 + 8) % 64)

/-- The padded buffer that `Blake1_224::finalize` compresses: append `0x80`,
zero-pad, write the bit count (split high/low, big-endian) in the last 8
bytes. -/
def finalPad (st : State) : List Nat :=
  let buf2 := (st.buffer ++ [128]) ++ List.replicate (padLen st + 8) 0
  writeTailBE8 buf2 (ror32 (finalCounterBits st) 32) (ror32 (finalCounterBits st) 0)

/-- `Blake1_224::finalize`: pad and compress with `paddingLen = len + 9`. -/
def finalize (st : State) : State :=
  ⟨[], addDataImpl st.core (finalPad st) (padLen st + 9)⟩

/-- `Blake1_224::toVector`: the first 7 of the 8 state words, big-endian. -/
def toVector (st : State) : List Nat :=
  ((st.core.h.take 7).map wordBE4).flatten

/-- `Blake1_224::toString`. -/
def toString (st : State) : String := hexOfBytes (toVector st)

end Blake1_224

namespace Blake2

/-- The BLAKE2b initialization vector `m_initializationVector`. -/
def initializationVector : List Nat :=
  [0x6a09e667f3bcc908, 0xbb67ae8584caa73b,
   0x3c6ef372fe94f82b, 0xa54ff53a5f1d36f1,
   0x510e527fade682d1, 0x9b05688c2b3e6c1f,
   0x1f83d9abfb41bd6b, 0x5be0cd19137e2179]

/-- The `blakeMix` macro body of BLAKE2b: returns the updated `(a, b, c, d)`. -/
def blakeMix (a b c d x y : Nat) : Nat × Nat × Nat × Nat :=
  let a := (a + b + x) % 18446744073709551616
  let d := rotr64 (d ^^^ a) 32
  let c := (c + d) % 18446744073709551616
  let b := rotr64 (b ^^^ c) 24
  let a := (a + b + y) % 18446744073709551616
  let d := rotr64 (d ^^^ a) 16
  let c := (c + d) % 18446744073709551616
  let b := rotr64 (b ^^^ c) 63
  (a, b, c, d)

/-- BLAKE2b core: the 128-bit byte counter `m_sizeCounter` and the eight
64-bit chaining words `m_h`. -/
structure Core where
  sizeCounter : Uint128
  h : List Nat
deriving DecidableEq

/-- The working-vector initialisation of one BLAKE2b compression: chaining
words, then the IV, with the counter XORed into `v[12]`/`v[13]` and `v[14]`
complemented exactly when the block is final. -/
def initV (h : List Nat) (counter : Uint128) (isFinal : Bool) : List Nat :=
  [h.getD 0 0, h.getD 1 0, h.getD 2 0, h.getD 3 0,
   h.getD 4 0, h.getD 5 0, h.getD 6 0, h.getD 7 0,
   initializationVector.getD 0 0, initializationVector.getD 1 0,
   initializationVector.getD 2 0, initializationVector.getD 3 0,
   initializationVector.getD 4 0 ^^^ counter.lo,
   initializationVector.getD 5 0 ^^^ counter.hi,
   if isFinal then compl64 (initializationVector.getD 6 0)
   else initializationVector.getD 6 0,
   initializationVector.getD 7 0]

/-- The twelve unrolled rounds of BLAKE2b mixing (the 96 `blakeMix` calls of
the source, in source order) applied to the working vector. -/
def vMix (m : Nat → Nat) (vv : List Nat) : List Nat :=
  let v0 := vv.getD 0 0
  let v1 := vv.getD 1 0
  let v2 := vv.getD 2 0
  let v3 := vv.getD 3 0
  let v4 := vv.getD 4 0
  let v5 := vv.getD 5 0
  let v6 := vv.getD 6 0
  let v7 := vv.getD 7 0
  let v8 := vv.getD 8 0
  let v9 := vv.getD 9 0
  let v10 := vv.getD 10 0
  let v11 := vv.getD 11 0
  let v12 := vv.getD 12 0
  let v13 := vv.getD 13 0
  let v14 := vv.getD 14 0
  let v15 := vv.getD 15 0
  let (v0, v4, v8, v12) := blakeMix v0 v4 v8 v12 (m 0) (m 1)
  let (v1, v5, v9, v13) := blakeMix v1 v5 v9 v13 (m 2) (m 3)
  let (v2, v6, v10, v14) := blakeMix v2 v6 v10 v14 (m 4) (m 5)
  let (v3, v7, v11, v15) := blakeMix v3 v7 v11 v15 (m 6) (m 7)
  let (v0, v5, v10, v15) := blakeMix v0 v5 v10 v15 (m 8) (m 9)
  let (v1, v6, v11, v12) := blakeMix v1 v6 v11 v12 (m 10) (m 11)
  let (v2, v7, v8, v13) := blakeMix v2 v7 v8 v13 (m 12) (m 13)
  let (v3, v4, v9, v14) := blakeMix v3 v4 v9 v14 (m 14) (m 15)
  let (v0, v4, v8, v12) := blakeMix v0 v4 v8 v12 (m 14) (m 10)
  let (v1, v5, v9, v13) := blakeMix v1 v5 v9 v13 (m 4) (m 8)
  let (v2, v6, v10, v14) := blakeMix v2 v6 v10 v14 (m 9) (m 15)
  let (v3, v7, v11, v15) := blakeMix v3 v7 v11 v15 (m 13) (m 6)
  let (v0, v5, v10, v15) := blakeMix v0 v5 v10 v15 (m 1) (m 12)
  let (v1, v6, v11, v12) := blakeMix v1 v6 v11 v12 (m 0) (m 2)
  let (v2, v7, v8, v13) := blakeMix v2 v7 v8 v13 (m 11) (m 7)
  let (v3, v4, v9, v14) := blakeMix v3 v4 v9 v14 (m 5) (m 3)
  let (v0, v4, v8, v12) := blakeMix v0 v4 v8 v12 (m 11) (m 8)
  let (v1, v5, v9, v13) := blakeMix v1 v5 v9 v13 (m 12) (m 0)
  let (v2, v6, v10, v14) := blakeMix v2 v6 v10 v14 (m 5) (m 2)
  let (v3, v7, v11, v15) := blakeMix v3 v7 v11 v15 (m 15) (m 13)
  let (v0, v5, v10, v15) := blakeMix v0 v5 v10 v15 (m 10) (m 14)
  let (v1, v6, v11, v12) := blakeMix v1 v6 v11 v12 (m 3) (m 6)
  let (v2, v7, v8, v13) := blakeMix v2 v7 v8 v13 (m 7) (m 1)
  let (v3, v4, v9, v14) := blakeMix v3 v4 v9 v14 (m 9) (m 4)
  let (v0, v4, v8, v12) := blakeMix v0 v4 v8 v12 (m 7) (m 9)
  let (v1, v5, v9, v13) := blakeMix v1 v5 v9 v13 (m 3) (m 1)
  let (v2, v6, v10, v14) := blakeMix v2 v6 v10 v14 (m 13) (m 12)
  let (v3, v7, v11, v15) := blakeMix v3 v7 v11 v15 (m 11) (m 14)
  let (v0, v5, v10, v15) := blakeMix v0 v5 v10 v15 (m 2) (m 6)
  let (v1, v6, v11, v12) := blakeMix v1 v6 v11 v12 (m 5) (m 10)
  let (v2, v7, v8, v13) := blakeMix v2 v7 v8 v13 (m 4) (m 0)
  let (v3, v4, v9, v14) := blakeMix v3 v4 v9 v14 (m 15) (m 8)
  let (v0, v4, v8, v12) := blakeMix v0 v4 v8 v12 (m 9) (m 0)
  let (v1, v5, v9, v13) := blakeMix v1 v5 v9 v13 (m 5) (m 7)
  let (v2, v6, v10, v14) := blakeMix v2 v6 v10 v14 (m 2) (m 4)
  let (v3, v7, v11, v15) := blakeMix v3 v7 v11 v15 (m 10) (m 15)
  let (v0, v5, v10, v15) := blakeMix v0 v5 v10 v15 (m 14) (m 1)
  let (v1, v6, v11, v12) := blakeMix v1 v6 v11 v12 (m 11) (m 12)
  let (v2, v7, v8, v13) := blakeMix v2 v7 v8 v13 (m 6) (m 8)
  let (v3, v4, v9, v14) := blakeMix v3 v4 v9 v14 (m 3) (m 13)
  let (v0, v4, v8, v12) := blakeMix v0 v4 v8 v12 (m 2) (m 12)
  let (v1, v5, v9, v13) := blakeMix v1 v5 v9 v13 (m 6) (m 10)
  let (v2, v6, v10, v14) := blakeMix v2 v6 v10 v14 (m 0) (m 11)
  let (v3, v7, v11, v15) := blakeMix v3 v7 v11 v15 (m 8) (m 3)
  let (v0, v5, v10, v15) := blakeMix v0 v5 v10 v15 (m 4) (m 13)
  let (v1, v6, v11, v12) := blakeMix v1 v6 v11 v12 (m 7) (m 5)
  let (v2, v7, v8, v13) := blakeMix v2 v7 v8 v13 (m 15) (m 14)
  let (v3, v4, v9, v14) := blakeMix v3 v4 v9 v14 (m 1) (m 9)
  let (v0, v4, v8, v12) := blakeMix v0 v4 v8 v12 (m 12) (m 5)
  let (v1, v5, v9, v13) := blakeMix v1 v5 v9 v13 (m 1) (m 15)
  let (v2, v6, v10, v14) := blakeMix v2 v6 v10 v14 (m 14) (m 13)
  let (v3, v7, v11, v15) := blakeMix v3 v7 v11 v15 (m 4) (m 10)
  let (v0, v5, v10, v15) := blakeMix v0 v5 v10 v15 (m 0) (m 7)
  let (v1, v6, v11, v12) := blakeMix v1 v6 v11 v12 (m 6) (m 3)
  let (v2, v7, v8, v13) := blakeMix v2 v7 v8 v13 (m 9) (m 2)
  let (v3, v4, v9, v14) := blakeMix v3 v4 v9 v14 (m 8) (m 11)
  let (v0, v4, v8, v12) := blakeMix v0 v4 v8 v12 (m 13) (m 11)
  let (v1, v5, v9, v13) := blakeMix v1 v5 v9 v13 (m 7) (m 14)
  let (v2, v6, v10, v14) := blakeMix v2 v6 v10 v14 (m 12) (m 1)
  let (v3, v7, v11, v15) := blakeMix v3 v7 v11 v15 (m 3) (m 9)
  let (v0, v5, v10, v15) := blakeMix v0 v5 v10 v15 (m 5) (m 0)
  let (v1, v6, v11, v12) := blakeMix v1 v6 v11 v12 (m 15) (m 4)
  let (v2, v7, v8, v13) := blakeMix v2 v7 v8 v13 (m 8) (m 6)
  let (v3, v4, v9, v14) := blakeMix v3 v4 v9 v14 (m 2) (m 10)
  let (v0, v4, v8, v12) := blakeMix v0 v4 v8 v12 (m 6) (m 15)
  let (v1, v5, v9, v13) := blakeMix v1 v5 v9 v13 (m 14) (m 9)
  let (v2, v6, v10, v14) := blakeMix v2 v6 v10 v14 (m 11) (m 3)
  let (v3, v7, v11, v15) := blakeMix v3 v7 v11 v15 (m 0) (m 8)
  let (v0, v5, v10, v15) := blakeMix v0 v5 v10 v15 (m 12) (m 2)
  let (v1, v6, v11, v12) := blakeMix v1 v6 v11 v12 (m 13) (m 7)
  let (v2, v7, v8, v13) := blakeMix v2 v7 v8 v13 (m 1) (m 4)
  let (v3, v4, v9, v14) := blakeMix v3 v4 v9 v14 (m 10) (m 5)
  let (v0, v4, v8, v12) := blakeMix v0 v4 v8 v12 (m 10) (m 2)
  let (v1, v5, v9, v13) := blakeMix v1 v5 v9 v13 (m 8) (m 4)
  let (v2, v6, v10, v14) := blakeMix v2 v6 v10 v14 (m 7) (m 6)
  let (v3, v7, v11, v15) := blakeMix v3 v7 v11 v15 (m 1) (m 5)
  let (v0, v5, v10, v15) := blakeMix v0 v5 v10 v15 (m 15) (m 11)
  let (v1, v6, v11, v12) := blakeMix v1 v6 v11 v12 (m 9) (m 14)
  let (v2, v7, v8, v13) := blakeMix v2 v7 v8 v13 (m 3) (m 12)
  let (v3, v4, v9, v14) := blakeMix v3 v4 v9 v14 (m 13) (m 0)
  let (v0, v4, v8, v12) := blakeMix v0 v4 v8 v12 (m 0) (m 1)
  let (v1, v5, v9, v13) := blakeMix v1 v5 v9 v13 (m 2) (m 3)
  let (v2, v6, v10, v14) := blakeMix v2 v6 v10 v14 (m 4) (m 5)
  let (v3, v7, v11, v15) := blakeMix v3 v7 v11 v15 (m 6) (m 7)
  let (v0, v5, v10, v15) := blakeMix v0 v5 v10 v15 (m 8) (m 9)
  let (v1, v6, v11, v12) := blakeMix v1 v6 v11 v12 (m 10) (m 11)
  let (v2, v7, v8, v13) := blakeMix v2 v7 v8 v13 (m 12) (m 13)
  let (v3, v4, v9, v14) := blakeMix v3 v4 v9 v14 (m 14) (m 15)
  let (v0, v4, v8, v12) := blakeMix v0 v4 v8 v12 (m 14) (m 10)
  let (v1, v5, v9, v13) := blakeMix v1 v5 v9 v13 (m 4) (m 8)
  let (v2, v6, v10, v14) := blakeMix v2 v6 v10 v14 (m 9) (m 15)
  let (v3, v7, v11, v15) := blakeMix v3 v7 v11 v15 (m 13) (m 6)
  let (v0, v5, v10, v15) := blakeMix v0 v5 v10 v15 (m 1) (m 12)
  let (v1, v6, v11, v12) := blakeMix v1 v6 v11 v12 (m 0) (m 2)
  let (v2, v7, v8, v13) := blakeMix v2 v7 v8 v13 (m 11) (m 7)
  let (v3, v4, v9, v14) := blakeMix v3 v4 v9 v14 (m 5) (m 3)
  [v0, v1, v2, v3, v4, v5, v6, v7, v8, v9, v10, v11, v12, v13, v14, v15]

/-- One 128-byte-block step of `Blake2::addDataImpl`: advance the counter by
the non-padding byte count, build the working vector, run the 12 unrolled
rounds, fold back into the chaining words. -/
def compressStep (isFinal : Bool) (paddingLen : Nat) (w : Core) (block : List Nat) : Core :=
  let m := fun (i : Nat) => load64le block i
  let counter := w.sizeCounter.addU64 (sub64 128 paddingLen)
  let vv := vMix m (initV w.h counter isFinal)
  { sizeCounter := counter,
    h := [(w.h.getD 0 0) ^^^ ((vv.getD 0 0) ^^^ (vv.getD 8 0)),
          (w.h.getD 1 0) ^^^ ((vv.getD 1 0) ^^^ (vv.getD 9 0)),
          (w.h.getD 2 0) ^^^ ((vv.getD 2 0) ^^^ (vv.getD 10 0)),
          (w.h.getD 3 0) ^^^ ((vv.getD 3 0) ^^^ (vv.getD 11 0)),
          (w.h.getD 4 0) ^^^ ((vv.getD 4 0) ^^^ (vv.getD 12 0)),
          (w.h.getD 5 0) ^^^ ((vv.getD 5 0) ^^^ (vv.getD 13 0)),
          (w.h.getD 6 0) ^^^ ((vv.getD 6 0) ^^^ (vv.getD 14 0)),
          (w.h.getD 7 0) ^^^ ((vv.getD 7 0) ^^^ (vv.getD 15 0))] }

/-- `Blake2::addDataImpl(data, isFinal, paddingLen)`. -/
def addDataImpl (w : Core) (data : List Nat) (isFinal : Bool) (paddingLen : Nat) : Core :=
  blocksGo 128 (compressStep isFinal paddingLen) (data.length / 128) w data

/-- One BLAKE2b instance's state. -/
abbrev State := HState Core

/-- `Blake2::reset`: IV into the chaining words, parameter block
`0x01010000 ^ (0 << 8) ^ 64` XORed into `h[0]`. -/
def reset (_st : State) : State :=
  ⟨[], { sizeCounter := { lo := 0, hi := 0 },
         h := [(initializationVector.getD 0 0) ^^^ (0x01010000 ^^^ (0 <<< 8) ^^^ 64),
               initializationVector.getD 1 0, initializationVector.getD 2 0,
               initializationVector.getD 3 0, initializationVector.getD 4 0,
               initializationVector.getD 5 0, initializationVector.getD 6 0,
               initializationVector.getD 7 0] }⟩

/-- A freshly constructed `Blake2()`. -/
def initState : State := reset ⟨[], { sizeCounter := { lo := 0, hi := 0 }, h := [] }⟩

/-- `Blake2::addData`, a bounded-recursion rendering of the source's
self-recursive span overload (the fuel only pays for the shrinking data
argument; with `fuel = inData.length` it is never exhausted). -/
def addDataGo (fuel : Nat) (st : State) (inData : List Nat) : State :=
  if inData.isEmpty then st
  else
    match fuel with
    | 0 => st
    | fuel + 1 =>
      let bulk : State → List Nat → State := fun st data =>
        let dataSize := data.length
        let remainder := if dataSize % 128 ≠ 0 then dataSize % 128 else 128
        let len := dataSize - remainder
        let core2 := addDataImpl st.core (data.take len) false 0
        { buffer := data.drop (dataSize - remainder), core := core2 }
      if st.buffer.length = 128 then
        bulk { buffer := [], core := addDataImpl st.core st.buffer false 0 } inData
      else if st.buffer.isEmpty then
        bulk st inData
      else
        let len := min (sub64 128 st.buffer.length) inData.length
        addDataGo fuel { st with buffer := st.buffer ++ inData.take len } (inData.drop len)

/-- `Blake2::addData` (the span overload). -/
def addData (st : State) (inData : List Nat) : State :=
  addDataGo inData.length st inData

/-- `Blake2::finalize`: zero-pad the buffer to exactly one full block and
compress it once with `isFinal = true` and the padding length. -/
def finalize (st : State) : State :=
  let len := 128 - st.buffer.length
  let buf2 := st.buffer ++ List.replicate len 0
  ⟨[], addDataImpl st.core buf2 true len⟩

/-- `Blake2::toVector`: the eight state words, each little-endian. -/
def toVector (st : State) : List Nat :=
  (st.core.h.map wordLE8).flatten

/-- `Blake2::toString`. -/
def toString (st : State) : String := hexOfBytes (toVector st)

end Blake2

namespace Whirlpool

/-- Whirlpool substitution/diffusion table `cTable[0]`. -/
def cTable0 : List Nat :=
  [
  0x18186018c07830d8, 0x23238c2305af4626, 0xc6c63fc67ef991b8, 0xe8e887e8136fcdfb, 0x878726874ca113cb, 0xb8b8dab8a9626d11, 0x0101040108050209, 0x4f4f214f426e9e0d,
  0x3636d836adee6c9b, 0xa6a6a2a6590451ff, 0xd2d26fd2debdb90c, 0xf5f5f3f5fb06f70e, 0x7979f979ef80f296, 0x6f6fa16f5fcede30, 0x91917e91fcef3f6d, 0x52525552aa07a4f8,
  0x60609d6027fdc047, 0xbcbccabc89766535, 0x9b9b569baccd2b37, 0x8e8e028e048c018a, 0xa3a3b6a371155bd2, 0x0c0c300c603c186c, 0x7b7bf17bff8af684, 0x3535d435b5e16a80,
  0x1d1d741de8693af5, 0xe0e0a7e05347ddb3, 0xd7d77bd7f6acb321, 0xc2c22fc25eed999c, 0x2e2eb82e6d965c43, 0x4b4b314b627a9629, 0xfefedffea321e15d, 0x575741578216aed5,
  0x15155415a8412abd, 0x7777c1779fb6eee8, 0x3737dc37a5eb6e92, 0xe5e5b3e57b56d79e, 0x9f9f469f8cd92313, 0xf0f0e7f0d317fd23, 0x4a4a354a6a7f9420, 0xdada4fda9e95a944,
  0x58587d58fa25b0a2, 0xc9c903c906ca8fcf, 0x2929a429558d527c, 0x0a0a280a5022145a, 0xb1b1feb1e14f7f50, 0xa0a0baa0691a5dc9, 0x6b6bb16b7fdad614, 0x85852e855cab17d9,
  0xbdbdcebd8173673c, 0x5d5d695dd234ba8f, 0x1010401080502090, 0xf4f4f7f4f303f507, 0xcbcb0bcb16c08bdd, 0x3e3ef83eedc67cd3, 0x0505140528110a2d, 0x676781671fe6ce78,
  0xe4e4b7e47353d597, 0x27279c2725bb4e02, 0x4141194132588273, 0x8b8b168b2c9d0ba7, 0xa7a7a6a7510153f6, 0x7d7de97dcf94fab2, 0x95956e95dcfb3749, 0xd8d847d88e9fad56,
  0xfbfbcbfb8b30eb70, 0xeeee9fee2371c1cd, 0x7c7ced7cc791f8bb, 0x6666856617e3cc71, 0xdddd53dda68ea77b, 0x17175c17b84b2eaf, 0x4747014702468e45, 0x9e9e429e84dc211a,
  0xcaca0fca1ec589d4, 0x2d2db42d75995a58, 0xbfbfc6bf9179632e, 0x07071c07381b0e3f, 0xadad8ead012347ac, 0x5a5a755aea2fb4b0, 0x838336836cb51bef, 0x3333cc3385ff66b6,
  0x636391633ff2c65c, 0x02020802100a0412, 0xaaaa92aa39384993, 0x7171d971afa8e2de, 0xc8c807c80ecf8dc6, 0x19196419c87d32d1, 0x494939497270923b, 0xd9d943d9869aaf5f,
  0xf2f2eff2c31df931, 0xe3e3abe34b48dba8, 0x5b5b715be22ab6b9, 0x88881a8834920dbc, 0x9a9a529aa4c8293e, 0x262698262dbe4c0b, 0x3232c8328dfa64bf, 0xb0b0fab0e94a7d59,
  0xe9e983e91b6acff2, 0x0f0f3c0f78331e77, 0xd5d573d5e6a6b733, 0x80803a8074ba1df4, 0xbebec2be997c6127, 0xcdcd13cd26de87eb, 0x3434d034bde46889, 0x48483d487a759032,
  0xffffdbffab24e354, 0x7a7af57af78ff48d, 0x90907a90f4ea3d64, 0x5f5f615fc23ebe9d, 0x202080201da0403d, 0x6868bd6867d5d00f, 0x1a1a681ad07234ca, 0xaeae82ae192c41b7,
  0xb4b4eab4c95e757d, 0x54544d549a19a8ce, 0x93937693ece53b7f, 0x222288220daa442f, 0x64648d6407e9c863, 0xf1f1e3f1db12ff2a, 0x7373d173bfa2e6cc, 0x12124812905a2482,
  0x40401d403a5d807a, 0x0808200840281048, 0xc3c32bc356e89b95, 0xecec97ec337bc5df, 0xdbdb4bdb9690ab4d, 0xa1a1bea1611f5fc0, 0x8d8d0e8d1c830791, 0x3d3df43df5c97ac8,
  0x97976697ccf1335b, 0x0000000000000000, 0xcfcf1bcf36d483f9, 0x2b2bac2b4587566e, 0x7676c57697b3ece1, 0x8282328264b019e6, 0xd6d67fd6fea9b128, 0x1b1b6c1bd87736c3,
  0xb5b5eeb5c15b7774, 0xafaf86af112943be, 0x6a6ab56a77dfd41d, 0x50505d50ba0da0ea, 0x45450945124c8a57, 0xf3f3ebf3cb18fb38, 0x3030c0309df060ad, 0xefef9bef2b74c3c4,
  0x3f3ffc3fe5c37eda, 0x55554955921caac7, 0xa2a2b2a2791059db, 0xeaea8fea0365c9e9, 0x656589650fecca6a, 0xbabad2bab9686903, 0x2f2fbc2f65935e4a, 0xc0c027c04ee79d8e,
  0xdede5fdebe81a160, 0x1c1c701ce06c38fc, 0xfdfdd3fdbb2ee746, 0x4d4d294d52649a1f, 0x92927292e4e03976, 0x7575c9758fbceafa, 0x06061806301e0c36, 0x8a8a128a249809ae,
  0xb2b2f2b2f940794b, 0xe6e6bfe66359d185, 0x0e0e380e70361c7e, 0x1f1f7c1ff8633ee7, 0x6262956237f7c455, 0xd4d477d4eea3b53a, 0xa8a89aa829324d81, 0x96966296c4f43152,
  0xf9f9c3f99b3aef62, 0xc5c533c566f697a3, 0x2525942535b14a10, 0x59597959f220b2ab, 0x84842a8454ae15d0, 0x7272d572b7a7e4c5, 0x3939e439d5dd72ec, 0x4c4c2d4c5a619816,
  0x5e5e655eca3bbc94, 0x7878fd78e785f09f, 0x3838e038ddd870e5, 0x8c8c0a8c14860598, 0xd1d163d1c6b2bf17, 0xa5a5aea5410b57e4, 0xe2e2afe2434dd9a1, 0x616199612ff8c24e,
  0xb3b3f6b3f1457b42, 0x2121842115a54234, 0x9c9c4a9c94d62508, 0x1e1e781ef0663cee, 0x4343114322528661, 0xc7c73bc776fc93b1, 0xfcfcd7fcb32be54f, 0x0404100420140824,
  0x51515951b208a2e3, 0x99995e99bcc72f25, 0x6d6da96d4fc4da22, 0x0d0d340d68391a65, 0xfafacffa8335e979, 0xdfdf5bdfb684a369, 0x7e7ee57ed79bfca9, 0x242490243db44819,
  0x3b3bec3bc5d776fe, 0xabab96ab313d4b9a, 0xcece1fce3ed181f0, 0x1111441188552299, 0x8f8f068f0c890383, 0x4e4e254e4a6b9c04, 0xb7b7e6b7d1517366, 0xebeb8beb0b60cbe0,
  0x3c3cf03cfdcc78c1, 0x81813e817cbf1ffd, 0x94946a94d4fe3540, 0xf7f7fbf7eb0cf31c, 0xb9b9deb9a1676f18, 0x13134c13985f268b, 0x2c2cb02c7d9c5851, 0xd3d36bd3d6b8bb05,
  0xe7e7bbe76b5cd38c, 0x6e6ea56e57cbdc39, 0xc4c437c46ef395aa, 0x03030c03180f061b, 0x565645568a13acdc, 0x44440d441a49885e, 0x7f7fe17fdf9efea0, 0xa9a99ea921374f88,
  0x2a2aa82a4d825467, 0xbbbbd6bbb16d6b0a, 0xc1c123c146e29f87, 0x53535153a202a6f1, 0xdcdc57dcae8ba572, 0x0b0b2c0b58271653, 0x9d9d4e9d9cd32701, 0x6c6cad6c47c1d82b,
  0x3131c43195f562a4, 0x7474cd7487b9e8f3, 0xf6f6fff6e309f115, 0x464605460a438c4c, 0xacac8aac092645a5, 0x89891e893c970fb5, 0x14145014a04428b4, 0xe1e1a3e15b42dfba,
  0x16165816b04e2ca6, 0x3a3ae83acdd274f7, 0x6969b9696fd0d206, 0x09092409482d1241, 0x7070dd70a7ade0d7, 0xb6b6e2b6d954716f, 0xd0d067d0ceb7bd1e, 0xeded93ed3b7ec7d6,
  0xcccc17cc2edb85e2, 0x424215422a578468, 0x98985a98b4c22d2c, 0xa4a4aaa4490e55ed, 0x2828a0285d885075, 0x5c5c6d5cda31b886, 0xf8f8c7f8933fed6b, 0x8686228644a411c2
  ]

/-- Whirlpool substitution/diffusion table `cTable[1]`. -/
def cTable1 : List Nat :=
  [
  0xd818186018c07830, 0x2623238c2305af46, 0xb8c6c63fc67ef991, 0xfbe8e887e8136fcd, 0xcb878726874ca113, 0x11b8b8dab8a9626d, 0x0901010401080502, 0x0d4f4f214f426e9e,
  0x9b3636d836adee6c, 0xffa6a6a2a6590451, 0x0cd2d26fd2debdb9, 0x0ef5f5f3f5fb06f7, 0x967979f979ef80f2, 0x306f6fa16f5fcede, 0x6d91917e91fcef3f, 0xf852525552aa07a4,
  0x4760609d6027fdc0, 0x35bcbccabc897665, 0x379b9b569baccd2b, 0x8a8e8e028e048c01, 0xd2a3a3b6a371155b, 0x6c0c0c300c603c18, 0x847b7bf17bff8af6, 0x803535d435b5e16a,
  0xf51d1d741de8693a, 0xb3e0e0a7e05347dd, 0x21d7d77bd7f6acb3, 0x9cc2c22fc25eed99, 0x432e2eb82e6d965c, 0x294b4b314b627a96, 0x5dfefedffea321e1, 0xd5575741578216ae,
  0xbd15155415a8412a, 0xe87777c1779fb6ee, 0x923737dc37a5eb6e, 0x9ee5e5b3e57b56d7, 0x139f9f469f8cd923, 0x23f0f0e7f0d317fd, 0x204a4a354a6a7f94, 0x44dada4fda9e95a9,
  0xa258587d58fa25b0, 0xcfc9c903c906ca8f, 0x7c2929a429558d52, 0x5a0a0a280a502214, 0x50b1b1feb1e14f7f, 0xc9a0a0baa0691a5d, 0x146b6bb16b7fdad6, 0xd985852e855cab17,
  0x3cbdbdcebd817367, 0x8f5d5d695dd234ba, 0x9010104010805020, 0x07f4f4f7f4f303f5, 0xddcbcb0bcb16c08b, 0xd33e3ef83eedc67c, 0x2d0505140528110a, 0x78676781671fe6ce,
  0x97e4e4b7e47353d5, 0x0227279c2725bb4e, 0x7341411941325882, 0xa78b8b168b2c9d0b, 0xf6a7a7a6a7510153, 0xb27d7de97dcf94fa, 0x4995956e95dcfb37, 0x56d8d847d88e9fad,
  0x70fbfbcbfb8b30eb, 0xcdeeee9fee2371c1, 0xbb7c7ced7cc791f8, 0x716666856617e3cc, 0x7bdddd53dda68ea7, 0xaf17175c17b84b2e, 0x454747014702468e, 0x1a9e9e429e84dc21,
  0xd4caca0fca1ec589, 0x582d2db42d75995a, 0x2ebfbfc6bf917963, 0x3f07071c07381b0e, 0xacadad8ead012347, 0xb05a5a755aea2fb4, 0xef838336836cb51b, 0xb63333cc3385ff66,
  0x5c636391633ff2c6, 0x1202020802100a04, 0x93aaaa92aa393849, 0xde7171d971afa8e2, 0xc6c8c807c80ecf8d, 0xd119196419c87d32, 0x3b49493949727092, 0x5fd9d943d9869aaf,
  0x31f2f2eff2c31df9, 0xa8e3e3abe34b48db, 0xb95b5b715be22ab6, 0xbc88881a8834920d, 0x3e9a9a529aa4c829, 0x0b262698262dbe4c, 0xbf3232c8328dfa64, 0x59b0b0fab0e94a7d,
  0xf2e9e983e91b6acf, 0x770f0f3c0f78331e, 0x33d5d573d5e6a6b7, 0xf480803a8074ba1d, 0x27bebec2be997c61, 0xebcdcd13cd26de87, 0x893434d034bde468, 0x3248483d487a7590,
  0x54ffffdbffab24e3, 0x8d7a7af57af78ff4, 0x6490907a90f4ea3d, 0x9d5f5f615fc23ebe, 0x3d202080201da040, 0x0f6868bd6867d5d0, 0xca1a1a681ad07234, 0xb7aeae82ae192c41,
  0x7db4b4eab4c95e75, 0xce54544d549a19a8, 0x7f93937693ece53b, 0x2f222288220daa44, 0x6364648d6407e9c8, 0x2af1f1e3f1db12ff, 0xcc7373d173bfa2e6, 0x8212124812905a24,
  0x7a40401d403a5d80, 0x4808082008402810, 0x95c3c32bc356e89b, 0xdfecec97ec337bc5, 0x4ddbdb4bdb9690ab, 0xc0a1a1bea1611f5f, 0x918d8d0e8d1c8307, 0xc83d3df43df5c97a,
  0x5b97976697ccf133, 0x0000000000000000, 0xf9cfcf1bcf36d483, 0x6e2b2bac2b458756, 0xe17676c57697b3ec, 0xe68282328264b019, 0x28d6d67fd6fea9b1, 0xc31b1b6c1bd87736,
  0x74b5b5eeb5c15b77, 0xbeafaf86af112943, 0x1d6a6ab56a77dfd4, 0xea50505d50ba0da0, 0x5745450945124c8a, 0x38f3f3ebf3cb18fb, 0xad3030c0309df060, 0xc4efef9bef2b74c3,
  0xda3f3ffc3fe5c37e, 0xc755554955921caa, 0xdba2a2b2a2791059, 0xe9eaea8fea0365c9, 0x6a656589650fecca, 0x03babad2bab96869, 0x4a2f2fbc2f65935e, 0x8ec0c027c04ee79d,
  0x60dede5fdebe81a1, 0xfc1c1c701ce06c38, 0x46fdfdd3fdbb2ee7, 0x1f4d4d294d52649a, 0x7692927292e4e039, 0xfa7575c9758fbcea, 0x3606061806301e0c, 0xae8a8a128a249809,
  0x4bb2b2f2b2f94079, 0x85e6e6bfe66359d1, 0x7e0e0e380e70361c, 0xe71f1f7c1ff8633e, 0x556262956237f7c4, 0x3ad4d477d4eea3b5, 0x81a8a89aa829324d, 0x5296966296c4f431,
  0x62f9f9c3f99b3aef, 0xa3c5c533c566f697, 0x102525942535b14a, 0xab59597959f220b2, 0xd084842a8454ae15, 0xc57272d572b7a7e4, 0xec3939e439d5dd72, 0x164c4c2d4c5a6198,
  0x945e5e655eca3bbc, 0x9f7878fd78e785f0, 0xe53838e038ddd870, 0x988c8c0a8c148605, 0x17d1d163d1c6b2bf, 0xe4a5a5aea5410b57, 0xa1e2e2afe2434dd9, 0x4e616199612ff8c2,
  0x42b3b3f6b3f1457b, 0x342121842115a542, 0x089c9c4a9c94d625, 0xee1e1e781ef0663c, 0x6143431143225286, 0xb1c7c73bc776fc93, 0x4ffcfcd7fcb32be5, 0x2404041004201408,
  0xe351515951b208a2, 0x2599995e99bcc72f, 0x226d6da96d4fc4da, 0x650d0d340d68391a, 0x79fafacffa8335e9, 0x69dfdf5bdfb684a3, 0xa97e7ee57ed79bfc, 0x19242490243db448,
  0xfe3b3bec3bc5d776, 0x9aabab96ab313d4b, 0xf0cece1fce3ed181, 0x9911114411885522, 0x838f8f068f0c8903, 0x044e4e254e4a6b9c, 0x66b7b7e6b7d15173, 0xe0ebeb8beb0b60cb,
  0xc13c3cf03cfdcc78, 0xfd81813e817cbf1f, 0x4094946a94d4fe35, 0x1cf7f7fbf7eb0cf3, 0x18b9b9deb9a1676f, 0x8b13134c13985f26, 0x512c2cb02c7d9c58, 0x05d3d36bd3d6b8bb,
  0x8ce7e7bbe76b5cd3, 0x396e6ea56e57cbdc, 0xaac4c437c46ef395, 0x1b03030c03180f06, 0xdc565645568a13ac, 0x5e44440d441a4988, 0xa07f7fe17fdf9efe, 0x88a9a99ea921374f,
  0x672a2aa82a4d8254, 0x0abbbbd6bbb16d6b, 0x87c1c123c146e29f, 0xf153535153a202a6, 0x72dcdc57dcae8ba5, 0x530b0b2c0b582716, 0x019d9d4e9d9cd327, 0x2b6c6cad6c47c1d8,
  0xa43131c43195f562, 0xf37474cd7487b9e8, 0x15f6f6fff6e309f1, 0x4c464605460a438c, 0xa5acac8aac092645, 0xb589891e893c970f, 0xb414145014a04428, 0xbae1e1a3e15b42df,
  0xa616165816b04e2c, 0xf73a3ae83acdd274, 0x066969b9696fd0d2, 0x4109092409482d12, 0xd77070dd70a7ade0, 0x6fb6b6e2b6d95471, 0x1ed0d067d0ceb7bd, 0xd6eded93ed3b7ec7,
  0xe2cccc17cc2edb85, 0x68424215422a5784, 0x2c98985a98b4c22d, 0xeda4a4aaa4490e55, 0x752828a0285d8850, 0x865c5c6d5cda31b8, 0x6bf8f8c7f8933fed, 0xc28686228644a411
  ]

/-- Whirlpool substitution/diffusion table `cTable[2]`. -/
def cTable2 : List Nat :=
  [
  0x30d818186018c078, 0x462623238c2305af, 0x91b8c6c63fc67ef9, 0xcdfbe8e887e8136f, 0x13cb878726874ca1, 0x6d11b8b8dab8a962, 0x0209010104010805, 0x9e0d4f4f214f426e,
  0x6c9b3636d836adee, 0x51ffa6a6a2a65904, 0xb90cd2d26fd2debd, 0xf70ef5f5f3f5fb06, 0xf2967979f979ef80, 0xde306f6fa16f5fce, 0x3f6d91917e91fcef, 0xa4f852525552aa07,
  0xc04760609d6027fd, 0x6535bcbccabc8976, 0x2b379b9b569baccd, 0x018a8e8e028e048c, 0x5bd2a3a3b6a37115, 0x186c0c0c300c603c, 0xf6847b7bf17bff8a, 0x6a803535d435b5e1,
  0x3af51d1d741de869, 0xddb3e0e0a7e05347, 0xb321d7d77bd7f6ac, 0x999cc2c22fc25eed, 0x5c432e2eb82e6d96, 0x96294b4b314b627a, 0xe15dfefedffea321, 0xaed5575741578216,
  0x2abd15155415a841, 0xeee87777c1779fb6, 0x6e923737dc37a5eb, 0xd79ee5e5b3e57b56, 0x23139f9f469f8cd9, 0xfd23f0f0e7f0d317, 0x94204a4a354a6a7f, 0xa944dada4fda9e95,
  0xb0a258587d58fa25, 0x8fcfc9c903c906ca, 0x527c2929a429558d, 0x145a0a0a280a5022, 0x7f50b1b1feb1e14f, 0x5dc9a0a0baa0691a, 0xd6146b6bb16b7fda, 0x17d985852e855cab,
  0x673cbdbdcebd8173, 0xba8f5d5d695dd234, 0x2090101040108050, 0xf507f4f4f7f4f303, 0x8bddcbcb0bcb16c0, 0x7cd33e3ef83eedc6, 0x0a2d050514052811, 0xce78676781671fe6,
  0xd597e4e4b7e47353, 0x4e0227279c2725bb, 0x8273414119413258, 0x0ba78b8b168b2c9d, 0x53f6a7a7a6a75101, 0xfab27d7de97dcf94, 0x374995956e95dcfb, 0xad56d8d847d88e9f,
  0xeb70fbfbcbfb8b30, 0xc1cdeeee9fee2371, 0xf8bb7c7ced7cc791, 0xcc716666856617e3, 0xa77bdddd53dda68e, 0x2eaf17175c17b84b, 0x8e45474701470246, 0x211a9e9e429e84dc,
  0x89d4caca0fca1ec5, 0x5a582d2db42d7599, 0x632ebfbfc6bf9179, 0x0e3f07071c07381b, 0x47acadad8ead0123, 0xb4b05a5a755aea2f, 0x1bef838336836cb5, 0x66b63333cc3385ff,
  0xc65c636391633ff2, 0x041202020802100a, 0x4993aaaa92aa3938, 0xe2de7171d971afa8, 0x8dc6c8c807c80ecf, 0x32d119196419c87d, 0x923b494939497270, 0xaf5fd9d943d9869a,
  0xf931f2f2eff2c31d, 0xdba8e3e3abe34b48, 0xb6b95b5b715be22a, 0x0dbc88881a883492, 0x293e9a9a529aa4c8, 0x4c0b262698262dbe, 0x64bf3232c8328dfa, 0x7d59b0b0fab0e94a,
  0xcff2e9e983e91b6a, 0x1e770f0f3c0f7833, 0xb733d5d573d5e6a6, 0x1df480803a8074ba, 0x6127bebec2be997c, 0x87ebcdcd13cd26de, 0x68893434d034bde4, 0x903248483d487a75,
  0xe354ffffdbffab24, 0xf48d7a7af57af78f, 0x3d6490907a90f4ea, 0xbe9d5f5f615fc23e, 0x403d202080201da0, 0xd00f6868bd6867d5, 0x34ca1a1a681ad072, 0x41b7aeae82ae192c,
  0x757db4b4eab4c95e, 0xa8ce54544d549a19, 0x3b7f93937693ece5, 0x442f222288220daa, 0xc86364648d6407e9, 0xff2af1f1e3f1db12, 0xe6cc7373d173bfa2, 0x248212124812905a,
  0x807a40401d403a5d, 0x1048080820084028, 0x9b95c3c32bc356e8, 0xc5dfecec97ec337b, 0xab4ddbdb4bdb9690, 0x5fc0a1a1bea1611f, 0x07918d8d0e8d1c83, 0x7ac83d3df43df5c9,
  0x335b97976697ccf1, 0x0000000000000000, 0x83f9cfcf1bcf36d4, 0x566e2b2bac2b4587, 0xece17676c57697b3, 0x19e68282328264b0, 0xb128d6d67fd6fea9, 0x36c31b1b6c1bd877,
  0x7774b5b5eeb5c15b, 0x43beafaf86af1129, 0xd41d6a6ab56a77df, 0xa0ea50505d50ba0d, 0x8a5745450945124c, 0xfb38f3f3ebf3cb18, 0x60ad3030c0309df0, 0xc3c4efef9bef2b74,
  0x7eda3f3ffc3fe5c3, 0xaac755554955921c, 0x59dba2a2b2a27910, 0xc9e9eaea8fea0365, 0xca6a656589650fec, 0x6903babad2bab968, 0x5e4a2f2fbc2f6593, 0x9d8ec0c027c04ee7,
  0xa160dede5fdebe81, 0x38fc1c1c701ce06c, 0xe746fdfdd3fdbb2e, 0x9a1f4d4d294d5264, 0x397692927292e4e0, 0xeafa7575c9758fbc, 0x0c3606061806301e, 0x09ae8a8a128a2498,
  0x794bb2b2f2b2f940, 0xd185e6e6bfe66359, 0x1c7e0e0e380e7036, 0x3ee71f1f7c1ff863, 0xc4556262956237f7, 0xb53ad4d477d4eea3, 0x4d81a8a89aa82932, 0x315296966296c4f4,
  0xef62f9f9c3f99b3a, 0x97a3c5c533c566f6, 0x4a102525942535b1, 0xb2ab59597959f220, 0x15d084842a8454ae, 0xe4c57272d572b7a7, 0x72ec3939e439d5dd, 0x98164c4c2d4c5a61,
  0xbc945e5e655eca3b, 0xf09f7878fd78e785, 0x70e53838e038ddd8, 0x05988c8c0a8c1486, 0xbf17d1d163d1c6b2, 0x57e4a5a5aea5410b, 0xd9a1e2e2afe2434d, 0xc24e616199612ff8,
  0x7b42b3b3f6b3f145, 0x42342121842115a5, 0x25089c9c4a9c94d6, 0x3cee1e1e781ef066, 0x8661434311432252, 0x93b1c7c73bc776fc, 0xe54ffcfcd7fcb32b, 0x0824040410042014,
  0xa2e351515951b208, 0x2f2599995e99bcc7, 0xda226d6da96d4fc4, 0x1a650d0d340d6839, 0xe979fafacffa8335, 0xa369dfdf5bdfb684, 0xfca97e7ee57ed79b, 0x4819242490243db4,
  0x76fe3b3bec3bc5d7, 0x4b9aabab96ab313d, 0x81f0cece1fce3ed1, 0x2299111144118855, 0x03838f8f068f0c89, 0x9c044e4e254e4a6b, 0x7366b7b7e6b7d151, 0xcbe0ebeb8beb0b60,
  0x78c13c3cf03cfdcc, 0x1ffd81813e817cbf, 0x354094946a94d4fe, 0xf31cf7f7fbf7eb0c, 0x6f18b9b9deb9a167, 0x268b13134c13985f, 0x58512c2cb02c7d9c, 0xbb05d3d36bd3d6b8,
  0xd38ce7e7bbe76b5c, 0xdc396e6ea56e57cb, 0x95aac4c437c46ef3, 0x061b03030c03180f, 0xacdc565645568a13, 0x885e44440d441a49, 0xfea07f7fe17fdf9e, 0x4f88a9a99ea92137,
  0x54672a2aa82a4d82, 0x6b0abbbbd6bbb16d, 0x9f87c1c123c146e2, 0xa6f153535153a202, 0xa572dcdc57dcae8b, 0x16530b0b2c0b5827, 0x27019d9d4e9d9cd3, 0xd82b6c6cad6c47c1,
  0x62a43131c43195f5, 0xe8f37474cd7487b9, 0xf115f6f6fff6e309, 0x8c4c464605460a43, 0x45a5acac8aac0926, 0x0fb589891e893c97, 0x28b414145014a044, 0xdfbae1e1a3e15b42,
  0x2ca616165816b04e, 0x74f73a3ae83acdd2, 0xd2066969b9696fd0, 0x124109092409482d, 0xe0d77070dd70a7ad, 0x716fb6b6e2b6d954, 0xbd1ed0d067d0ceb7, 0xc7d6eded93ed3b7e,
  0x85e2cccc17cc2edb, 0x8468424215422a57, 0x2d2c98985a98b4c2, 0x55eda4a4aaa4490e, 0x50752828a0285d88, 0xb8865c5c6d5cda31, 0xed6bf8f8c7f8933f, 0x11c28686228644a4
  ]

/-- Whirlpool substitution/diffusion table `cTable[3]`. -/
def cTable3 : List Nat :=
  [
  0x7830d818186018c0, 0xaf462623238c2305, 0xf991b8c6c63fc67e, 0x6fcdfbe8e887e813, 0xa113cb878726874c, 0x626d11b8b8dab8a9, 0x0502090101040108, 0x6e9e0d4f4f214f42,
  0xee6c9b3636d836ad, 0x0451ffa6a6a2a659, 0xbdb90cd2d26fd2de, 0x06f70ef5f5f3f5fb, 0x80f2967979f979ef, 0xcede306f6fa16f5f, 0xef3f6d91917e91fc, 0x07a4f852525552aa,
  0xfdc04760609d6027, 0x766535bcbccabc89, 0xcd2b379b9b569bac, 0x8c018a8e8e028e04, 0x155bd2a3a3b6a371, 0x3c186c0c0c300c60, 0x8af6847b7bf17bff, 0xe16a803535d435b5,
  0x693af51d1d741de8, 0x47ddb3e0e0a7e053, 0xacb321d7d77bd7f6, 0xed999cc2c22fc25e, 0x965c432e2eb82e6d, 0x7a96294b4b314b62, 0x21e15dfefedffea3, 0x16aed55757415782,
  0x412abd15155415a8, 0xb6eee87777c1779f, 0xeb6e923737dc37a5, 0x56d79ee5e5b3e57b, 0xd923139f9f469f8c, 0x17fd23f0f0e7f0d3, 0x7f94204a4a354a6a, 0x95a944dada4fda9e,
  0x25b0a258587d58fa, 0xca8fcfc9c903c906, 0x8d527c2929a42955, 0x22145a0a0a280a50, 0x4f7f50b1b1feb1e1, 0x1a5dc9a0a0baa069, 0xdad6146b6bb16b7f, 0xab17d985852e855c,
  0x73673cbdbdcebd81, 0x34ba8f5d5d695dd2, 0x5020901010401080, 0x03f507f4f4f7f4f3, 0xc08bddcbcb0bcb16, 0xc67cd33e3ef83eed, 0x110a2d0505140528, 0xe6ce78676781671f,
  0x53d597e4e4b7e473, 0xbb4e0227279c2725, 0x5882734141194132, 0x9d0ba78b8b168b2c, 0x0153f6a7a7a6a751, 0x94fab27d7de97dcf, 0xfb374995956e95dc, 0x9fad56d8d847d88e,
  0x30eb70fbfbcbfb8b, 0x71c1cdeeee9fee23, 0x91f8bb7c7ced7cc7, 0xe3cc716666856617, 0x8ea77bdddd53dda6, 0x4b2eaf17175c17b8, 0x468e454747014702, 0xdc211a9e9e429e84,
  0xc589d4caca0fca1e, 0x995a582d2db42d75, 0x79632ebfbfc6bf91, 0x1b0e3f07071c0738, 0x2347acadad8ead01, 0x2fb4b05a5a755aea, 0xb51bef838336836c, 0xff66b63333cc3385,
  0xf2c65c636391633f, 0x0a04120202080210, 0x384993aaaa92aa39, 0xa8e2de7171d971af, 0xcf8dc6c8c807c80e, 0x7d32d119196419c8, 0x70923b4949394972, 0x9aaf5fd9d943d986,
  0x1df931f2f2eff2c3, 0x48dba8e3e3abe34b, 0x2ab6b95b5b715be2, 0x920dbc88881a8834, 0xc8293e9a9a529aa4, 0xbe4c0b262698262d, 0xfa64bf3232c8328d, 0x4a7d59b0b0fab0e9,
  0x6acff2e9e983e91b, 0x331e770f0f3c0f78, 0xa6b733d5d573d5e6, 0xba1df480803a8074, 0x7c6127bebec2be99, 0xde87ebcdcd13cd26, 0xe468893434d034bd, 0x75903248483d487a,
  0x24e354ffffdbffab, 0x8ff48d7a7af57af7, 0xea3d6490907a90f4, 0x3ebe9d5f5f615fc2, 0xa0403d202080201d, 0xd5d00f6868bd6867, 0x7234ca1a1a681ad0, 0x2c41b7aeae82ae19,
  0x5e757db4b4eab4c9, 0x19a8ce54544d549a, 0xe53b7f93937693ec, 0xaa442f222288220d, 0xe9c86364648d6407, 0x12ff2af1f1e3f1db, 0xa2e6cc7373d173bf, 0x5a24821212481290,
  0x5d807a40401d403a, 0x2810480808200840, 0xe89b95c3c32bc356, 0x7bc5dfecec97ec33, 0x90ab4ddbdb4bdb96, 0x1f5fc0a1a1bea161, 0x8307918d8d0e8d1c, 0xc97ac83d3df43df5,
  0xf1335b97976697cc, 0x0000000000000000, 0xd483f9cfcf1bcf36, 0x87566e2b2bac2b45, 0xb3ece17676c57697, 0xb019e68282328264, 0xa9b128d6d67fd6fe, 0x7736c31b1b6c1bd8,
  0x5b7774b5b5eeb5c1, 0x2943beafaf86af11, 0xdfd41d6a6ab56a77, 0x0da0ea50505d50ba, 0x4c8a574545094512, 0x18fb38f3f3ebf3cb, 0xf060ad3030c0309d, 0x74c3c4efef9bef2b,
  0xc37eda3f3ffc3fe5, 0x1caac75555495592, 0x1059dba2a2b2a279, 0x65c9e9eaea8fea03, 0xecca6a656589650f, 0x686903babad2bab9, 0x935e4a2f2fbc2f65, 0xe79d8ec0c027c04e,
  0x81a160dede5fdebe, 0x6c38fc1c1c701ce0, 0x2ee746fdfdd3fdbb, 0x649a1f4d4d294d52, 0xe0397692927292e4, 0xbceafa7575c9758f, 0x1e0c360606180630, 0x9809ae8a8a128a24,
  0x40794bb2b2f2b2f9, 0x59d185e6e6bfe663, 0x361c7e0e0e380e70, 0x633ee71f1f7c1ff8, 0xf7c4556262956237, 0xa3b53ad4d477d4ee, 0x324d81a8a89aa829, 0xf4315296966296c4,
  0x3aef62f9f9c3f99b, 0xf697a3c5c533c566, 0xb14a102525942535, 0x20b2ab59597959f2, 0xae15d084842a8454, 0xa7e4c57272d572b7, 0xdd72ec3939e439d5, 0x6198164c4c2d4c5a,
  0x3bbc945e5e655eca, 0x85f09f7878fd78e7, 0xd870e53838e038dd, 0x8605988c8c0a8c14, 0xb2bf17d1d163d1c6, 0x0b57e4a5a5aea541, 0x4dd9a1e2e2afe243, 0xf8c24e616199612f,
  0x457b42b3b3f6b3f1, 0xa542342121842115, 0xd625089c9c4a9c94, 0x663cee1e1e781ef0, 0x5286614343114322, 0xfc93b1c7c73bc776, 0x2be54ffcfcd7fcb3, 0x1408240404100420,
  0x08a2e351515951b2, 0xc72f2599995e99bc, 0xc4da226d6da96d4f, 0x391a650d0d340d68, 0x35e979fafacffa83, 0x84a369dfdf5bdfb6, 0x9bfca97e7ee57ed7, 0xb44819242490243d,
  0xd776fe3b3bec3bc5, 0x3d4b9aabab96ab31, 0xd181f0cece1fce3e, 0x5522991111441188, 0x8903838f8f068f0c, 0x6b9c044e4e254e4a, 0x517366b7b7e6b7d1, 0x60cbe0ebeb8beb0b,
  0xcc78c13c3cf03cfd, 0xbf1ffd81813e817c, 0xfe354094946a94d4, 0x0cf31cf7f7fbf7eb, 0x676f18b9b9deb9a1, 0x5f268b13134c1398, 0x9c58512c2cb02c7d, 0xb8bb05d3d36bd3d6,
  0x5cd38ce7e7bbe76b, 0xcbdc396e6ea56e57, 0xf395aac4c437c46e, 0x0f061b03030c0318, 0x13acdc565645568a, 0x49885e44440d441a, 0x9efea07f7fe17fdf, 0x374f88a9a99ea921,
  0x8254672a2aa82a4d, 0x6d6b0abbbbd6bbb1, 0xe29f87c1c123c146, 0x02a6f153535153a2, 0x8ba572dcdc57dcae, 0x2716530b0b2c0b58, 0xd327019d9d4e9d9c, 0xc1d82b6c6cad6c47,
  0xf562a43131c43195, 0xb9e8f37474cd7487, 0x09f115f6f6fff6e3, 0x438c4c464605460a, 0x2645a5acac8aac09, 0x970fb589891e893c, 0x4428b414145014a0, 0x42dfbae1e1a3e15b,
  0x4e2ca616165816b0, 0xd274f73a3ae83acd, 0xd0d2066969b9696f, 0x2d12410909240948, 0xade0d77070dd70a7, 0x54716fb6b6e2b6d9, 0xb7bd1ed0d067d0ce, 0x7ec7d6eded93ed3b,
  0xdb85e2cccc17cc2e, 0x578468424215422a, 0xc22d2c98985a98b4, 0x0e55eda4a4aaa449, 0x8850752828a0285d, 0x31b8865c5c6d5cda, 0x3fed6bf8f8c7f893, 0xa411c28686228644
  ]

/-- Whirlpool substitution/diffusion table `cTable[4]`. -/
def cTable4 : List Nat :=
  [
  0xc07830d818186018, 0x05af462623238c23, 0x7ef991b8c6c63fc6, 0x136fcdfbe8e887e8, 0x4ca113cb87872687, 0xa9626d11b8b8dab8, 0x0805020901010401, 0x426e9e0d4f4f214f,
  0xadee6c9b3636d836, 0x590451ffa6a6a2a6, 0xdebdb90cd2d26fd2, 0xfb06f70ef5f5f3f5, 0xef80f2967979f979, 0x5fcede306f6fa16f, 0xfcef3f6d91917e91, 0xaa07a4f852525552,
  0x27fdc04760609d60, 0x89766535bcbccabc, 0xaccd2b379b9b569b, 0x048c018a8e8e028e, 0x71155bd2a3a3b6a3, 0x603c186c0c0c300c, 0xff8af6847b7bf17b, 0xb5e16a803535d435,
  0xe8693af51d1d741d, 0x5347ddb3e0e0a7e0, 0xf6acb321d7d77bd7, 0x5eed999cc2c22fc2, 0x6d965c432e2eb82e, 0x627a96294b4b314b, 0xa321e15dfefedffe, 0x8216aed557574157,
  0xa8412abd15155415, 0x9fb6eee87777c177, 0xa5eb6e923737dc37, 0x7b56d79ee5e5b3e5, 0x8cd923139f9f469f, 0xd317fd23f0f0e7f0, 0x6a7f94204a4a354a, 0x9e95a944dada4fda,
  0xfa25b0a258587d58, 0x06ca8fcfc9c903c9, 0x558d527c2929a429, 0x5022145a0a0a280a, 0xe14f7f50b1b1feb1, 0x691a5dc9a0a0baa0, 0x7fdad6146b6bb16b, 0x5cab17d985852e85,
  0x8173673cbdbdcebd, 0xd234ba8f5d5d695d, 0x8050209010104010, 0xf303f507f4f4f7f4, 0x16c08bddcbcb0bcb, 0xedc67cd33e3ef83e, 0x28110a2d05051405, 0x1fe6ce7867678167,
  0x7353d597e4e4b7e4, 0x25bb4e0227279c27, 0x3258827341411941, 0x2c9d0ba78b8b168b, 0x510153f6a7a7a6a7, 0xcf94fab27d7de97d, 0xdcfb374995956e95, 0x8e9fad56d8d847d8,
  0x8b30eb70fbfbcbfb, 0x2371c1cdeeee9fee, 0xc791f8bb7c7ced7c, 0x17e3cc7166668566, 0xa68ea77bdddd53dd, 0xb84b2eaf17175c17, 0x02468e4547470147, 0x84dc211a9e9e429e,
  0x1ec589d4caca0fca, 0x75995a582d2db42d, 0x9179632ebfbfc6bf, 0x381b0e3f07071c07, 0x012347acadad8ead, 0xea2fb4b05a5a755a, 0x6cb51bef83833683, 0x85ff66b63333cc33,
  0x3ff2c65c63639163, 0x100a041202020802, 0x39384993aaaa92aa, 0xafa8e2de7171d971, 0x0ecf8dc6c8c807c8, 0xc87d32d119196419, 0x7270923b49493949, 0x869aaf5fd9d943d9,
  0xc31df931f2f2eff2, 0x4b48dba8e3e3abe3, 0xe22ab6b95b5b715b, 0x34920dbc88881a88, 0xa4c8293e9a9a529a, 0x2dbe4c0b26269826, 0x8dfa64bf3232c832, 0xe94a7d59b0b0fab0,
  0x1b6acff2e9e983e9, 0x78331e770f0f3c0f, 0xe6a6b733d5d573d5, 0x74ba1df480803a80, 0x997c6127bebec2be, 0x26de87ebcdcd13cd, 0xbde468893434d034, 0x7a75903248483d48,
  0xab24e354ffffdbff, 0xf78ff48d7a7af57a, 0xf4ea3d6490907a90, 0xc23ebe9d5f5f615f, 0x1da0403d20208020, 0x67d5d00f6868bd68, 0xd07234ca1a1a681a, 0x192c41b7aeae82ae,
  0xc95e757db4b4eab4, 0x9a19a8ce54544d54, 0xece53b7f93937693, 0x0daa442f22228822, 0x07e9c86364648d64, 0xdb12ff2af1f1e3f1, 0xbfa2e6cc7373d173, 0x905a248212124812,
  0x3a5d807a40401d40, 0x4028104808082008, 0x56e89b95c3c32bc3, 0x337bc5dfecec97ec, 0x9690ab4ddbdb4bdb, 0x611f5fc0a1a1bea1, 0x1c8307918d8d0e8d, 0xf5c97ac83d3df43d,
  0xccf1335b97976697, 0x0000000000000000, 0x36d483f9cfcf1bcf, 0x4587566e2b2bac2b, 0x97b3ece17676c576, 0x64b019e682823282, 0xfea9b128d6d67fd6, 0xd87736c31b1b6c1b,
  0xc15b7774b5b5eeb5, 0x112943beafaf86af, 0x77dfd41d6a6ab56a, 0xba0da0ea50505d50, 0x124c8a5745450945, 0xcb18fb38f3f3ebf3, 0x9df060ad3030c030, 0x2b74c3c4efef9bef,
  0xe5c37eda3f3ffc3f, 0x921caac755554955, 0x791059dba2a2b2a2, 0x0365c9e9eaea8fea, 0x0fecca6a65658965, 0xb9686903babad2ba, 0x65935e4a2f2fbc2f, 0x4ee79d8ec0c027c0,
  0xbe81a160dede5fde, 0xe06c38fc1c1c701c, 0xbb2ee746fdfdd3fd, 0x52649a1f4d4d294d, 0xe4e0397692927292, 0x8fbceafa7575c975, 0x301e0c3606061806, 0x249809ae8a8a128a,
  0xf940794bb2b2f2b2, 0x6359d185e6e6bfe6, 0x70361c7e0e0e380e, 0xf8633ee71f1f7c1f, 0x37f7c45562629562, 0xeea3b53ad4d477d4, 0x29324d81a8a89aa8, 0xc4f4315296966296,
  0x9b3aef62f9f9c3f9, 0x66f697a3c5c533c5, 0x35b14a1025259425, 0xf220b2ab59597959, 0x54ae15d084842a84, 0xb7a7e4c57272d572, 0xd5dd72ec3939e439, 0x5a6198164c4c2d4c,
  0xca3bbc945e5e655e, 0xe785f09f7878fd78, 0xddd870e53838e038, 0x148605988c8c0a8c, 0xc6b2bf17d1d163d1, 0x410b57e4a5a5aea5, 0x434dd9a1e2e2afe2, 0x2ff8c24e61619961,
  0xf1457b42b3b3f6b3, 0x15a5423421218421, 0x94d625089c9c4a9c, 0xf0663cee1e1e781e, 0x2252866143431143, 0x76fc93b1c7c73bc7, 0xb32be54ffcfcd7fc, 0x2014082404041004,
  0xb208a2e351515951, 0xbcc72f2599995e99, 0x4fc4da226d6da96d, 0x68391a650d0d340d, 0x8335e979fafacffa, 0xb684a369dfdf5bdf, 0xd79bfca97e7ee57e, 0x3db4481924249024,
  0xc5d776fe3b3bec3b, 0x313d4b9aabab96ab, 0x3ed181f0cece1fce, 0x8855229911114411, 0x0c8903838f8f068f, 0x4a6b9c044e4e254e, 0xd1517366b7b7e6b7, 0x0b60cbe0ebeb8beb,
  0xfdcc78c13c3cf03c, 0x7cbf1ffd81813e81, 0xd4fe354094946a94, 0xeb0cf31cf7f7fbf7, 0xa1676f18b9b9deb9, 0x985f268b13134c13, 0x7d9c58512c2cb02c, 0xd6b8bb05d3d36bd3,
  0x6b5cd38ce7e7bbe7, 0x57cbdc396e6ea56e, 0x6ef395aac4c437c4, 0x180f061b03030c03, 0x8a13acdc56564556, 0x1a49885e44440d44, 0xdf9efea07f7fe17f, 0x21374f88a9a99ea9,
  0x4d8254672a2aa82a, 0xb16d6b0abbbbd6bb, 0x46e29f87c1c123c1, 0xa202a6f153535153, 0xae8ba572dcdc57dc, 0x582716530b0b2c0b, 0x9cd327019d9d4e9d, 0x47c1d82b6c6cad6c,
  0x95f562a43131c431, 0x87b9e8f37474cd74, 0xe309f115f6f6fff6, 0x0a438c4c46460546, 0x092645a5acac8aac, 0x3c970fb589891e89, 0xa04428b414145014, 0x5b42dfbae1e1a3e1,
  0xb04e2ca616165816, 0xcdd274f73a3ae83a, 0x6fd0d2066969b969, 0x482d124109092409, 0xa7ade0d77070dd70, 0xd954716fb6b6e2b6, 0xceb7bd1ed0d067d0, 0x3b7ec7d6eded93ed,
  0x2edb85e2cccc17cc, 0x2a57846842421542, 0xb4c22d2c98985a98, 0x490e55eda4a4aaa4, 0x5d8850752828a028, 0xda31b8865c5c6d5c, 0x933fed6bf8f8c7f8, 0x44a411c286862286
  ]

/-- Whirlpool substitution/diffusion table `cTable[5]`. -/
def cTable5 : List Nat :=
  [
  0x18c07830d8181860, 0x2305af462623238c, 0xc67ef991b8c6c63f, 0xe8136fcdfbe8e887, 0x874ca113cb878726, 0xb8a9626d11b8b8da, 0x0108050209010104, 0x4f426e9e0d4f4f21,
  0x36adee6c9b3636d8, 0xa6590451ffa6a6a2, 0xd2debdb90cd2d26f, 0xf5fb06f70ef5f5f3, 0x79ef80f2967979f9, 0x6f5fcede306f6fa1, 0x91fcef3f6d91917e, 0x52aa07a4f8525255,
  0x6027fdc04760609d, 0xbc89766535bcbcca, 0x9baccd2b379b9b56, 0x8e048c018a8e8e02, 0xa371155bd2a3a3b6, 0x0c603c186c0c0c30, 0x7bff8af6847b7bf1, 0x35b5e16a803535d4,
  0x1de8693af51d1d74, 0xe05347ddb3e0e0a7, 0xd7f6acb321d7d77b, 0xc25eed999cc2c22f, 0x2e6d965c432e2eb8, 0x4b627a96294b4b31, 0xfea321e15dfefedf, 0x578216aed5575741,
  0x15a8412abd151554, 0x779fb6eee87777c1, 0x37a5eb6e923737dc, 0xe57b56d79ee5e5b3, 0x9f8cd923139f9f46, 0xf0d317fd23f0f0e7, 0x4a6a7f94204a4a35, 0xda9e95a944dada4f,
  0x58fa25b0a258587d, 0xc906ca8fcfc9c903, 0x29558d527c2929a4, 0x0a5022145a0a0a28, 0xb1e14f7f50b1b1fe, 0xa0691a5dc9a0a0ba, 0x6b7fdad6146b6bb1, 0x855cab17d985852e,
  0xbd8173673cbdbdce, 0x5dd234ba8f5d5d69, 0x1080502090101040, 0xf4f303f507f4f4f7, 0xcb16c08bddcbcb0b, 0x3eedc67cd33e3ef8, 0x0528110a2d050514, 0x671fe6ce78676781,
  0xe47353d597e4e4b7, 0x2725bb4e0227279c, 0x4132588273414119, 0x8b2c9d0ba78b8b16, 0xa7510153f6a7a7a6, 0x7dcf94fab27d7de9, 0x95dcfb374995956e, 0xd88e9fad56d8d847,
  0xfb8b30eb70fbfbcb, 0xee2371c1cdeeee9f, 0x7cc791f8bb7c7ced, 0x6617e3cc71666685, 0xdda68ea77bdddd53, 0x17b84b2eaf17175c, 0x4702468e45474701, 0x9e84dc211a9e9e42,
  0xca1ec589d4caca0f, 0x2d75995a582d2db4, 0xbf9179632ebfbfc6, 0x07381b0e3f07071c, 0xad012347acadad8e, 0x5aea2fb4b05a5a75, 0x836cb51bef838336, 0x3385ff66b63333cc,
  0x633ff2c65c636391, 0x02100a0412020208, 0xaa39384993aaaa92, 0x71afa8e2de7171d9, 0xc80ecf8dc6c8c807, 0x19c87d32d1191964, 0x497270923b494939, 0xd9869aaf5fd9d943,
  0xf2c31df931f2f2ef, 0xe34b48dba8e3e3ab, 0x5be22ab6b95b5b71, 0x8834920dbc88881a, 0x9aa4c8293e9a9a52, 0x262dbe4c0b262698, 0x328dfa64bf3232c8, 0xb0e94a7d59b0b0fa,
  0xe91b6acff2e9e983, 0x0f78331e770f0f3c, 0xd5e6a6b733d5d573, 0x8074ba1df480803a, 0xbe997c6127bebec2, 0xcd26de87ebcdcd13, 0x34bde468893434d0, 0x487a75903248483d,
  0xffab24e354ffffdb, 0x7af78ff48d7a7af5, 0x90f4ea3d6490907a, 0x5fc23ebe9d5f5f61, 0x201da0403d202080, 0x6867d5d00f6868bd, 0x1ad07234ca1a1a68, 0xae192c41b7aeae82,
  0xb4c95e757db4b4ea, 0x549a19a8ce54544d, 0x93ece53b7f939376, 0x220daa442f222288, 0x6407e9c86364648d, 0xf1db12ff2af1f1e3, 0x73bfa2e6cc7373d1, 0x12905a2482121248,
  0x403a5d807a40401d, 0x0840281048080820, 0xc356e89b95c3c32b, 0xec337bc5dfecec97, 0xdb9690ab4ddbdb4b, 0xa1611f5fc0a1a1be, 0x8d1c8307918d8d0e, 0x3df5c97ac83d3df4,
  0x97ccf1335b979766, 0x0000000000000000, 0xcf36d483f9cfcf1b, 0x2b4587566e2b2bac, 0x7697b3ece17676c5, 0x8264b019e6828232, 0xd6fea9b128d6d67f, 0x1bd87736c31b1b6c,
  0xb5c15b7774b5b5ee, 0xaf112943beafaf86, 0x6a77dfd41d6a6ab5, 0x50ba0da0ea50505d, 0x45124c8a57454509, 0xf3cb18fb38f3f3eb, 0x309df060ad3030c0, 0xef2b74c3c4efef9b,
  0x3fe5c37eda3f3ffc, 0x55921caac7555549, 0xa2791059dba2a2b2, 0xea0365c9e9eaea8f, 0x650fecca6a656589, 0xbab9686903babad2, 0x2f65935e4a2f2fbc, 0xc04ee79d8ec0c027,
  0xdebe81a160dede5f, 0x1ce06c38fc1c1c70, 0xfdbb2ee746fdfdd3, 0x4d52649a1f4d4d29, 0x92e4e03976929272, 0x758fbceafa7575c9, 0x06301e0c36060618, 0x8a249809ae8a8a12,
  0xb2f940794bb2b2f2, 0xe66359d185e6e6bf, 0x0e70361c7e0e0e38, 0x1ff8633ee71f1f7c, 0x6237f7c455626295, 0xd4eea3b53ad4d477, 0xa829324d81a8a89a, 0x96c4f43152969662,
  0xf99b3aef62f9f9c3, 0xc566f697a3c5c533, 0x2535b14a10252594, 0x59f220b2ab595979, 0x8454ae15d084842a, 0x72b7a7e4c57272d5, 0x39d5dd72ec3939e4, 0x4c5a6198164c4c2d,
  0x5eca3bbc945e5e65, 0x78e785f09f7878fd, 0x38ddd870e53838e0, 0x8c148605988c8c0a, 0xd1c6b2bf17d1d163, 0xa5410b57e4a5a5ae, 0xe2434dd9a1e2e2af, 0x612ff8c24e616199,
  0xb3f1457b42b3b3f6, 0x2115a54234212184, 0x9c94d625089c9c4a, 0x1ef0663cee1e1e78, 0x4322528661434311, 0xc776fc93b1c7c73b, 0xfcb32be54ffcfcd7, 0x0420140824040410,
  0x51b208a2e3515159, 0x99bcc72f2599995e, 0x6d4fc4da226d6da9, 0x0d68391a650d0d34, 0xfa8335e979fafacf, 0xdfb684a369dfdf5b, 0x7ed79bfca97e7ee5, 0x243db44819242490,
  0x3bc5d776fe3b3bec, 0xab313d4b9aabab96, 0xce3ed181f0cece1f, 0x1188552299111144, 0x8f0c8903838f8f06, 0x4e4a6b9c044e4e25, 0xb7d1517366b7b7e6, 0xeb0b60cbe0ebeb8b,
  0x3cfdcc78c13c3cf0, 0x817cbf1ffd81813e, 0x94d4fe354094946a, 0xf7eb0cf31cf7f7fb, 0xb9a1676f18b9b9de, 0x13985f268b13134c, 0x2c7d9c58512c2cb0, 0xd3d6b8bb05d3d36b,
  0xe76b5cd38ce7e7bb, 0x6e57cbdc396e6ea5, 0xc46ef395aac4c437, 0x03180f061b03030c, 0x568a13acdc565645, 0x441a49885e44440d, 0x7fdf9efea07f7fe1, 0xa921374f88a9a99e,
  0x2a4d8254672a2aa8, 0xbbb16d6b0abbbbd6, 0xc146e29f87c1c123, 0x53a202a6f1535351, 0xdcae8ba572dcdc57, 0x0b582716530b0b2c, 0x9d9cd327019d9d4e, 0x6c47c1d82b6c6cad,
  0x3195f562a43131c4, 0x7487b9e8f37474cd, 0xf6e309f115f6f6ff, 0x460a438c4c464605, 0xac092645a5acac8a, 0x893c970fb589891e, 0x14a04428b4141450, 0xe15b42dfbae1e1a3,
  0x16b04e2ca6161658, 0x3acdd274f73a3ae8, 0x696fd0d2066969b9, 0x09482d1241090924, 0x70a7ade0d77070dd, 0xb6d954716fb6b6e2, 0xd0ceb7bd1ed0d067, 0xed3b7ec7d6eded93,
  0xcc2edb85e2cccc17, 0x422a578468424215, 0x98b4c22d2c98985a, 0xa4490e55eda4a4aa, 0x285d8850752828a0, 0x5cda31b8865c5c6d, 0xf8933fed6bf8f8c7, 0x8644a411c2868622
  ]

/-- Whirlpool substitution/diffusion table `cTable[6]`. -/
def cTable6 : List Nat :=
  [
  0x6018c07830d81818, 0x8c2305af46262323, 0x3fc67ef991b8c6c6, 0x87e8136fcdfbe8e8, 0x26874ca113cb8787, 0xdab8a9626d11b8b8, 0x0401080502090101, 0x214f426e9e0d4f4f,
  0xd836adee6c9b3636, 0xa2a6590451ffa6a6, 0x6fd2debdb90cd2d2, 0xf3f5fb06f70ef5f5, 0xf979ef80f2967979, 0xa16f5fcede306f6f, 0x7e91fcef3f6d9191, 0x5552aa07a4f85252,
  0x9d6027fdc0476060, 0xcabc89766535bcbc, 0x569baccd2b379b9b, 0x028e048c018a8e8e, 0xb6a371155bd2a3a3, 0x300c603c186c0c0c, 0xf17bff8af6847b7b, 0xd435b5e16a803535,
  0x741de8693af51d1d, 0xa7e05347ddb3e0e0, 0x7bd7f6acb321d7d7, 0x2fc25eed999cc2c2, 0xb82e6d965c432e2e, 0x314b627a96294b4b, 0xdffea321e15dfefe, 0x41578216aed55757,
  0x5415a8412abd1515, 0xc1779fb6eee87777, 0xdc37a5eb6e923737, 0xb3e57b56d79ee5e5, 0x469f8cd923139f9f, 0xe7f0d317fd23f0f0, 0x354a6a7f94204a4a, 0x4fda9e95a944dada,
  0x7d58fa25b0a25858, 0x03c906ca8fcfc9c9, 0xa429558d527c2929, 0x280a5022145a0a0a, 0xfeb1e14f7f50b1b1, 0xbaa0691a5dc9a0a0, 0xb16b7fdad6146b6b, 0x2e855cab17d98585,
  0xcebd8173673cbdbd, 0x695dd234ba8f5d5d, 0x4010805020901010, 0xf7f4f303f507f4f4, 0x0bcb16c08bddcbcb, 0xf83eedc67cd33e3e, 0x140528110a2d0505, 0x81671fe6ce786767,
  0xb7e47353d597e4e4, 0x9c2725bb4e022727, 0x1941325882734141, 0x168b2c9d0ba78b8b, 0xa6a7510153f6a7a7, 0xe97dcf94fab27d7d, 0x6e95dcfb37499595, 0x47d88e9fad56d8d8,
  0xcbfb8b30eb70fbfb, 0x9fee2371c1cdeeee, 0xed7cc791f8bb7c7c, 0x856617e3cc716666, 0x53dda68ea77bdddd, 0x5c17b84b2eaf1717, 0x014702468e454747, 0x429e84dc211a9e9e,
  0x0fca1ec589d4caca, 0xb42d75995a582d2d, 0xc6bf9179632ebfbf, 0x1c07381b0e3f0707, 0x8ead012347acadad, 0x755aea2fb4b05a5a, 0x36836cb51bef8383, 0xcc3385ff66b63333,
  0x91633ff2c65c6363, 0x0802100a04120202, 0x92aa39384993aaaa, 0xd971afa8e2de7171, 0x07c80ecf8dc6c8c8, 0x6419c87d32d11919, 0x39497270923b4949, 0x43d9869aaf5fd9d9,
  0xeff2c31df931f2f2, 0xabe34b48dba8e3e3, 0x715be22ab6b95b5b, 0x1a8834920dbc8888, 0x529aa4c8293e9a9a, 0x98262dbe4c0b2626, 0xc8328dfa64bf3232, 0xfab0e94a7d59b0b0,
  0x83e91b6acff2e9e9, 0x3c0f78331e770f0f, 0x73d5e6a6b733d5d5, 0x3a8074ba1df48080, 0xc2be997c6127bebe, 0x13cd26de87ebcdcd, 0xd034bde468893434, 0x3d487a7590324848,
  0xdbffab24e354ffff, 0xf57af78ff48d7a7a, 0x7a90f4ea3d649090, 0x615fc23ebe9d5f5f, 0x80201da0403d2020, 0xbd6867d5d00f6868, 0x681ad07234ca1a1a, 0x82ae192c41b7aeae,
  0xeab4c95e757db4b4, 0x4d549a19a8ce5454, 0x7693ece53b7f9393, 0x88220daa442f2222, 0x8d6407e9c8636464, 0xe3f1db12ff2af1f1, 0xd173bfa2e6cc7373, 0x4812905a24821212,
  0x1d403a5d807a4040, 0x2008402810480808, 0x2bc356e89b95c3c3, 0x97ec337bc5dfecec, 0x4bdb9690ab4ddbdb, 0xbea1611f5fc0a1a1, 0x0e8d1c8307918d8d, 0xf43df5c97ac83d3d,
  0x6697ccf1335b9797, 0x0000000000000000, 0x1bcf36d483f9cfcf, 0xac2b4587566e2b2b, 0xc57697b3ece17676, 0x328264b019e68282, 0x7fd6fea9b128d6d6, 0x6c1bd87736c31b1b,
  0xeeb5c15b7774b5b5, 0x86af112943beafaf, 0xb56a77dfd41d6a6a, 0x5d50ba0da0ea5050, 0x0945124c8a574545, 0xebf3cb18fb38f3f3, 0xc0309df060ad3030, 0x9bef2b74c3c4efef,
  0xfc3fe5c37eda3f3f, 0x4955921caac75555, 0xb2a2791059dba2a2, 0x8fea0365c9e9eaea, 0x89650fecca6a6565, 0xd2bab9686903baba, 0xbc2f65935e4a2f2f, 0x27c04ee79d8ec0c0,
  0x5fdebe81a160dede, 0x701ce06c38fc1c1c, 0xd3fdbb2ee746fdfd, 0x294d52649a1f4d4d, 0x7292e4e039769292, 0xc9758fbceafa7575, 0x1806301e0c360606, 0x128a249809ae8a8a,
  0xf2b2f940794bb2b2, 0xbfe66359d185e6e6, 0x380e70361c7e0e0e, 0x7c1ff8633ee71f1f, 0x956237f7c4556262, 0x77d4eea3b53ad4d4, 0x9aa829324d81a8a8, 0x6296c4f431529696,
  0xc3f99b3aef62f9f9, 0x33c566f697a3c5c5, 0x942535b14a102525, 0x7959f220b2ab5959, 0x2a8454ae15d08484, 0xd572b7a7e4c57272, 0xe439d5dd72ec3939, 0x2d4c5a6198164c4c,
  0x655eca3bbc945e5e, 0xfd78e785f09f7878, 0xe038ddd870e53838, 0x0a8c148605988c8c, 0x63d1c6b2bf17d1d1, 0xaea5410b57e4a5a5, 0xafe2434dd9a1e2e2, 0x99612ff8c24e6161,
  0xf6b3f1457b42b3b3, 0x842115a542342121, 0x4a9c94d625089c9c, 0x781ef0663cee1e1e, 0x1143225286614343, 0x3bc776fc93b1c7c7, 0xd7fcb32be54ffcfc, 0x1004201408240404,
  0x5951b208a2e35151, 0x5e99bcc72f259999, 0xa96d4fc4da226d6d, 0x340d68391a650d0d, 0xcffa8335e979fafa, 0x5bdfb684a369dfdf, 0xe57ed79bfca97e7e, 0x90243db448192424,
  0xec3bc5d776fe3b3b, 0x96ab313d4b9aabab, 0x1fce3ed181f0cece, 0x4411885522991111, 0x068f0c8903838f8f, 0x254e4a6b9c044e4e, 0xe6b7d1517366b7b7, 0x8beb0b60cbe0ebeb,
  0xf03cfdcc78c13c3c, 0x3e817cbf1ffd8181, 0x6a94d4fe35409494, 0xfbf7eb0cf31cf7f7, 0xdeb9a1676f18b9b9, 0x4c13985f268b1313, 0xb02c7d9c58512c2c, 0x6bd3d6b8bb05d3d3,
  0xbbe76b5cd38ce7e7, 0xa56e57cbdc396e6e, 0x37c46ef395aac4c4, 0x0c03180f061b0303, 0x45568a13acdc5656, 0x0d441a49885e4444, 0xe17fdf9efea07f7f, 0x9ea921374f88a9a9,
  0xa82a4d8254672a2a, 0xd6bbb16d6b0abbbb, 0x23c146e29f87c1c1, 0x5153a202a6f15353, 0x57dcae8ba572dcdc, 0x2c0b582716530b0b, 0x4e9d9cd327019d9d, 0xad6c47c1d82b6c6c,
  0xc43195f562a43131, 0xcd7487b9e8f37474, 0xfff6e309f115f6f6, 0x05460a438c4c4646, 0x8aac092645a5acac, 0x1e893c970fb58989, 0x5014a04428b41414, 0xa3e15b42dfbae1e1,
  0x5816b04e2ca61616, 0xe83acdd274f73a3a, 0xb9696fd0d2066969, 0x2409482d12410909, 0xdd70a7ade0d77070, 0xe2b6d954716fb6b6, 0x67d0ceb7bd1ed0d0, 0x93ed3b7ec7d6eded,
  0x17cc2edb85e2cccc, 0x15422a5784684242, 0x5a98b4c22d2c9898, 0xaaa4490e55eda4a4, 0xa0285d8850752828, 0x6d5cda31b8865c5c, 0xc7f8933fed6bf8f8, 0x228644a411c28686
  ]

/-- Whirlpool substitution/diffusion table `cTable[7]`. -/
def cTable7 : List Nat :=
  [
  0x186018c07830d818, 0x238c2305af462623, 0xc63fc67ef991b8c6, 0xe887e8136fcdfbe8, 0x8726874ca113cb87, 0xb8dab8a9626d11b8, 0x0104010805020901, 0x4f214f426e9e0d4f,
  0x36d836adee6c9b36, 0xa6a2a6590451ffa6, 0xd26fd2debdb90cd2, 0xf5f3f5fb06f70ef5, 0x79f979ef80f29679, 0x6fa16f5fcede306f, 0x917e91fcef3f6d91, 0x525552aa07a4f852,
  0x609d6027fdc04760, 0xbccabc89766535bc, 0x9b569baccd2b379b, 0x8e028e048c018a8e, 0xa3b6a371155bd2a3, 0x0c300c603c186c0c, 0x7bf17bff8af6847b, 0x35d435b5e16a8035,
  0x1d741de8693af51d, 0xe0a7e05347ddb3e0, 0xd77bd7f6acb321d7, 0xc22fc25eed999cc2, 0x2eb82e6d965c432e, 0x4b314b627a96294b, 0xfedffea321e15dfe, 0x5741578216aed557,
  0x155415a8412abd15, 0x77c1779fb6eee877, 0x37dc37a5eb6e9237, 0xe5b3e57b56d79ee5, 0x9f469f8cd923139f, 0xf0e7f0d317fd23f0, 0x4a354a6a7f94204a, 0xda4fda9e95a944da,
  0x587d58fa25b0a258, 0xc903c906ca8fcfc9, 0x29a429558d527c29, 0x0a280a5022145a0a, 0xb1feb1e14f7f50b1, 0xa0baa0691a5dc9a0, 0x6bb16b7fdad6146b, 0x852e855cab17d985,
  0xbdcebd8173673cbd, 0x5d695dd234ba8f5d, 0x1040108050209010, 0xf4f7f4f303f507f4, 0xcb0bcb16c08bddcb, 0x3ef83eedc67cd33e, 0x05140528110a2d05, 0x6781671fe6ce7867,
  0xe4b7e47353d597e4, 0x279c2725bb4e0227, 0x4119413258827341, 0x8b168b2c9d0ba78b, 0xa7a6a7510153f6a7, 0x7de97dcf94fab27d, 0x956e95dcfb374995, 0xd847d88e9fad56d8,
  0xfbcbfb8b30eb70fb, 0xee9fee2371c1cdee, 0x7ced7cc791f8bb7c, 0x66856617e3cc7166, 0xdd53dda68ea77bdd, 0x175c17b84b2eaf17, 0x47014702468e4547, 0x9e429e84dc211a9e,
  0xca0fca1ec589d4ca, 0x2db42d75995a582d, 0xbfc6bf9179632ebf, 0x071c07381b0e3f07, 0xad8ead012347acad, 0x5a755aea2fb4b05a, 0x8336836cb51bef83, 0x33cc3385ff66b633,
  0x6391633ff2c65c63, 0x020802100a041202, 0xaa92aa39384993aa, 0x71d971afa8e2de71, 0xc807c80ecf8dc6c8, 0x196419c87d32d119, 0x4939497270923b49, 0xd943d9869aaf5fd9,
  0xf2eff2c31df931f2, 0xe3abe34b48dba8e3, 0x5b715be22ab6b95b, 0x881a8834920dbc88, 0x9a529aa4c8293e9a, 0x2698262dbe4c0b26, 0x32c8328dfa64bf32, 0xb0fab0e94a7d59b0,
  0xe983e91b6acff2e9, 0x0f3c0f78331e770f, 0xd573d5e6a6b733d5, 0x803a8074ba1df480, 0xbec2be997c6127be, 0xcd13cd26de87ebcd, 0x34d034bde4688934, 0x483d487a75903248,
  0xffdbffab24e354ff, 0x7af57af78ff48d7a, 0x907a90f4ea3d6490, 0x5f615fc23ebe9d5f, 0x2080201da0403d20, 0x68bd6867d5d00f68, 0x1a681ad07234ca1a, 0xae82ae192c41b7ae,
  0xb4eab4c95e757db4, 0x544d549a19a8ce54, 0x937693ece53b7f93, 0x2288220daa442f22, 0x648d6407e9c86364, 0xf1e3f1db12ff2af1, 0x73d173bfa2e6cc73, 0x124812905a248212,
  0x401d403a5d807a40, 0x0820084028104808, 0xc32bc356e89b95c3, 0xec97ec337bc5dfec, 0xdb4bdb9690ab4ddb, 0xa1bea1611f5fc0a1, 0x8d0e8d1c8307918d, 0x3df43df5c97ac83d,
  0x976697ccf1335b97, 0x0000000000000000, 0xcf1bcf36d483f9cf, 0x2bac2b4587566e2b, 0x76c57697b3ece176, 0x82328264b019e682, 0xd67fd6fea9b128d6, 0x1b6c1bd87736c31b,
  0xb5eeb5c15b7774b5, 0xaf86af112943beaf, 0x6ab56a77dfd41d6a, 0x505d50ba0da0ea50, 0x450945124c8a5745, 0xf3ebf3cb18fb38f3, 0x30c0309df060ad30, 0xef9bef2b74c3c4ef,
  0x3ffc3fe5c37eda3f, 0x554955921caac755, 0xa2b2a2791059dba2, 0xea8fea0365c9e9ea, 0x6589650fecca6a65, 0xbad2bab9686903ba, 0x2fbc2f65935e4a2f, 0xc027c04ee79d8ec0,
  0xde5fdebe81a160de, 0x1c701ce06c38fc1c, 0xfdd3fdbb2ee746fd, 0x4d294d52649a1f4d, 0x927292e4e0397692, 0x75c9758fbceafa75, 0x061806301e0c3606, 0x8a128a249809ae8a,
  0xb2f2b2f940794bb2, 0xe6bfe66359d185e6, 0x0e380e70361c7e0e, 0x1f7c1ff8633ee71f, 0x62956237f7c45562, 0xd477d4eea3b53ad4, 0xa89aa829324d81a8, 0x966296c4f4315296,
  0xf9c3f99b3aef62f9, 0xc533c566f697a3c5, 0x25942535b14a1025, 0x597959f220b2ab59, 0x842a8454ae15d084, 0x72d572b7a7e4c572, 0x39e439d5dd72ec39, 0x4c2d4c5a6198164c,
  0x5e655eca3bbc945e, 0x78fd78e785f09f78, 0x38e038ddd870e538, 0x8c0a8c148605988c, 0xd163d1c6b2bf17d1, 0xa5aea5410b57e4a5, 0xe2afe2434dd9a1e2, 0x6199612ff8c24e61,
  0xb3f6b3f1457b42b3, 0x21842115a5423421, 0x9c4a9c94d625089c, 0x1e781ef0663cee1e, 0x4311432252866143, 0xc73bc776fc93b1c7, 0xfcd7fcb32be54ffc, 0x0410042014082404,
  0x515951b208a2e351, 0x995e99bcc72f2599, 0x6da96d4fc4da226d, 0x0d340d68391a650d, 0xfacffa8335e979fa, 0xdf5bdfb684a369df, 0x7ee57ed79bfca97e, 0x2490243db4481924,
  0x3bec3bc5d776fe3b, 0xab96ab313d4b9aab, 0xce1fce3ed181f0ce, 0x1144118855229911, 0x8f068f0c8903838f, 0x4e254e4a6b9c044e, 0xb7e6b7d1517366b7, 0xeb8beb0b60cbe0eb,
  0x3cf03cfdcc78c13c, 0x813e817cbf1ffd81, 0x946a94d4fe354094, 0xf7fbf7eb0cf31cf7, 0xb9deb9a1676f18b9, 0x134c13985f268b13, 0x2cb02c7d9c58512c, 0xd36bd3d6b8bb05d3,
  0xe7bbe76b5cd38ce7, 0x6ea56e57cbdc396e, 0xc437c46ef395aac4, 0x030c03180f061b03, 0x5645568a13acdc56, 0x440d441a49885e44, 0x7fe17fdf9efea07f, 0xa99ea921374f88a9,
  0x2aa82a4d8254672a, 0xbbd6bbb16d6b0abb, 0xc123c146e29f87c1, 0x535153a202a6f153, 0xdc57dcae8ba572dc, 0x0b2c0b582716530b, 0x9d4e9d9cd327019d, 0x6cad6c47c1d82b6c,
  0x31c43195f562a431, 0x74cd7487b9e8f374, 0xf6fff6e309f115f6, 0x4605460a438c4c46, 0xac8aac092645a5ac, 0x891e893c970fb589, 0x145014a04428b414, 0xe1a3e15b42dfbae1,
  0x165816b04e2ca616, 0x3ae83acdd274f73a, 0x69b9696fd0d20669, 0x092409482d124109, 0x70dd70a7ade0d770, 0xb6e2b6d954716fb6, 0xd067d0ceb7bd1ed0, 0xed93ed3b7ec7d6ed,
  0xcc17cc2edb85e2cc, 0x4215422a57846842, 0x985a98b4c22d2c98, 0xa4aaa4490e55eda4, 0x28a0285d88507528, 0x5c6d5cda31b8865c, 0xf8c7f8933fed6bf8, 0x86228644a411c286
  ]

/-- The ten Whirlpool round constants `roundConstant[ROUND]`. -/
def roundConstant : List Nat :=
  [0x1823c6e887b8014f, 0x36a6d2f5796f9152, 0x60bc9b8ea30c7b35, 0x1de0d7c22e4bfe57, 0x157737e59ff04ada,
   0x58c9290ab1a06b85, 0xbd5d10f4cb3e0567, 0xe427418ba77d95d8, 0xfbee7c66dd17479e, 0xca2dbf07ad5a8333]

/-- The `func` lambda of the Whirlpool round: XOR of eight table lookups, one
byte of the argument words per table. -/
def wfunc (x : List Nat) (a b c d e f g i : Nat) : Nat :=
  (cTable0.getD (ror8 (x.getD a 0) 56) 0) ^^^ (cTable1.getD (ror8 (x.getD b 0) 48) 0) ^^^
  (cTable2.getD (ror8 (x.getD c 0) 40) 0) ^^^ (cTable3.getD (ror8 (x.getD d 0) 32) 0) ^^^
  (cTable4.getD (ror8 (x.getD e 0) 24) 0) ^^^ (cTable5.getD (ror8 (x.getD f 0) 16) 0) ^^^
  (cTable6.getD (ror8 (x.getD g 0) 8) 0) ^^^ (cTable7.getD (ror8 (x.getD i 0) 0) 0)

/-- One Whirlpool round on `(state, roundKey)`: derive the next round key
from the previous one (constant into word 0), then apply the same transform
to the state, XORing in the new round key. -/
def wround (p : List Nat × List Nat) (r : Nat) : List Nat × List Nat :=
  let k0 := (wfunc p.2 0 7 6 5 4 3 2 1) ^^^ (roundConstant.getD r 0)
  let k1 := wfunc p.2 1 0 7 6 5 4 3 2
  let k2 := wfunc p.2 2 1 0 7 6 5 4 3
  let k3 := wfunc p.2 3 2 1 0 7 6 5 4
  let k4 := wfunc p.2 4 3 2 1 0 7 6 5
  let k5 := wfunc p.2 5 4 3 2 1 0 7 6
  let k6 := wfunc p.2 6 5 4 3 2 1 0 7
  let k7 := wfunc p.2 7 6 5 4 3 2 1 0
  let s0 := (wfunc p.1 0 7 6 5 4 3 2 1) ^^^ k0
  let s1 := (wfunc p.1 1 0 7 6 5 4 3 2) ^^^ k1
  let s2 := (wfunc p.1 2 1 0 7 6 5 4 3) ^^^ k2
  let s3 := (wfunc p.1 3 2 1 0 7 6 5 4) ^^^ k3
  let s4 := (wfunc p.1 4 3 2 1 0 7 6 5) ^^^ k4
  let s5 := (wfunc p.1 5 4 3 2 1 0 7 6) ^^^ k5
  let s6 := (wfunc p.1 6 5 4 3 2 1 0 7) ^^^ k6
  let s7 := (wfunc p.1 7 6 5 4 3 2 1 0) ^^^ k7
  ([s0, s1, s2, s3, s4, s5, s6, s7], [k0, k1, k2, k3, k4, k5, k6, k7])

/-- The Whirlpool compression function over one 64-byte block: key addition,
ten rounds, then the Miyaguchi-Preneel feed-forward. -/
def compressWords (hw : List Nat) (block : List Nat) : List Nat :=
  let m := fun (i : Nat) => load64be block i
  let start : List Nat × List Nat :=
    ([(m 0) ^^^ (hw.getD 0 0), (m 1) ^^^ (hw.getD 1 0), (m 2) ^^^ (hw.getD 2 0),
      (m 3) ^^^ (hw.getD 3 0), (m 4) ^^^ (hw.getD 4 0), (m 5) ^^^ (hw.getD 5 0),
      (m 6) ^^^ (hw.getD 6 0), (m 7) ^^^ (hw.getD 7 0)],
     [hw.getD 0 0, hw.getD 1 0, hw.getD 2 0, hw.getD 3 0,
      hw.getD 4 0, hw.getD 5 0, hw.getD 6 0, hw.getD 7 0])
  let p := (List.range 10).foldl wround start
  [(p.1.getD 0 0) ^^^ (hw.getD 0 0) ^^^ (m 0), (p.1.getD 1 0) ^^^ (hw.getD 1 0) ^^^ (m 1),
   (p.1.getD 2 0) ^^^ (hw.getD 2 0) ^^^ (m 2), (p.1.getD 3 0) ^^^ (hw.getD 3 0) ^^^ (m 3),
   (p.1.getD 4 0) ^^^ (hw.getD 4 0) ^^^ (m 4), (p.1.getD 5 0) ^^^ (hw.getD 5 0) ^^^ (m 5),
   (p.1.getD 6 0) ^^^ (hw.getD 6 0) ^^^ (m 6), (p.1.getD 7 0) ^^^ (hw.getD 7 0) ^^^ (m 7)]

/-- Whirlpool core: the 128-bit byte counter `m_sizeCounter` and the eight
64-bit chaining words `m_h`. -/
structure Core where
  sizeCounter : Uint128
  h : List Nat
deriving DecidableEq

/-- `Whirlpool::addDataImpl`: count the bytes into the 128-bit counter, then
compress whole 64-byte blocks. -/
def addDataImpl (w : Core) (data : List Nat) : Core :=
  blocksGo 64 (fun w block => { w with h := compressWords w.h block }) (data.length / 64)
    { w with sizeCounter := w.sizeCounter.addU64 data.length } data

/-- One Whirlpool instance's state. -/
abbrev State := HState Core

/-- `Whirlpool::reset`: zero counter and chaining words. -/
def reset (_st : State) : State :=
  ⟨[], { sizeCounter := { lo := 0, hi := 0 }, h := List.replicate 8 0 }⟩

/-- A freshly constructed `Whirlpool()`. -/
def initState : State := reset ⟨[], { sizeCounter := { lo := 0, hi := 0 }, h := [] }⟩

/-- `Whirlpool::addData` (the span overload). -/
def addData (st : State) (inData : List Nat) : State :=
  addDataA 64 addDataImpl st inData

/-- The updated size counter computed at the top of `Whirlpool::finalize`
(`m_sizeCounter += m_buffer.size()`). -/
def finalCounter (st : State) : Uint128 :=
  st.core.sizeCounter.addU64 st.buffer.length

/-- The zero-fill length `len` of `Whirlpool::finalize`
(computed after the `0x80` byte is appended). -/
def padLen (st : State) : Nat := 64 - ((st.buffer.length + 1 + 32) % 64)

/-- The padded buffer that `Whirlpool::finalize` compresses: append `0x80`,
zero-pad leaving 32 bytes, write the 128-bit bit count (counter × 8)
big-endian into the last 16 bytes. -/
def finalPad (st : State) : List Nat :=
  let buf2 := (st.buffer ++ [128]) ++ List.replicate (padLen st + 32) 0
  writeTailBE16 buf2 (finalCounter st).mul8.hi (finalCounter st).mul8.lo

/-- `Whirlpool::finalize`: count the buffered bytes, pad, compress. -/
def finalize (st : State) : State :=
  ⟨[], addDataImpl { st.core with sizeCounter := finalCounter st } (finalPad st)⟩

/-- `Whirlpool::toArray`: the eight state words, each big-endian. -/
def toArray (st : State) : List Nat :=
  (st.core.h.map wordBE8).flatten

/-- `Whirlpool::toVector`: the same bytes as `toArray`. -/
def toVector (st : State) : List Nat := toArray st

/-- `Whirlpool::toString`: lowercase hex of `toArray`. -/
def toString (st : State) : String := hexOfBytes (toArray st)

end Whirlpool

end HashSpec

namespace HashSpec

theorem mod_add_aligned (a b B : Nat) (ha : a % B = 0) : (a + b) % B = b % B := by
  rw [Nat.add_mod, ha, Nat.zero_add, Nat.mod_mod_of_dvd b (dvd_refl B)]

theorem blocksGo_append {ω : Type} (B : Nat) (step : ω → List Nat → ω) :
    ∀ (n : Nat) (k : Nat) (w : ω) (x y : List Nat), x.length = B * n →
    blocksGo B step (n + k) w (x ++ y) = blocksGo B step k (blocksGo B step n w x) y := by
  intro n
  induction n with
  | zero =>
    intro k w x y hx
    have hx0 : x = [] := List.length_eq_zero.mp (by simpa using hx)
    subst hx0
    simp [blocksGo]
  | succ n ih =>
    intro k w x y hx
    have hB : B ≤ x.length := by rw [hx, Nat.mul_succ]; omega
    have h1 : n + 1 + k = (n + k) + 1 := by omega
    rw [h1]
    show blocksGo B step ((n + k) + 1) w (x ++ y) = blocksGo B step k (blocksGo B step (n + 1) w x) y
    simp only [blocksGo]
    rw [List.take_append_of_le_length hB, List.drop_append_of_le_length hB]
    exact ih k (step w (x.take B)) (x.drop B) y (by simp [hx, Nat.mul_succ])

section EngineA

variable {ω : Type} (B : Nat) (impl : ω → List Nat → ω) (w0 : ω) (bound : Nat)

theorem addDataA2_absorb
    (hB : 0 < B)
    (hcomp : ∀ x y : List Nat, x.length % B = 0 → x.length + y.length ≤ bound →
      impl (impl w0 x) y = impl w0 (x ++ y))
    (x c : List Nat) (hx : x.length % B = 0) (hxc : x.length + c.length ≤ bound) :
    addDataA2 B impl ⟨[], impl w0 x⟩ c = absorbA B impl w0 (x ++ c) := by
  have hmod : (x.length + c.length) % B = c.length % B := mod_add_aligned _ _ _ hx
  by_cases hc : c.length < B
  · have hmod2 : (x.length + c.length) % B = c.length := by
      rw [hmod, Nat.mod_eq_of_lt hc]
    simp only [addDataA2, absorbA, if_pos hc, List.length_append, hmod2]
    have hal : x.length + c.length - c.length = x.length := by omega
    rw [hal, List.take_left, List.drop_left]
  · have hlen : c.length - c.length % B ≤ c.length := Nat.sub_le _ _
    have hcomp2 : impl (impl w0 x) (c.take (c.length - c.length % B)) =
        impl w0 (x ++ c.take (c.length - c.length % B)) := by
      apply hcomp _ _ hx
      rw [List.length_take_of_le hlen]; omega
    by_cases hlt : c.length - c.length % B < c.length
    · simp only [addDataA2, if_neg hc, if_pos hlt, hcomp2, absorbA, List.length_append, hmod]
      have hal : x.length + c.length - c.length % B =
          x.length + (c.length - c.length % B) := by
        have := Nat.mod_le c.length B; omega
      rw [hal, List.take_append, List.drop_append]
    · have hcm : c.length % B = 0 := by
        have := Nat.mod_le c.length B; omega
      have heq : c.length - c.length % B = c.length := by omega
      rw [heq, List.take_length] at hcomp2
      simp only [addDataA2, if_neg hc, if_neg hlt, heq, List.take_length, hcomp2, absorbA,
        List.length_append, hmod, hcm, Nat.sub_zero]
      rw [show x.length + c.length = (x ++ c).length by simp, List.drop_length, List.take_length]
      simp

theorem addDataA_absorb
    (hB : 0 < B)
    (hcomp : ∀ x y : List Nat, x.length % B = 0 → x.length + y.length ≤ bound →
      impl (impl w0 x) y = impl w0 (x ++ y))
    (m c : List Nat) (hmc : m.length + c.length ≤ bound) :
    addDataA B impl (absorbA B impl w0 m) c = absorbA B impl w0 (m ++ c) := by
  have hal : (m.length - m.length % B) % B = 0 := by
    have hdm := Nat.div_add_mod m.length B
    have h1 : m.length - m.length % B = B * (m.length / B) := by omega
    rw [h1]; exact Nat.mul_mod_right B _
  have halle : m.length - m.length % B ≤ m.length := Nat.sub_le _ _
  by_cases hr0 : m.length % B = 0
  · have hshape : absorbA B impl w0 m = ⟨[], impl w0 m⟩ := by
      simp only [absorbA, hr0, Nat.sub_zero, List.drop_length, List.take_length]
    rw [hshape]
    simp only [addDataA, List.isEmpty_nil, if_true]
    exact addDataA2_absorb B impl w0 bound hB hcomp m c hr0 hmc
  · have hbl : (absorbA B impl w0 m).buffer.length = m.length % B := by
      simp only [absorbA, List.length_drop]
      have := Nat.mod_le m.length B; omega
    have hne : (absorbA B impl w0 m).buffer.isEmpty = false := by
      rw [List.isEmpty_eq_false]
      intro h0
      rw [h0] at hbl
      simp at hbl
      omega
    rw [addDataA, hne]
    simp only [Bool.false_eq_true, if_false, hbl]
    set r := m.length % B with hrdef
    have hrB : r < B := Nat.mod_lt _ hB
    have hrpos : 0 < r := by omega
    by_cases hsmall : c.length < B - r
    · have hminc : min (B - r) c.length = c.length := by omega
      rw [hminc, List.take_length]
      have hcl : ((absorbA B impl w0 m).buffer ++ c).length < B := by
        rw [List.length_append, hbl]; omega
      rw [if_pos hcl]
      simp only [absorbA]
      have hmod : (m.length + c.length) % B = r + c.length := by
        have h1 : m.length + c.length = (m.length - r) + (r + c.length) := by
          have := Nat.mod_le m.length B; omega
        rw [h1, mod_add_aligned _ _ _ hal, Nat.mod_eq_of_lt (by omega : r + c.length < B)]
      simp only [List.length_append, hmod]
      have hal2 : m.length + c.length - (r + c.length) = m.length - r := by omega
      rw [hal2, List.take_append_of_le_length halle, List.drop_append_of_le_length halle]
    · have hminc : min (B - r) c.length = B - r := by omega
      rw [hminc]
      have htkl : (c.take (B - r)).length = B - r := List.length_take_of_le (by omega)
      have hfull : ¬ (((absorbA B impl w0 m).buffer ++ c.take (B - r)).length < B) := by
        rw [List.length_append, hbl, htkl]; omega
      rw [if_neg hfull]
      have htl : (m.take (m.length - r)).length = m.length - r :=
        List.length_take_of_le halle
      have hcore : impl (absorbA B impl w0 m).core
          ((absorbA B impl w0 m).buffer ++ c.take (B - r)) =
          impl w0 (m ++ c.take (B - r)) := by
        show impl (impl w0 (m.take (m.length - r)))
            ((m.drop (m.length - r)) ++ c.take (B - r)) = _
        rw [hcomp (m.take (m.length - r)) _ (by rw [htl]; exact hal) (by
          rw [htl, List.length_append, List.length_drop, htkl]
          omega)]
        rw [← List.append_assoc, List.take_append_drop]
      rw [hcore]
      have hx2 : (m ++ c.take (B - r)).length % B = 0 := by
        rw [List.length_append, htkl]
        have h1 : m.length + (B - r) = (m.length - r) + B := by
          have := Nat.mod_le m.length B; omega
        rw [h1, mod_add_aligned _ _ _ hal, Nat.mod_self]
      have hx3 : (m ++ c.take (B - r)).length + (c.drop (B - r)).length ≤ bound := by
        rw [List.length_append, htkl, List.length_drop]
        omega
      rw [addDataA2_absorb B impl w0 bound hB hcomp _ _ hx2 hx3]
      rw [List.append_assoc, List.take_append_drop]

theorem foldl_addDataA_absorb
    (hB : 0 < B)
    (hcomp : ∀ x y : List Nat, x.length % B = 0 → x.length + y.length ≤ bound →
      impl (impl w0 x) y = impl w0 (x ++ y)) :
    ∀ (chunks : List (List Nat)) (m : List Nat),
      m.length + chunks.flatten.length ≤ bound →
      List.foldl (addDataA B impl) (absorbA B impl w0 m) chunks =
        absorbA B impl w0 (m ++ chunks.flatten) := by
  intro chunks
  induction chunks with
  | nil => intro m hm; simp
  | cons c cs ih =>
    intro m hm
    have hlen : c.length + cs.flatten.length = (c :: cs).flatten.length := by
      simp [List.flatten]
    rw [List.foldl_cons,
      addDataA_absorb B impl w0 bound hB hcomp m c (by simp at hm ⊢; omega),
      ih (m ++ c) (by simp at hm ⊢; omega)]
    simp

theorem feedA_eq
    (hB : 0 < B)
    (hcomp : ∀ x y : List Nat, x.length % B = 0 → x.length + y.length ≤ bound →
      impl (impl w0 x) y = impl w0 (x ++ y))
    (hw0 : impl w0 [] = w0)
    (chunks : List (List Nat)) (hbound : chunks.flatten.length ≤ bound) :
    List.foldl (addDataA B impl) ⟨[], w0⟩ chunks = absorbA B impl w0 chunks.flatten := by
  have hinit : (⟨[], w0⟩ : HState ω) = absorbA B impl w0 [] := by
    simp [absorbA, hw0]
  rw [hinit, foldl_addDataA_absorb B impl w0 bound hB hcomp chunks [] (by simpa using hbound)]
  simp

end EngineA

end HashSpec

namespace HashSpec

/-! ### The buffer component of the eager engine does not depend on the core -/

theorem addDataA_buffer {ω ω2 : Type} (B : Nat) (impl : ω → List Nat → ω)
    (impl2 : ω2 → List Nat → ω2) (st : HState ω) (st2 : HState ω2) (c : List Nat)
    (hb : st.buffer = st2.buffer) :
    (addDataA B impl st c).buffer = (addDataA B impl2 st2 c).buffer := by
  simp only [addDataA, addDataA2, hb]
  split_ifs <;> simp [hb]

theorem foldl_addDataA_buffer {ω ω2 : Type} (B : Nat) (impl : ω → List Nat → ω)
    (impl2 : ω2 → List Nat → ω2) :
    ∀ (chunks : List (List Nat)) (st : HState ω) (st2 : HState ω2),
      st.buffer = st2.buffer →
      (List.foldl (addDataA B impl) st chunks).buffer =
        (List.foldl (addDataA B impl2) st2 chunks).buffer := by
  intro chunks
  induction chunks with
  | nil => intro st st2 hb; simpa using hb
  | cons c cs ih =>
    intro st st2 hb
    simp only [List.foldl_cons]
    exact ih _ _ (addDataA_buffer B impl impl2 st st2 c hb)

/-- The trivial engine used to read off buffer behaviour. -/
def unitImpl : Unit → List Nat → Unit := fun _ _ => ()

theorem foldl_addDataA_buffer_eq {ω : Type} (B : Nat) (hB : 0 < B)
    (impl : ω → List Nat → ω) (w0 : ω) (chunks : List (List Nat)) :
    (List.foldl (addDataA B impl) ⟨[], w0⟩ chunks).buffer =
      chunks.flatten.drop (chunks.flatten.length - chunks.flatten.length % B) := by
  rw [foldl_addDataA_buffer B impl unitImpl chunks ⟨[], w0⟩ ⟨[], ()⟩ rfl]
  rw [feedA_eq B unitImpl () chunks.flatten.length hB
    (fun x y hx hxy => rfl) rfl chunks (Nat.le_refl _)]
  rfl

/-! ### Tail-writing loops rewritten as plain appends -/

theorem writeTailLE8_cons (a : Nat) (l : List Nat) (h : 8 ≤ l.length) (lo hi : Nat) :
    writeTailLE8 (a :: l) lo hi = a :: writeTailLE8 l lo hi := by
  simp only [writeTailLE8, show List.range 4 = [0, 1, 2, 3] from rfl, List.foldl,
    List.length_set, List.length_cons]
  rw [
      show l.length + 1 - 8 + 0 = l.length - 8 + 0 + 1 by omega,
      show l.length + 1 - 4 + 0 = l.length - 4 + 0 + 1 by omega,
      show l.length + 1 - 8 + 1 = l.length - 8 + 1 + 1 by omega,
      show l.length + 1 - 4 + 1 = l.length - 4 + 1 + 1 by omega,
      show l.length + 1 - 8 + 2 = l.length - 8 + 2 + 1 by omega,
      show l.length + 1 - 4 + 2 = l.length - 4 + 2 + 1 by omega,
      show l.length + 1 - 8 + 3 = l.length - 8 + 3 + 1 by omega,
      show l.length + 1 - 4 + 3 = l.length - 4 + 3 + 1 by omega]
  simp only [List.set_cons_succ, Nat.add_zero]

theorem writeTailBE8_cons (a : Nat) (l : List Nat) (h : 8 ≤ l.length) (hi lo : Nat) :
    writeTailBE8 (a :: l) hi lo = a :: writeTailBE8 l hi lo := by
  simp only [writeTailBE8, show List.range 4 = [0, 1, 2, 3] from rfl, List.foldl,
    List.length_set, List.length_cons]
  rw [
      show l.length + 1 - 8 + 0 = l.length - 8 + 0 + 1 by omega,
      show l.length + 1 - 4 + 0 = l.length - 4 + 0 + 1 by omega,
      show l.length + 1 - 8 + 1 = l.length - 8 + 1 + 1 by omega,
      show l.length + 1 - 4 + 1 = l.length - 4 + 1 + 1 by omega,
      show l.length + 1 - 8 + 2 = l.length - 8 + 2 + 1 by omega,
      show l.length + 1 - 4 + 2 = l.length - 4 + 2 + 1 by omega,
      show l.length + 1 - 8 + 3 = l.length - 8 + 3 + 1 by omega,
      show l.length + 1 - 4 + 3 = l.length - 4 + 3 + 1 by omega]
  simp only [List.set_cons_succ, Nat.add_zero]

theorem writeTailBE16_cons (a : Nat) (l : List Nat) (h : 16 ≤ l.length) (hi lo : Nat) :
    writeTailBE16 (a :: l) hi lo = a :: writeTailBE16 l hi lo := by
  simp only [writeTailBE16, show List.range 8 = [0, 1, 2, 3, 4, 5, 6, 7] from rfl, List.foldl,
    List.length_set, List.length_cons]
  rw [
      show l.length + 1 - 16 + 0 = l.length - 16 + 0 + 1 by omega,
      show l.length + 1 - 8 + 0 = l.length - 8 + 0 + 1 by omega,
      show l.length + 1 - 16 + 1 = l.length - 16 + 1 + 1 by omega,
      show l.length + 1 - 8 + 1 = l.length - 8 + 1 + 1 by omega,
      show l.length + 1 - 16 + 2 = l.length - 16 + 2 + 1 by omega,
      show l.length + 1 - 8 + 2 = l.length - 8 + 2 + 1 by omega,
      show l.length + 1 - 16 + 3 = l.length - 16 + 3 + 1 by omega,
      show l.length + 1 - 8 + 3 = l.length - 8 + 3 + 1 by omega,
      show l.length + 1 - 16 + 4 = l.length - 16 + 4 + 1 by omega,
      show l.length + 1 - 8 + 4 = l.length - 8 + 4 + 1 by omega,
      show l.length + 1 - 16 + 5 = l.length - 16 + 5 + 1 by omega,
      show l.length + 1 - 8 + 5 = l.length - 8 + 5 + 1 by omega,
      show l.length + 1 - 16 + 6 = l.length - 16 + 6 + 1 by omega,
      show l.length + 1 - 8 + 6 = l.length - 8 + 6 + 1 by omega,
      show l.length + 1 - 16 + 7 = l.length - 16 + 7 + 1 by omega,
      show l.length + 1 - 8 + 7 = l.length - 8 + 7 + 1 by omega]
  simp only [List.set_cons_succ, Nat.add_zero]

theorem writeTailLE8_append (l0 : List Nat) (t0 t1 t2 t3 t4 t5 t6 t7 lo hi : Nat) :
    writeTailLE8 (l0 ++ [t0, t1, t2, t3, t4, t5, t6, t7]) lo hi =
    l0 ++ [ror8 lo 0, ror8 lo 8, ror8 lo 16, ror8 lo 24,
           ror8 hi 0, ror8 hi 8, ror8 hi 16, ror8 hi 24] := by
  induction l0 with
  | nil =>
    simp only [List.nil_append, writeTailLE8,
      show List.range 4 = [0, 1, 2, 3] from rfl, List.foldl,
      List.length_set, List.length_cons, List.length_nil]
    norm_num
  | cons a l0 ih =>
    rw [List.cons_append, writeTailLE8_cons a _ (by simp), ih, List.cons_append]

theorem writeTailBE8_append (l0 : List Nat) (t0 t1 t2 t3 t4 t5 t6 t7 hi lo : Nat) :
    writeTailBE8 (l0 ++ [t0, t1, t2, t3, t4, t5, t6, t7]) hi lo =
    l0 ++ [ror8 hi 24, ror8 hi 16, ror8 hi 8, ror8 hi 0,
           ror8 lo 24, ror8 lo 16, ror8 lo 8, ror8 lo 0] := by
  induction l0 with
  | nil =>
    simp only [List.nil_append, writeTailBE8,
      show List.range 4 = [0, 1, 2, 3] from rfl, List.foldl,
      List.length_set, List.length_cons, List.length_nil]
    norm_num
  | cons a l0 ih =>
    rw [List.cons_append, writeTailBE8_cons a _ (by simp), ih, List.cons_append]

theorem writeTailBE16_append (l0 : List Nat)
    (t0 t1 t2 t3 t4 t5 t6 t7 t8 t9 t10 t11 t12 t13 t14 t15 hi lo : Nat) :
    writeTailBE16 (l0 ++ [t0, t1, t2, t3, t4, t5, t6, t7,
                          t8, t9, t10, t11, t12, t13, t14, t15]) hi lo =
    l0 ++ [ror8 hi 56, ror8 hi 48, ror8 hi 40, ror8 hi 32,
           ror8 hi 24, ror8 hi 16, ror8 hi 8, ror8 hi 0,
           ror8 lo 56, ror8 lo 48, ror8 lo 40, ror8 lo 32,
           ror8 lo 24, ror8 lo 16, ror8 lo 8, ror8 lo 0] := by
  induction l0 with
  | nil =>
    simp only [List.nil_append, writeTailBE16,
      show List.range 8 = [0, 1, 2, 3, 4, 5, 6, 7] from rfl, List.foldl,
      List.length_set, List.length_cons, List.length_nil]
    norm_num
  | cons a l0 ih =>
    rw [List.cons_append, writeTailBE16_cons a _ (by simp), ih, List.cons_append]

end HashSpec

namespace HashSpec

/-! ### Composability of the per-algorithm `addDataImpl` functions -/

theorem div_append_aligned (B : Nat) (hB : 0 < B) (x y : List Nat)
    (hx : x.length % B = 0) :
    (x ++ y).length / B = x.length / B + y.length / B := by
  have h1 : x.length = B * (x.length / B) := by
    have := Nat.div_add_mod x.length B
    omega
  rw [List.length_append]
  conv_lhs => rw [h1]
  rw [Nat.mul_add_div hB]

theorem implNoPre_append {ω : Type} (B : Nat) (step : ω → List Nat → ω) (hB : 0 < B)
    (w : ω) (x y : List Nat) (hx : x.length % B = 0) :
    blocksGo B step (y.length / B) (blocksGo B step (x.length / B) w x) y =
      blocksGo B step ((x ++ y).length / B) w (x ++ y) := by
  have h1 : x.length = B * (x.length / B) := by
    have := Nat.div_add_mod x.length B
    omega
  rw [div_append_aligned B hB x y hx, blocksGo_append B step (x.length / B) _ w x y h1]

section MDWords

variable (B : Nat) (cf : List Nat → List Nat → List Nat)

theorem blocksGo_md_counter :
    ∀ (n : Nat) (w : MDCore) (data : List Nat),
      (blocksGo B (fun w block => { w with words := cf w.words block }) n w data).sizeCounter =
        w.sizeCounter := by
  intro n
  induction n with
  | zero => intro w data; rfl
  | succ n ih => intro w data; simp only [blocksGo]; rw [ih]

theorem blocksGo_md_words :
    ∀ (n : Nat) (a b : MDCore) (data : List Nat), a.words = b.words →
      (blocksGo B (fun w block => { w with words := cf w.words block }) n a data).words =
        (blocksGo B (fun w block => { w with words := cf w.words block }) n b data).words := by
  intro n
  induction n with
  | zero => intro a b data h; exact h
  | succ n ih =>
    intro a b data h
    simp only [blocksGo]
    exact ih _ _ _ (by simp [h])

theorem mdcore_eq (a b : MDCore) (h1 : a.sizeCounter = b.sizeCounter)
    (h2 : a.words = b.words) : a = b := by
  cases a; cases b; cases h1; cases h2; rfl

theorem mdImpl_append (hB : 0 < B) (w : MDCore) (x y : List Nat)
    (hx : x.length % B = 0) :
    mdImpl B cf (mdImpl B cf w x) y = mdImpl B cf w (x ++ y) := by
  apply mdcore_eq
  · simp only [mdImpl]
    rw [blocksGo_md_counter, blocksGo_md_counter, blocksGo_md_counter]
    simp only [List.length_append]
    rw [Nat.mod_add_mod, Nat.add_assoc]
  · simp only [mdImpl]
    rw [div_append_aligned B hB x y hx]
    rw [blocksGo_append B _ (x.length / B) (y.length / B)
      (MDCore.mk ((w.sizeCounter + (x ++ y).length) % 18446744073709551616) w.words) x y (by
        have := Nat.div_add_mod x.length B
        omega)]
    apply blocksGo_md_words
    apply blocksGo_md_words
    rfl

end MDWords

section WhWords

theorem blocksGo_wh_counter :
    ∀ (n : Nat) (w : Whirlpool.Core) (data : List Nat),
      (blocksGo 64 (fun w block => { w with h := Whirlpool.compressWords w.h block })
        n w data).sizeCounter = w.sizeCounter := by
  intro n
  induction n with
  | zero => intro w data; rfl
  | succ n ih => intro w data; simp only [blocksGo]; rw [ih]

theorem blocksGo_wh_words :
    ∀ (n : Nat) (a b : Whirlpool.Core) (data : List Nat), a.h = b.h →
      (blocksGo 64 (fun w block => { w with h := Whirlpool.compressWords w.h block }) n a data).h =
        (blocksGo 64 (fun w block => { w with h := Whirlpool.compressWords w.h block }) n b data).h := by
  intro n
  induction n with
  | zero => intro a b data h; exact h
  | succ n ih =>
    intro a b data h
    simp only [blocksGo]
    exact ih _ _ _ (by simp [h])

theorem whcore_eq (a b : Whirlpool.Core) (h1 : a.sizeCounter = b.sizeCounter)
    (h2 : a.h = b.h) : a = b := by
  cases a; cases b; cases h1; cases h2; rfl

theorem addU64_lt (v : Uint128) (n : Nat) (hn : n < 18446744073709551616)
    (hno : v.lo + n < 18446744073709551616) :
    v.addU64 n = ⟨v.lo + n, v.hi⟩ := by
  simp only [Uint128.addU64]
  rw [Nat.mod_eq_of_lt hn, Nat.mod_eq_of_lt hno, if_neg (by omega)]

theorem addU64_zero_chain (a b : Nat) (h : a + b < 18446744073709551616) :
    ((Uint128.mk 0 0).addU64 a).addU64 b = (Uint128.mk 0 0).addU64 (a + b) := by
  have h1 : (Uint128.mk 0 0).addU64 a = ⟨a, 0⟩ := by
    rw [addU64_lt (Uint128.mk 0 0) a (by omega) (by simp; omega)]
    simp
  have h2 : (Uint128.mk a 0).addU64 b = ⟨a + b, 0⟩ := by
    rw [addU64_lt (Uint128.mk a 0) b (by omega) (by simp; omega)]
  have h3 : (Uint128.mk 0 0).addU64 (a + b) = ⟨a + b, 0⟩ := by
    rw [addU64_lt (Uint128.mk 0 0) (a + b) (by omega) (by simp; omega)]
    simp
  rw [h1, h2, h3]

theorem whImpl_append (x y : List Nat) (hx : x.length % 64 = 0)
    (hlen : x.length + y.length < 18446744073709551616) :
    Whirlpool.addDataImpl (Whirlpool.addDataImpl Whirlpool.initState.core x) y =
      Whirlpool.addDataImpl Whirlpool.initState.core (x ++ y) := by
  apply whcore_eq
  · simp only [Whirlpool.addDataImpl]
    rw [blocksGo_wh_counter, blocksGo_wh_counter, blocksGo_wh_counter]
    simp only [List.length_append, Whirlpool.initState, Whirlpool.reset]
    exact addU64_zero_chain x.length y.length hlen
  · simp only [Whirlpool.addDataImpl]
    rw [div_append_aligned 64 (by norm_num) x y hx]
    rw [blocksGo_append 64 _ (x.length / 64) (y.length / 64)
      (Whirlpool.Core.mk (Whirlpool.initState.core.sizeCounter.addU64 (x ++ y).length)
        Whirlpool.initState.core.h) x y (by
        have := Nat.div_add_mod x.length 64
        omega)]
    apply blocksGo_wh_words
    apply blocksGo_wh_words
    rfl

end WhWords

/-! ### Characterisation of the state reached from a fresh instance -/

theorem md5_feed (chunks : List (List Nat)) :
    List.foldl MD5.addData MD5.initState chunks =
      absorbA 64 MD5.addDataImpl MD5.initState.core chunks.flatten := by
  exact feedA_eq 64 MD5.addDataImpl MD5.initState.core chunks.flatten.length
    (by norm_num)
    (fun x y hx _ => mdImpl_append 64 MD5.compressWords (by norm_num) _ x y hx)
    rfl chunks (Nat.le_refl _)

theorem has160_feed (chunks : List (List Nat)) :
    List.foldl HAS160.addData HAS160.initState chunks =
      absorbA 64 HAS160.addDataImpl HAS160.initState.core chunks.flatten := by
  exact feedA_eq 64 HAS160.addDataImpl HAS160.initState.core chunks.flatten.length
    (by norm_num)
    (fun x y hx _ => mdImpl_append 64 HAS160.compressWords (by norm_num) _ x y hx)
    rfl chunks (Nat.le_refl _)

theorem ripemd160_feed (chunks : List (List Nat)) :
    List.foldl RIPEMD160.addData RIPEMD160.initState chunks =
      absorbA 64 RIPEMD160.addDataImpl RIPEMD160.initState.core chunks.flatten := by
  exact feedA_eq 64 RIPEMD160.addDataImpl RIPEMD160.initState.core chunks.flatten.length
    (by norm_num)
    (fun x y hx _ => mdImpl_append 64 RIPEMD160.compressWords (by norm_num) _ x y hx)
    rfl chunks (Nat.le_refl _)

theorem md2_feed (chunks : List (List Nat)) :
    List.foldl MD2.addData MD2.initState chunks =
      absorbA 16 MD2.addDataImpl MD2.initState.core chunks.flatten := by
  exact feedA_eq 16 MD2.addDataImpl MD2.initState.core chunks.flatten.length
    (by norm_num)
    (fun x y hx _ => implNoPre_append 16 MD2.compressBlock (by norm_num) _ x y hx)
    rfl chunks (Nat.le_refl _)

theorem blake1_feed (chunks : List (List Nat)) :
    List.foldl Blake1_224.addData Blake1_224.initState chunks =
      absorbA 64 (fun w d => Blake1_224.addDataImpl w d 0)
        Blake1_224.initState.core chunks.flatten := by
  exact feedA_eq 64 (fun w d => Blake1_224.addDataImpl w d 0)
    Blake1_224.initState.core chunks.flatten.length
    (by norm_num)
    (fun x y hx _ => implNoPre_append 64 (Blake1_224.compressStep 0) (by norm_num) _ x y hx)
    rfl chunks (Nat.le_refl _)

theorem whirlpool_feed (chunks : List (List Nat))
    (hlen : chunks.flatten.length < 18446744073709551616) :
    List.foldl Whirlpool.addData Whirlpool.initState chunks =
      absorbA 64 Whirlpool.addDataImpl Whirlpool.initState.core chunks.flatten := by
  exact feedA_eq 64 Whirlpool.addDataImpl Whirlpool.initState.core chunks.flatten.length
    (by norm_num)
    (fun x y hx hxy => whImpl_append x y hx (by omega))
    rfl chunks (Nat.le_refl _)

end HashSpec

namespace HashSpec

/-- Proof-side characterisation of the BLAKE2b hold-back engine: for a
nonempty message the buffer retains the final `((L-1) mod 128) + 1` bytes
(so a full last block is held back), everything before is compressed. -/
def absorbB (w0 : Blake2.Core) (m : List Nat) : Blake2.State :=
  if m.length = 0 then ⟨[], w0⟩
  else
    let r := (m.length - 1) % 128 + 1
    ⟨m.drop (m.length - r), Blake2.addDataImpl w0 (m.take (m.length - r)) false 0⟩

theorem b2impl_append (w : Blake2.Core) (x y : List Nat) (hx : x.length % 128 = 0) :
    Blake2.addDataImpl (Blake2.addDataImpl w x false 0) y false 0 =
      Blake2.addDataImpl w (x ++ y) false 0 := by
  show blocksGo 128 (Blake2.compressStep false 0) (y.length / 128)
      (blocksGo 128 (Blake2.compressStep false 0) (x.length / 128) w x) y = _
  exact implNoPre_append 128 (Blake2.compressStep false 0) (by norm_num) w x y hx

theorem sub64_small (r : Nat) (h : r ≤ 128) : sub64 128 r = 128 - r := by
  simp only [sub64]
  omega

theorem blake2_addDataGo_absorb (w0 : Blake2.Core) :
    ∀ (fuel : Nat) (c m : List Nat), c.length ≤ fuel →
      Blake2.addDataGo fuel (absorbB w0 m) c = absorbB w0 (m ++ c) := by
  intro fuel
  induction fuel with
  | zero =>
    intro c m hc
    have hc0 : c = [] := List.length_eq_zero.mp (by omega)
    subst hc0
    simp [Blake2.addDataGo]
  | succ fuel ih =>
    intro c m hc
    by_cases hc0 : c = []
    · subst hc0
      simp [Blake2.addDataGo]
    · have hcpos : 0 < c.length := List.length_pos.mpr hc0
      have hcne : c.isEmpty = false := by simp [hc0]
      rw [Blake2.addDataGo, hcne]
      simp only [Bool.false_eq_true, if_false]
      by_cases hm0 : m.length = 0
      · have hm : m = [] := List.length_eq_zero.mp hm0
        subst hm
        have habs0 : absorbB w0 [] = ⟨[], w0⟩ := by simp [absorbB]
        rw [habs0]
        rw [if_neg (by simp : ¬ (([] : List Nat).length = 128))]
        rw [if_pos (by simp)]
        simp only [absorbB, List.nil_append, if_neg (by omega : ¬ c.length = 0)]
        have hrem : (if c.length % 128 ≠ 0 then c.length % 128 else 128) =
            (c.length - 1) % 128 + 1 := by
          by_cases h : c.length % 128 = 0 <;> simp [h] <;> omega
        rw [hrem]
      · set r := (m.length - 1) % 128 + 1 with hrdef
        have hrle : r ≤ m.length := by omega
        have hrlt : r ≤ 128 := by omega
        have habs : absorbB w0 m =
            ⟨m.drop (m.length - r), Blake2.addDataImpl w0 (m.take (m.length - r)) false 0⟩ := by
          rw [absorbB, if_neg hm0]
        have hblen : (absorbB w0 m).buffer.length = r := by
          rw [habs]
          simp only [List.length_drop]
          omega
        have halign : (m.length - r) % 128 = 0 := by omega
        by_cases hr128 : r = 128
        · rw [if_pos (by rw [hblen, hr128])]
          have hcore : Blake2.addDataImpl (absorbB w0 m).core (absorbB w0 m).buffer false 0 =
              Blake2.addDataImpl w0 m false 0 := by
            rw [habs]
            show Blake2.addDataImpl (Blake2.addDataImpl w0 (m.take (m.length - r)) false 0)
              (m.drop (m.length - r)) false 0 = _
            rw [b2impl_append w0 _ _ (by
              rw [List.length_take_of_le (by omega)]
              exact halign)]
            rw [List.take_append_drop]
          rw [hcore]
          have hmal : m.length % 128 = 0 := by omega
          simp only [absorbB, List.length_append,
            if_neg (by omega : ¬ m.length + c.length = 0), if_neg (by omega : ¬ c.length = 0)]
          have hr2 : (m.length + c.length - 1) % 128 + 1 = (c.length - 1) % 128 + 1 := by
            omega
          rw [hr2]
          set r2 := (c.length - 1) % 128 + 1 with hr2def
          have hr2le : r2 ≤ c.length := by omega
          have hrem : (if c.length % 128 ≠ 0 then c.length % 128 else 128) = r2 := by
            by_cases h : c.length % 128 = 0 <;> simp [h] <;> omega
          rw [hrem]
          have h1 : m.length + c.length - r2 = m.length + (c.length - r2) := by omega
          rw [h1, List.take_append, List.drop_append]
          rw [← b2impl_append w0 m _ hmal]
        · have hrlt2 : r < 128 := by omega
          rw [if_neg (by rw [hblen]; omega)]
          rw [if_neg (by
            intro h0
            rw [List.isEmpty_iff.mp h0] at hblen
            simp at hblen
            omega)]
          rw [hblen, sub64_small r (by omega)]
          set len := min (128 - r) c.length with hlendef
          have hlen1 : 1 ≤ len := by omega
          have hlenc : len ≤ c.length := by omega
          have hst : (⟨(absorbB w0 m).buffer ++ c.take len, (absorbB w0 m).core⟩ : Blake2.State) =
              absorbB w0 (m ++ c.take len) := by
            rw [habs]
            have htl : (c.take len).length = len := List.length_take_of_le hlenc
            simp only [absorbB, List.length_append, htl,
              if_neg (by omega : ¬ m.length + len = 0)]
            have hr3 : (m.length + len - 1) % 128 + 1 = r + len := by omega
            rw [hr3]
            have h4 : m.length + len - (r + len) = m.length - r := by omega
            rw [h4, List.take_append_of_le_length (by omega), List.drop_append_of_le_length (by omega)]
          rw [hst, ih (c.drop len) (m ++ c.take len) (by
            rw [List.length_drop]
            omega)]
          rw [List.append_assoc, List.take_append_drop]

theorem blake2_foldl_absorb (w0 : Blake2.Core) :
    ∀ (chunks : List (List Nat)) (m : List Nat),
      List.foldl Blake2.addData (absorbB w0 m) chunks = absorbB w0 (m ++ chunks.flatten) := by
  intro chunks
  induction chunks with
  | nil => intro m; simp
  | cons c cs ih =>
    intro m
    simp only [List.foldl_cons]
    rw [show Blake2.addData (absorbB w0 m) c =
        Blake2.addDataGo c.length (absorbB w0 m) c from rfl]
    rw [blake2_addDataGo_absorb w0 c.length c m (Nat.le_refl _), ih (m ++ c)]
    simp

theorem blake2_feed (chunks : List (List Nat)) :
    List.foldl Blake2.addData Blake2.initState chunks =
      absorbB Blake2.initState.core chunks.flatten := by
  have h0 : Blake2.initState = absorbB Blake2.initState.core [] := by
    rw [absorbB]
    simp
    rfl
  conv_lhs => rw [h0]
  rw [blake2_foldl_absorb Blake2.initState.core chunks []]
  simp

end HashSpec

namespace HashSpec

/-- C2: on a fresh MD5 instance, `finalize(); toString()` returns exactly
`d41d8cd98f00b204e9800998ecf8427e`, and `addData` of the three bytes
`'a' 'b' 'c'` followed by `finalize(); toString()` returns exactly
`900150983cd24fb0d6963f7d28e17f72` (lowercase hex, two characters per byte). -/
theorem claim_c2_md5_known_answers :
    MD5.toString (MD5.finalize MD5.initState) = "d41d8cd98f00b204e9800998ecf8427e" ∧
    MD5.toString (MD5.finalize (MD5.addData MD5.initState [97, 98, 99])) =
      "900150983cd24fb0d6963f7d28e17f72" := by
  constructor <;> decide

/-- C4 counterexample: the BLAKE1-224 compression function does not make 80
G-function (`blakeMix`) calls per block — its unrolled mixing schedule has a
different length. -/
theorem claim_c4_counterexample : ¬ (Blake1_224.mixSchedule.length = 80) := by
  decide

/-- C4 (amended): the BLAKE1-224 compression function applies 14 rounds of 8
G-function (`blakeMix`) calls per 64-byte block — 112 calls in total,
following the fixed message-word permutation schedule `mixSchedule`. -/
theorem claim_c4_amended :
    Blake1_224.mixSchedule.length = 14 * 8 ∧ Blake1_224.mixSchedule.length = 112 := by
  constructor <;> decide

theorem list_getD_twelve (x0 x1 x2 x3 x4 x5 x6 x7 x8 x9 x10 x11 x12 x13 x14 x15 : Nat) :
    List.getD [x0, x1, x2, x3, x4, x5, x6, x7, x8, x9, x10, x11, x12, x13, x14, x15] 12 0 = x12 := rfl

theorem list_getD_thirteen (x0 x1 x2 x3 x4 x5 x6 x7 x8 x9 x10 x11 x12 x13 x14 x15 : Nat) :
    List.getD [x0, x1, x2, x3, x4, x5, x6, x7, x8, x9, x10, x11, x12, x13, x14, x15] 13 0 = x13 := rfl

theorem list_getD_fourteen (x0 x1 x2 x3 x4 x5 x6 x7 x8 x9 x10 x11 x12 x13 x14 x15 : Nat) :
    List.getD [x0, x1, x2, x3, x4, x5, x6, x7, x8, x9, x10, x11, x12, x13, x14, x15] 14 0 = x14 := rfl

/-- C5: BLAKE2b `finalize` zero-pads the buffered remainder to exactly one
full 128-byte block and performs exactly one compression call with the
final flag set; in the working vector the word `v[14]` is the complement of
`IV[6]` exactly on a final compression (and `IV[6]` otherwise); the counter
advances by exactly the number of real (non-padding) bytes of that last
block, and its halves are XORed into `v[12]` (low) and `v[13]` (high). -/
theorem claim_c5_blake2_finalize :
    (∀ st : Blake2.State, st.buffer.length ≤ 128 →
      Blake2.finalize st = ⟨[], Blake2.compressStep true (128 - st.buffer.length) st.core
        (st.buffer ++ List.replicate (128 - st.buffer.length) 0)⟩ ∧
      (Blake2.finalize st).core.sizeCounter = st.core.sizeCounter.addU64 st.buffer.length) ∧
    (∀ (h : List Nat) (counter : Uint128),
      (Blake2.initV h counter true).getD 14 0 =
        compl64 (Blake2.initializationVector.getD 6 0) ∧
      (Blake2.initV h counter false).getD 14 0 = Blake2.initializationVector.getD 6 0 ∧
      (∀ isFinal : Bool,
        (Blake2.initV h counter isFinal).getD 12 0 =
          (Blake2.initializationVector.getD 4 0) ^^^ counter.lo ∧
        (Blake2.initV h counter isFinal).getD 13 0 =
          (Blake2.initializationVector.getD 5 0) ^^^ counter.hi)) := by
  constructor
  · intro st hst
    have hlen : (st.buffer ++ List.replicate (128 - st.buffer.length) 0).length = 128 := by
      simp
      omega
    constructor
    · rw [Blake2.finalize, Blake2.addDataImpl, hlen]
      norm_num
      show blocksGo 128 _ (0 + 1) _ _ = _
      simp only [blocksGo]
      rw [List.take_of_length_le (by rw [hlen])]
    · rw [Blake2.finalize]
      show (Blake2.addDataImpl st.core _ true (128 - st.buffer.length)).sizeCounter = _
      rw [Blake2.addDataImpl, hlen]
      norm_num
      show (blocksGo 128 (Blake2.compressStep true (128 - st.buffer.length)) (0 + 1) st.core
        (st.buffer ++ List.replicate (128 - st.buffer.length) 0)).sizeCounter = _
      simp only [blocksGo]
      rw [List.take_of_length_le (by rw [hlen]), Blake2.compressStep]
      show (st.core.sizeCounter.addU64 (sub64 128 (128 - st.buffer.length))) = _
      rw [sub64_small _ (by omega)]
      congr 1
      omega
  · intro h counter
    refine ⟨?_, ?_, fun isFinal => ⟨?_, ?_⟩⟩
    · simp only [Blake2.initV]
      rw [list_getD_fourteen]
      exact if_pos trivial
    · simp only [Blake2.initV]
      rw [list_getD_fourteen]
      exact if_neg (by simp)
    · simp only [Blake2.initV]
      rw [list_getD_twelve]
    · simp only [Blake2.initV]
      rw [list_getD_thirteen]

/-- C5 witness: the finalize structure theorem applied to a concrete
three-byte buffered state. -/
theorem claim_c5_blake2_finalize_witness :
    Blake2.finalize ⟨[1, 2, 3], Blake2.initState.core⟩ =
      ⟨[], Blake2.compressStep true 125 Blake2.initState.core
        ([1, 2, 3] ++ List.replicate 125 0)⟩ :=
  ((claim_c5_blake2_finalize.1 ⟨[1, 2, 3], Blake2.initState.core⟩ (by decide)).1)

/-- C7: MD2 `finalize` on a buffered remainder of length `r < 16` appends
exactly `k = 16 - r` padding bytes, each of value `k` (so `1 ≤ k ≤ 16`),
compresses the padded data (updating the running checksum through the
substitution table), then compresses the resulting 16-byte checksum as one
additional block. -/
theorem claim_c7_md2_finalize :
    ∀ st : MD2.State, st.buffer.length < 16 →
      (1 ≤ 16 - st.buffer.length ∧ 16 - st.buffer.length ≤ 16) ∧
      MD2.finalize st =
        ⟨[], MD2.addDataImpl
          (MD2.addDataImpl st.core
            (st.buffer ++ List.replicate (16 - st.buffer.length) (16 - st.buffer.length)))
          (MD2.addDataImpl st.core
            (st.buffer ++ List.replicate (16 - st.buffer.length) (16 - st.buffer.length))).checksum⟩ := by
  intro st hst
  refine ⟨⟨by omega, by omega⟩, ?_⟩
  rw [MD2.finalize]
  rw [Nat.mod_eq_of_lt hst]

/-- C7 witness: the MD2 finalize structure applied to a concrete three-byte
buffered state. -/
theorem claim_c7_md2_finalize_witness :
    MD2.finalize ⟨[1, 2, 3], MD2.initState.core⟩ =
      ⟨[], MD2.addDataImpl
        (MD2.addDataImpl MD2.initState.core ([1, 2, 3] ++ List.replicate 13 13))
        (MD2.addDataImpl MD2.initState.core ([1, 2, 3] ++ List.replicate 13 13)).checksum⟩ :=
  (claim_c7_md2_finalize ⟨[1, 2, 3], MD2.initState.core⟩ (by decide)).2

/-- C8: for every hash type, `reset()` followed by hashing a message `M`
yields exactly the same digest (`toVector` and `toString`) as hashing `M`
on a freshly constructed instance, whatever the prior state was. -/
theorem claim_c8_reset_restores_initial_state :
    (∀ (s : MD5.State) (M : List Nat),
      MD5.toVector (MD5.finalize (MD5.addData (MD5.reset s) M)) =
        MD5.toVector (MD5.finalize (MD5.addData MD5.initState M)) ∧
      MD5.toString (MD5.finalize (MD5.addData (MD5.reset s) M)) =
        MD5.toString (MD5.finalize (MD5.addData MD5.initState M))) ∧
    (∀ (s : MD2.State) (M : List Nat),
      MD2.toVector (MD2.finalize (MD2.addData (MD2.reset s) M)) =
        MD2.toVector (MD2.finalize (MD2.addData MD2.initState M)) ∧
      MD2.toString (MD2.finalize (MD2.addData (MD2.reset s) M)) =
        MD2.toString (MD2.finalize (MD2.addData MD2.initState M))) ∧
    (∀ (s : HAS160.State) (M : List Nat),
      HAS160.toVector (HAS160.finalize (HAS160.addData (HAS160.reset s) M)) =
        HAS160.toVector (HAS160.finalize (HAS160.addData HAS160.initState M)) ∧
      HAS160.toString (HAS160.finalize (HAS160.addData (HAS160.reset s) M)) =
        HAS160.toString (HAS160.finalize (HAS160.addData HAS160.initState M))) ∧
    (∀ (s : RIPEMD160.State) (M : List Nat),
      RIPEMD160.toVector (RIPEMD160.finalize (RIPEMD160.addData (RIPEMD160.reset s) M)) =
        RIPEMD160.toVector (RIPEMD160.finalize (RIPEMD160.addData RIPEMD160.initState M)) ∧
      RIPEMD160.toString (RIPEMD160.finalize (RIPEMD160.addData (RIPEMD160.reset s) M)) =
        RIPEMD160.toString (RIPEMD160.finalize (RIPEMD160.addData RIPEMD160.initState M))) ∧
    (∀ (s : Blake1_224.State) (M : List Nat),
      Blake1_224.toVector (Blake1_224.finalize (Blake1_224.addData (Blake1_224.reset s) M)) =
        Blake1_224.toVector (Blake1_224.finalize (Blake1_224.addData Blake1_224.initState M)) ∧
      Blake1_224.toString (Blake1_224.finalize (Blake1_224.addData (Blake1_224.reset s) M)) =
        Blake1_224.toString (Blake1_224.finalize (Blake1_224.addData Blake1_224.initState M))) ∧
    (∀ (s : Blake2.State) (M : List Nat),
      Blake2.toVector (Blake2.finalize (Blake2.addData (Blake2.reset s) M)) =
        Blake2.toVector (Blake2.finalize (Blake2.addData Blake2.initState M)) ∧
      Blake2.toString (Blake2.finalize (Blake2.addData (Blake2.reset s) M)) =
        Blake2.toString (Blake2.finalize (Blake2.addData Blake2.initState M))) ∧
    (∀ (s : Whirlpool.State) (M : List Nat),
      Whirlpool.toVector (Whirlpool.finalize (Whirlpool.addData (Whirlpool.reset s) M)) =
        Whirlpool.toVector (Whirlpool.finalize (Whirlpool.addData Whirlpool.initState M)) ∧
      Whirlpool.toString (Whirlpool.finalize (Whirlpool.addData (Whirlpool.reset s) M)) =
        Whirlpool.toString (Whirlpool.finalize (Whirlpool.addData Whirlpool.initState M))) :=
  ⟨fun _ _ => ⟨rfl, rfl⟩, fun _ _ => ⟨rfl, rfl⟩, fun _ _ => ⟨rfl, rfl⟩, fun _ _ => ⟨rfl, rfl⟩,
   fun _ _ => ⟨rfl, rfl⟩, fun _ _ => ⟨rfl, rfl⟩, fun _ _ => ⟨rfl, rfl⟩⟩

/-- C10: the custom `Uint128` counter implements exact 128-bit unsigned
arithmetic on its (high, low) pair of 64-bit words: `+= n` is addition
modulo `2^128` with carry into the high word, and `* 8` is a left shift by
3 bits modulo `2^128` carrying the top 3 bits of the low word. -/
theorem claim_c10_uint128_arithmetic :
    ∀ (v : Uint128) (n : Nat),
      v.lo < 18446744073709551616 → v.hi < 18446744073709551616 →
      n < 18446744073709551616 →
      (v.addU64 n).toNat = (v.toNat + n) % (2 ^ 128) ∧
      v.mul8.toNat = (v.toNat * 8) % (2 ^ 128) := by
  intro v n hlo hhi hn
  constructor
  · simp only [Uint128.addU64, Uint128.toNat]
    rw [Nat.mod_eq_of_lt hn]
    split_ifs with hcarry <;> simp only [] <;> omega
  · simp only [Uint128.mul8, Uint128.toNat]
    rw [Nat.shiftLeft_eq, Nat.shiftLeft_eq, Nat.shiftRight_eq_div_pow]
    have hand : v.lo / 2 ^ 61 &&& 255 = v.lo / 2 ^ 61 % 256 := by
      have h := Nat.and_pow_two_sub_one_eq_mod (v.lo / 2 ^ 61) 8
      norm_num at h
      exact h
    rw [hand, Nat.mod_eq_of_lt (by omega : v.lo / 2 ^ 61 < 256)]
    have hor : v.hi * 2 ^ 3 ||| v.lo / 2 ^ 61 = v.hi * 2 ^ 3 + v.lo / 2 ^ 61 := by
      have h8 : v.lo / 2 ^ 61 < 2 ^ 3 := by omega
      have h := Nat.mul_add_lt_is_or h8 v.hi
      rw [Nat.mul_comm (2 ^ 3) v.hi] at h
      exact h.symm
    rw [hor]
    omega

/-- C10 witness: the exactness equations at a concrete carrying input. -/
theorem claim_c10_witness :
    ((Uint128.mk 9223372036854775808 5).addU64 9223372036854775808).toNat =
      ((Uint128.mk 9223372036854775808 5).toNat + 9223372036854775808) % (2 ^ 128) ∧
    (Uint128.mk 9223372036854775808 5).mul8.toNat =
      ((Uint128.mk 9223372036854775808 5).toNat * 8) % (2 ^ 128) :=
  claim_c10_uint128_arithmetic ⟨9223372036854775808, 5⟩ 9223372036854775808
    (by norm_num) (by norm_num) (by norm_num)

end HashSpec

namespace HashSpec

theorem absorbB_buffer (w0 : Blake2.Core) (m : List Nat) :
    (absorbB w0 m).buffer =
      m.drop (m.length - ((m.length - 1) % 128 + 1)) := by
  by_cases h : m.length = 0
  · rw [List.eq_nil_of_length_eq_zero h]
    rfl
  · simp only [absorbB, if_neg h]

/-- C1: chunking invariance — for each of the seven hash types and every
partition of a message into chunks, feeding the chunks through successive
`addData` calls and finalizing yields the same `toVector` and `toString`
digest as a single `addData` of the whole message (for Whirlpool, stated
for messages shorter than 2^64 bytes, the exact range of its 64-bit
per-call length argument). -/
theorem claim_c1_chunking_invariance (chunks : List (List Nat)) :
    (MD5.toVector (MD5.finalize (List.foldl MD5.addData MD5.initState chunks)) =
       MD5.toVector (MD5.finalize (MD5.addData MD5.initState chunks.flatten)) ∧
     MD5.toString (MD5.finalize (List.foldl MD5.addData MD5.initState chunks)) =
       MD5.toString (MD5.finalize (MD5.addData MD5.initState chunks.flatten))) ∧
    (MD2.toVector (MD2.finalize (List.foldl MD2.addData MD2.initState chunks)) =
       MD2.toVector (MD2.finalize (MD2.addData MD2.initState chunks.flatten)) ∧
     MD2.toString (MD2.finalize (List.foldl MD2.addData MD2.initState chunks)) =
       MD2.toString (MD2.finalize (MD2.addData MD2.initState chunks.flatten))) ∧
    (HAS160.toVector (HAS160.finalize (List.foldl HAS160.addData HAS160.initState chunks)) =
       HAS160.toVector (HAS160.finalize (HAS160.addData HAS160.initState chunks.flatten)) ∧
     HAS160.toString (HAS160.finalize (List.foldl HAS160.addData HAS160.initState chunks)) =
       HAS160.toString (HAS160.finalize (HAS160.addData HAS160.initState chunks.flatten))) ∧
    (RIPEMD160.toVector
        (RIPEMD160.finalize (List.foldl RIPEMD160.addData RIPEMD160.initState chunks)) =
       RIPEMD160.toVector
        (RIPEMD160.finalize (RIPEMD160.addData RIPEMD160.initState chunks.flatten)) ∧
     RIPEMD160.toString
        (RIPEMD160.finalize (List.foldl RIPEMD160.addData RIPEMD160.initState chunks)) =
       RIPEMD160.toString
        (RIPEMD160.finalize (RIPEMD160.addData RIPEMD160.initState chunks.flatten))) ∧
    (Blake1_224.toVector
        (Blake1_224.finalize (List.foldl Blake1_224.addData Blake1_224.initState chunks)) =
       Blake1_224.toVector
        (Blake1_224.finalize (Blake1_224.addData Blake1_224.initState chunks.flatten)) ∧
     Blake1_224.toString
        (Blake1_224.finalize (List.foldl Blake1_224.addData Blake1_224.initState chunks)) =
       Blake1_224.toString
        (Blake1_224.finalize (Blake1_224.addData Blake1_224.initState chunks.flatten))) ∧
    (Blake2.toVector (Blake2.finalize (List.foldl Blake2.addData Blake2.initState chunks)) =
       Blake2.toVector (Blake2.finalize (Blake2.addData Blake2.initState chunks.flatten)) ∧
     Blake2.toString (Blake2.finalize (List.foldl Blake2.addData Blake2.initState chunks)) =
       Blake2.toString (Blake2.finalize (Blake2.addData Blake2.initState chunks.flatten))) ∧
    (chunks.flatten.length < 18446744073709551616 →
      Whirlpool.toVector
          (Whirlpool.finalize (List.foldl Whirlpool.addData Whirlpool.initState chunks)) =
        Whirlpool.toVector
          (Whirlpool.finalize (Whirlpool.addData Whirlpool.initState chunks.flatten)) ∧
      Whirlpool.toString
          (Whirlpool.finalize (List.foldl Whirlpool.addData Whirlpool.initState chunks)) =
        Whirlpool.toString
          (Whirlpool.finalize (Whirlpool.addData Whirlpool.initState chunks.flatten))) := by
  have hmd5 : List.foldl MD5.addData MD5.initState chunks =
      MD5.addData MD5.initState chunks.flatten := by
    have h2 := md5_feed [chunks.flatten]
    simp only [List.foldl_cons, List.foldl_nil, List.flatten_cons,
      List.flatten_nil, List.append_nil] at h2
    rw [md5_feed chunks, h2]
  have hmd2 : List.foldl MD2.addData MD2.initState chunks =
      MD2.addData MD2.initState chunks.flatten := by
    have h2 := md2_feed [chunks.flatten]
    simp only [List.foldl_cons, List.foldl_nil, List.flatten_cons,
      List.flatten_nil, List.append_nil] at h2
    rw [md2_feed chunks, h2]
  have hhas : List.foldl HAS160.addData HAS160.initState chunks =
      HAS160.addData HAS160.initState chunks.flatten := by
    have h2 := has160_feed [chunks.flatten]
    simp only [List.foldl_cons, List.foldl_nil, List.flatten_cons,
      List.flatten_nil, List.append_nil] at h2
    rw [has160_feed chunks, h2]
  have hrip : List.foldl RIPEMD160.addData RIPEMD160.initState chunks =
      RIPEMD160.addData RIPEMD160.initState chunks.flatten := by
    have h2 := ripemd160_feed [chunks.flatten]
    simp only [List.foldl_cons, List.foldl_nil, List.flatten_cons,
      List.flatten_nil, List.append_nil] at h2
    rw [ripemd160_feed chunks, h2]
  have hb1 : List.foldl Blake1_224.addData Blake1_224.initState chunks =
      Blake1_224.addData Blake1_224.initState chunks.flatten := by
    have h2 := blake1_feed [chunks.flatten]
    simp only [List.foldl_cons, List.foldl_nil, List.flatten_cons,
      List.flatten_nil, List.append_nil] at h2
    rw [blake1_feed chunks, h2]
  have hb2 : List.foldl Blake2.addData Blake2.initState chunks =
      Blake2.addData Blake2.initState chunks.flatten := by
    have h2 := blake2_feed [chunks.flatten]
    simp only [List.foldl_cons, List.foldl_nil, List.flatten_cons,
      List.flatten_nil, List.append_nil] at h2
    rw [blake2_feed chunks, h2]
  have hwh : chunks.flatten.length < 18446744073709551616 →
      List.foldl Whirlpool.addData Whirlpool.initState chunks =
        Whirlpool.addData Whirlpool.initState chunks.flatten := by
    intro hlen
    have h2 := whirlpool_feed [chunks.flatten] (by
      simp only [List.flatten_cons, List.flatten_nil, List.append_nil]
      exact hlen)
    simp only [List.foldl_cons, List.foldl_nil, List.flatten_cons,
      List.flatten_nil, List.append_nil] at h2
    rw [whirlpool_feed chunks hlen, h2]
  refine ⟨⟨by rw [hmd5], by rw [hmd5]⟩, ⟨by rw [hmd2], by rw [hmd2]⟩,
    ⟨by rw [hhas], by rw [hhas]⟩, ⟨by rw [hrip], by rw [hrip]⟩,
    ⟨by rw [hb1], by rw [hb1]⟩, ⟨by rw [hb2], by rw [hb2]⟩,
    fun hlen => ⟨by rw [hwh hlen], by rw [hwh hlen]⟩⟩

/-- C1 witness: the Whirlpool chunking-invariance conjunct applied to the
concrete two-chunk split `[1] ++ [2]` of the message `[1, 2]`. -/
theorem claim_c1_chunking_invariance_witness :
    Whirlpool.toVector
        (Whirlpool.finalize (List.foldl Whirlpool.addData Whirlpool.initState [[1], [2]])) =
      Whirlpool.toVector
        (Whirlpool.finalize
          (Whirlpool.addData Whirlpool.initState ([[1], [2]] : List (List Nat)).flatten)) :=
  ((claim_c1_chunking_invariance [[1], [2]]).2.2.2.2.2.2 (by decide)).1

/-- C3 counterexample: after an `addData` call whose cumulative input is
exactly one full block, MD5 has already compressed the block (the buffer is
empty and the state words have moved), and Whirlpool likewise holds nothing
back — refuting both the claimed lazy full-block retention of the MD5 family
and the claimed hold-back policy of Whirlpool. -/
theorem claim_c3_counterexample :
    (MD5.addData MD5.initState (List.replicate 64 0)).buffer = [] ∧
    (MD5.addData MD5.initState (List.replicate 64 0)).core ≠ MD5.initState.core ∧
    (Whirlpool.addData Whirlpool.initState (List.replicate 64 0)).buffer = [] := by
  refine ⟨by decide, by decide, by decide⟩

/-- C3 (amended): the buffering policy actually implemented — MD5, MD2,
HAS-160, RIPEMD-160, BLAKE1-224 and Whirlpool compress eagerly, so after any
sequence of `addData` calls the buffer holds exactly the residue of the
total input modulo the block size (empty on block-aligned input); only
BLAKE2b holds the last block back, keeping the final `((L - 1) % 128) + 1`
bytes (a full 128-byte block on block-aligned positive input). -/
theorem claim_c3_amended (chunks : List (List Nat)) :
    (List.foldl MD5.addData MD5.initState chunks).buffer =
      chunks.flatten.drop (chunks.flatten.length - chunks.flatten.length % 64) ∧
    (List.foldl MD2.addData MD2.initState chunks).buffer =
      chunks.flatten.drop (chunks.flatten.length - chunks.flatten.length % 16) ∧
    (List.foldl HAS160.addData HAS160.initState chunks).buffer =
      chunks.flatten.drop (chunks.flatten.length - chunks.flatten.length % 64) ∧
    (List.foldl RIPEMD160.addData RIPEMD160.initState chunks).buffer =
      chunks.flatten.drop (chunks.flatten.length - chunks.flatten.length % 64) ∧
    (List.foldl Blake1_224.addData Blake1_224.initState chunks).buffer =
      chunks.flatten.drop (chunks.flatten.length - chunks.flatten.length % 64) ∧
    (List.foldl Whirlpool.addData Whirlpool.initState chunks).buffer =
      chunks.flatten.drop (chunks.flatten.length - chunks.flatten.length % 64) ∧
    (List.foldl Blake2.addData Blake2.initState chunks).buffer =
      chunks.flatten.drop
        (chunks.flatten.length - ((chunks.flatten.length - 1) % 128 + 1)) := by
  refine ⟨?_, ?_, ?_, ?_, ?_, ?_, ?_⟩
  · rw [md5_feed chunks]
    rfl
  · rw [md2_feed chunks]
    rfl
  · rw [has160_feed chunks]
    rfl
  · rw [ripemd160_feed chunks]
    rfl
  · rw [blake1_feed chunks]
    rfl
  · have h : List.foldl Whirlpool.addData Whirlpool.initState chunks =
        List.foldl (addDataA 64 Whirlpool.addDataImpl)
          ⟨[], Whirlpool.initState.core⟩ chunks := rfl
    rw [h, foldl_addDataA_buffer_eq 64 (by norm_num) Whirlpool.addDataImpl
      Whirlpool.initState.core chunks]
  · rw [blake2_feed chunks, absorbB_buffer]

end HashSpec

namespace HashSpec

/-! ### Shape invariants preserved by the block loop and the engine -/

theorem blocksGo_preserve {ω : Type} (B : Nat) (step : ω → List Nat → ω)
    (P : ω → Prop) (hstep : ∀ w b, P w → P (step w b)) :
    ∀ (n : Nat) (w : ω) (data : List Nat), P w → P (blocksGo B step n w data) := by
  intro n
  induction n with
  | zero => intro w data h; exact h
  | succ n ih =>
    intro w data h
    simp only [blocksGo]
    exact ih _ _ (hstep _ _ h)

theorem addDataA2_core_preserve {ω : Type} (B : Nat) (impl : ω → List Nat → ω)
    (P : ω → Prop) (him : ∀ w d, P w → P (impl w d)) (st : HState ω) (d : List Nat)
    (h : P st.core) : P ((addDataA2 B impl st d).core) := by
  simp only [addDataA2]
  split_ifs with h1 h2
  · exact h
  · exact him _ _ h
  · exact him _ _ h

theorem addDataA_core_preserve {ω : Type} (B : Nat) (impl : ω → List Nat → ω)
    (P : ω → Prop) (him : ∀ w d, P w → P (impl w d)) (st : HState ω) (d : List Nat)
    (h : P st.core) : P ((addDataA B impl st d).core) := by
  simp only [addDataA]
  split_ifs with h1 h2
  · exact addDataA2_core_preserve B impl P him st d h
  · exact h
  · exact addDataA2_core_preserve B impl P him _ _ (him _ _ h)

theorem foldl_addDataA_core_preserve {ω : Type} (B : Nat) (impl : ω → List Nat → ω)
    (P : ω → Prop) (him : ∀ w d, P w → P (impl w d)) :
    ∀ (chunks : List (List Nat)) (st : HState ω), P st.core →
      P ((List.foldl (addDataA B impl) st chunks).core) := by
  intro chunks
  induction chunks with
  | nil => intro st h; exact h
  | cons c cs ih =>
    intro st h
    exact ih _ (addDataA_core_preserve B impl P him st c h)

/-! ### Length preservation through the list-rewriting folds of MD2 -/

theorem foldl_length_inv {β : Type} (g : List Nat → β → List Nat)
    (hg : ∀ l b, (g l b).length = l.length) :
    ∀ (js : List β) (x : List Nat), (js.foldl g x).length = x.length := by
  intro js
  induction js with
  | nil => intro x; rfl
  | cons j js ih => intro x; rw [List.foldl_cons, ih, hg]

theorem foldl_pair_length_inv {β : Type} (g : List Nat × Nat → β → List Nat × Nat)
    (hg : ∀ p b, (g p b).1.length = p.1.length) :
    ∀ (js : List β) (p : List Nat × Nat), (js.foldl g p).1.length = p.1.length := by
  intro js
  induction js with
  | nil => intro p; rfl
  | cons j js ih => intro p; rw [List.foldl_cons, ih, hg]

/-! ### Output shapes of the seven compression functions -/

theorem md5_compressWords_length (ws b : List Nat) :
    (MD5.compressWords ws b).length = 4 := rfl

theorem has160_compressWords_length (ws b : List Nat) :
    (HAS160.compressWords ws b).length = 5 := rfl

theorem ripemd160_compressWords_length (ws b : List Nat) :
    (RIPEMD160.compressWords ws b).length = 5 := rfl

theorem blake1_compressStep_h_length (n : Nat) (w : Blake1_224.Core) (b : List Nat) :
    (Blake1_224.compressStep n w b).h.length = 8 := rfl

theorem blake2_compressStep_h_length (f : Bool) (n : Nat) (w : Blake2.Core)
    (b : List Nat) : (Blake2.compressStep f n w b).h.length = 8 := rfl

theorem whirlpool_compressWords_length (hw b : List Nat) :
    (Whirlpool.compressWords hw b).length = 8 := rfl

theorem md2_substStep_length (q : List Nat × Nat) (k : Nat) :
    (MD2.substStep q k).1.length = q.1.length := by
  simp [MD2.substStep]

theorem md2_substRound_length (p : List Nat × Nat) (j : Nat) :
    (MD2.substRound p j).1.length = p.1.length := by
  simp only [MD2.substRound]
  exact foldl_pair_length_inv MD2.substStep md2_substStep_length (List.range 48) p

theorem md2_loadStep_length (m : Nat → Nat) (l : List Nat) (j : Nat) :
    (MD2.loadStep m l j).length = l.length := by
  simp [MD2.loadStep]

theorem md2_xt_fst_length (xx : List Nat) :
    ((List.range 18).foldl MD2.substRound (xx, 0)).1.length = xx.length :=
  foldl_pair_length_inv MD2.substRound md2_substRound_length (List.range 18) (xx, 0)

theorem md2_compressBlock_x_length (w : MD2.Core) (b : List Nat) :
    (MD2.compressBlock w b).x.length = w.x.length := by
  simp only [MD2.compressBlock]
  rw [md2_xt_fst_length]
  exact foldl_length_inv _ (fun l j => md2_loadStep_length _ l j) (List.range 16) w.x

/-! ### Word-serialiser lengths -/

theorem wordLE4_length (w : Nat) : (wordLE4 w).length = 4 := rfl

theorem wordBE4_length (w : Nat) : (wordBE4 w).length = 4 := rfl

theorem wordLE8_length (w : Nat) : (wordLE8 w).length = 8 := rfl

theorem wordBE8_length (w : Nat) : (wordBE8 w).length = 8 := rfl

theorem flatten_map_length {α : Type} (f : α → List Nat) (k : Nat)
    (hf : ∀ a, (f a).length = k) :
    ∀ l : List α, ((l.map f).flatten).length = k * l.length := by
  intro l
  induction l with
  | nil => rfl
  | cons a l ih =>
    simp only [List.map_cons, List.flatten_cons, List.length_append, ih, hf,
      List.length_cons]
    ring

/-! ### Per-algorithm core-shape preservation through `addDataImpl` -/

theorem md5_impl_words_length (w : MDCore) (data : List Nat)
    (h : w.words.length = 4) : (MD5.addDataImpl w data).words.length = 4 :=
  blocksGo_preserve 64 _ (fun c : MDCore => c.words.length = 4)
    (fun c b _ => md5_compressWords_length c.words b) (data.length / 64) _ data h

theorem has160_impl_words_length (w : MDCore) (data : List Nat)
    (h : w.words.length = 5) : (HAS160.addDataImpl w data).words.length = 5 :=
  blocksGo_preserve 64 _ (fun c : MDCore => c.words.length = 5)
    (fun c b _ => has160_compressWords_length c.words b) (data.length / 64) _ data h

theorem ripemd160_impl_words_length (w : MDCore) (data : List Nat)
    (h : w.words.length = 5) : (RIPEMD160.addDataImpl w data).words.length = 5 :=
  blocksGo_preserve 64 _ (fun c : MDCore => c.words.length = 5)
    (fun c b _ => ripemd160_compressWords_length c.words b) (data.length / 64) _ data h

theorem md2_impl_x_length (w : MD2.Core) (data : List Nat)
    (h : w.x.length = 48) : (MD2.addDataImpl w data).x.length = 48 :=
  blocksGo_preserve 16 _ (fun c : MD2.Core => c.x.length = 48)
    (fun c b hc => (md2_compressBlock_x_length c b).trans hc) (data.length / 16) _ data h

theorem blake1_impl_h_length (w : Blake1_224.Core) (data : List Nat) (p : Nat)
    (h : w.h.length = 8) : (Blake1_224.addDataImpl w data p).h.length = 8 :=
  blocksGo_preserve 64 _ (fun c : Blake1_224.Core => c.h.length = 8)
    (fun c b _ => blake1_compressStep_h_length p c b) (data.length / 64) _ data h

theorem blake2_impl_h_length (w : Blake2.Core) (data : List Nat) (f : Bool) (p : Nat)
    (h : w.h.length = 8) : (Blake2.addDataImpl w data f p).h.length = 8 :=
  blocksGo_preserve 128 _ (fun c : Blake2.Core => c.h.length = 8)
    (fun c b _ => blake2_compressStep_h_length f p c b) (data.length / 128) _ data h

theorem whirlpool_impl_h_length (w : Whirlpool.Core) (data : List Nat)
    (h : w.h.length = 8) : (Whirlpool.addDataImpl w data).h.length = 8 :=
  blocksGo_preserve 64 _ (fun c : Whirlpool.Core => c.h.length = 8)
    (fun c b _ => whirlpool_compressWords_length c.h b) (data.length / 64) _ data h

/-- C9: fixed digest lengths — after any sequence of `addData` calls and a
`finalize`, `toVector` returns exactly 16 bytes for MD5 and MD2 (for MD2 the
first 16 bytes of its 48-byte working buffer), 20 bytes for HAS-160 and
RIPEMD-160, 28 bytes for BLAKE1-224 (the first 7 of its 8 state words), and
64 bytes for BLAKE2b and Whirlpool. -/
theorem claim_c9_digest_lengths (chunks : List (List Nat)) :
    (MD5.toVector (MD5.finalize (List.foldl MD5.addData MD5.initState chunks))).length
      = 16 ∧
    (MD2.toVector (MD2.finalize (List.foldl MD2.addData MD2.initState chunks))).length
      = 16 ∧
    (MD2.finalize (List.foldl MD2.addData MD2.initState chunks)).core.x.length = 48 ∧
    (HAS160.toVector
      (HAS160.finalize (List.foldl HAS160.addData HAS160.initState chunks))).length
      = 20 ∧
    (RIPEMD160.toVector
      (RIPEMD160.finalize
        (List.foldl RIPEMD160.addData RIPEMD160.initState chunks))).length = 20 ∧
    (Blake1_224.toVector
      (Blake1_224.finalize
        (List.foldl Blake1_224.addData Blake1_224.initState chunks))).length = 28 ∧
    (Blake1_224.finalize
      (List.foldl Blake1_224.addData Blake1_224.initState chunks)).core.h.length = 8 ∧
    (Blake2.toVector
      (Blake2.finalize (List.foldl Blake2.addData Blake2.initState chunks))).length
      = 64 ∧
    (Whirlpool.toVector
      (Whirlpool.finalize
        (List.foldl Whirlpool.addData Whirlpool.initState chunks))).length = 64 := by
  have hmd5 : (MD5.finalize
      (List.foldl MD5.addData MD5.initState chunks)).core.words.length = 4 := by
    have hfold : (List.foldl MD5.addData MD5.initState chunks).core.words.length = 4 :=
      foldl_addDataA_core_preserve 64 MD5.addDataImpl
        (fun c : MDCore => c.words.length = 4)
        (fun w d hw => md5_impl_words_length w d hw) chunks MD5.initState rfl
    exact md5_impl_words_length _ _ hfold
  have hmd2 : (MD2.finalize
      (List.foldl MD2.addData MD2.initState chunks)).core.x.length = 48 := by
    have hfold : (List.foldl MD2.addData MD2.initState chunks).core.x.length = 48 :=
      foldl_addDataA_core_preserve 16 MD2.addDataImpl
        (fun c : MD2.Core => c.x.length = 48)
        (fun w d hw => md2_impl_x_length w d hw) chunks MD2.initState rfl
    exact md2_impl_x_length _ _ (md2_impl_x_length _ _ hfold)
  have hhas : (HAS160.finalize
      (List.foldl HAS160.addData HAS160.initState chunks)).core.words.length = 5 := by
    have hfold : (List.foldl HAS160.addData HAS160.initState chunks).core.words.length
        = 5 :=
      foldl_addDataA_core_preserve 64 HAS160.addDataImpl
        (fun c : MDCore => c.words.length = 5)
        (fun w d hw => has160_impl_words_length w d hw) chunks HAS160.initState rfl
    exact has160_impl_words_length _ _ hfold
  have hrip : (RIPEMD160.finalize
      (List.foldl RIPEMD160.addData RIPEMD160.initState chunks)).core.words.length
      = 5 := by
    have hfold : (List.foldl RIPEMD160.addData
        RIPEMD160.initState chunks).core.words.length = 5 :=
      foldl_addDataA_core_preserve 64 RIPEMD160.addDataImpl
        (fun c : MDCore => c.words.length = 5)
        (fun w d hw => ripemd160_impl_words_length w d hw) chunks RIPEMD160.initState rfl
    exact ripemd160_impl_words_length _ _ hfold
  have hb1 : (Blake1_224.finalize
      (List.foldl Blake1_224.addData Blake1_224.initState chunks)).core.h.length
      = 8 := by
    have hfold : (List.foldl Blake1_224.addData
        Blake1_224.initState chunks).core.h.length = 8 :=
      foldl_addDataA_core_preserve 64 (fun w d => Blake1_224.addDataImpl w d 0)
        (fun c : Blake1_224.Core => c.h.length = 8)
        (fun w d hw => blake1_impl_h_length w d 0 hw) chunks Blake1_224.initState rfl
    exact blake1_impl_h_length _ _ _ hfold
  have hb2 : (Blake2.finalize
      (List.foldl Blake2.addData Blake2.initState chunks)).core.h.length = 8 := by
    have hfold : (List.foldl Blake2.addData Blake2.initState chunks).core.h.length
        = 8 := by
      rw [blake2_feed chunks]
      by_cases h : chunks.flatten.length = 0
      · simp only [absorbB, if_pos h]
        rfl
      · simp only [absorbB, if_neg h]
        exact blake2_impl_h_length _ _ false 0 rfl
    exact blake2_impl_h_length _ _ true _ hfold
  have hwh : (Whirlpool.finalize
      (List.foldl Whirlpool.addData Whirlpool.initState chunks)).core.h.length = 8 := by
    have hfold : (List.foldl Whirlpool.addData
        Whirlpool.initState chunks).core.h.length = 8 :=
      foldl_addDataA_core_preserve 64 Whirlpool.addDataImpl
        (fun c : Whirlpool.Core => c.h.length = 8)
        (fun w d hw => whirlpool_impl_h_length w d hw) chunks Whirlpool.initState rfl
    exact whirlpool_impl_h_length _ _ hfold
  refine ⟨?_, ?_, hmd2, ?_, ?_, ?_, hb1, ?_, ?_⟩
  · simp only [MD5.toVector]
    rw [flatten_map_length wordLE4 4 wordLE4_length, hmd5]
  · simp only [MD2.toVector]
    rw [List.length_take, hmd2]
    omega
  · simp only [HAS160.toVector]
    rw [flatten_map_length wordLE4 4 wordLE4_length, hhas]
  · simp only [RIPEMD160.toVector]
    rw [flatten_map_length wordLE4 4 wordLE4_length, hrip]
  · simp only [Blake1_224.toVector]
    rw [flatten_map_length wordBE4 4 wordBE4_length, List.length_take, hb1]
    omega
  · simp only [Blake2.toVector]
    rw [flatten_map_length wordLE8 8 wordLE8_length, hb2]
  · simp only [Whirlpool.toVector, Whirlpool.toArray]
    rw [flatten_map_length wordBE8 8 wordBE8_length, hwh]

end HashSpec

namespace HashSpec

/-! ### Byte-extraction arithmetic -/

theorem mod_pow_div_mod (x a b c : Nat) (h : a + c ≤ b) :
    x % 2 ^ b / 2 ^ a % 2 ^ c = x / 2 ^ a % 2 ^ c := by
  have key : ∀ r q : Nat, (r + 2 ^ a * (2 ^ (b - a) * q)) / 2 ^ a % 2 ^ c =
      r / 2 ^ a % 2 ^ c := by
    intro r q
    rw [Nat.add_mul_div_left _ _ (by positivity)]
    rw [show (2:Nat) ^ (b - a) * q = 2 ^ c * (2 ^ (b - a - c) * q) from by
      rw [← mul_assoc, ← pow_add]
      congr 2
      omega]
    rw [Nat.add_mul_mod_self_left]
  calc x % 2 ^ b / 2 ^ a % 2 ^ c
      = (x % 2 ^ b + 2 ^ a * (2 ^ (b - a) * (x / 2 ^ b))) / 2 ^ a % 2 ^ c :=
        (key _ _).symm
    _ = x / 2 ^ a % 2 ^ c := by
        congr 2
        rw [← mul_assoc, ← pow_add, show a + (b - a) = b from by omega]
        exact Nat.mod_add_div x (2 ^ b)

theorem ror8_div (x s : Nat) : ror8 x s = x / 2 ^ s % 256 := by
  show x >>> s &&& 255 = _
  rw [Nat.shiftRight_eq_div_pow]
  have h := Nat.and_pow_two_sub_one_eq_mod (x / 2 ^ s) 8
  norm_num at h
  exact h

theorem ror32_div (x s : Nat) : ror32 x s = x / 2 ^ s % 4294967296 := by
  show x >>> s &&& 4294967295 = _
  rw [Nat.shiftRight_eq_div_pow]
  have h := Nat.and_pow_two_sub_one_eq_mod (x / 2 ^ s) 32
  norm_num at h
  exact h

theorem ror8_ror32lo (n a : Nat) (h : a + 8 ≤ 32) :
    ror8 (ror32 n 0) a = n / 2 ^ a % 256 := by
  rw [ror8_div, ror32_div]
  norm_num
  have h2 := mod_pow_div_mod n a 32 8 h
  norm_num at h2
  exact h2

theorem ror8_ror32hi (n a : Nat) (h : a + 8 ≤ 32) :
    ror8 (ror32 n 32) a = n / 2 ^ (32 + a) % 256 := by
  rw [ror8_div, ror32_div]
  have h2 := mod_pow_div_mod (n / 2 ^ 32) a 32 8 h
  norm_num at h2 ⊢
  rw [h2, Nat.div_div_eq_div_mul, show (4294967296:Nat) * 2 ^ a = 2 ^ (32 + a) from by
    rw [pow_add]
    norm_num]

theorem leBytes64_halves (n : Nat) :
    [ror8 (ror32 n 0) 0, ror8 (ror32 n 0) 8, ror8 (ror32 n 0) 16, ror8 (ror32 n 0) 24,
     ror8 (ror32 n 32) 0, ror8 (ror32 n 32) 8, ror8 (ror32 n 32) 16,
     ror8 (ror32 n 32) 24] = leBytes64 n := by
  rw [ror8_ror32lo n 0 (by norm_num), ror8_ror32lo n 8 (by norm_num),
    ror8_ror32lo n 16 (by norm_num), ror8_ror32lo n 24 (by norm_num),
    ror8_ror32hi n 0 (by norm_num), ror8_ror32hi n 8 (by norm_num),
    ror8_ror32hi n 16 (by norm_num), ror8_ror32hi n 24 (by norm_num)]
  norm_num [leBytes64]

theorem beBytes64_halves (n : Nat) :
    [ror8 (ror32 n 32) 24, ror8 (ror32 n 32) 16, ror8 (ror32 n 32) 8,
     ror8 (ror32 n 32) 0, ror8 (ror32 n 0) 24, ror8 (ror32 n 0) 16,
     ror8 (ror32 n 0) 8, ror8 (ror32 n 0) 0] = beBytes64 n := by
  rw [ror8_ror32lo n 0 (by norm_num), ror8_ror32lo n 8 (by norm_num),
    ror8_ror32lo n 16 (by norm_num), ror8_ror32lo n 24 (by norm_num),
    ror8_ror32hi n 0 (by norm_num), ror8_ror32hi n 8 (by norm_num),
    ror8_ror32hi n 16 (by norm_num), ror8_ror32hi n 24 (by norm_num)]
  norm_num [beBytes64]

theorem bb_hi (hi lo k : Nat) (hlo : lo < 18446744073709551616) (hk : k + 8 ≤ 64) :
    ror8 hi k = (hi * 18446744073709551616 + lo) / 2 ^ (64 + k) % 256 := by
  have hq : (hi * 18446744073709551616 + lo) / 2 ^ 64 = hi := by
    rw [show hi * 18446744073709551616 + lo = lo + 2 ^ 64 * hi from by
      rw [show (2:Nat) ^ 64 = 18446744073709551616 from by norm_num]
      ring]
    rw [Nat.add_mul_div_left _ _ (by positivity), Nat.div_eq_of_lt (by
      rw [show (2:Nat) ^ 64 = 18446744073709551616 from by norm_num]
      exact hlo)]
    norm_num
  rw [ror8_div, pow_add, ← Nat.div_div_eq_div_mul, hq]

theorem bb_lo (hi lo k : Nat) (hlo : lo < 18446744073709551616) (hk : k + 8 ≤ 64) :
    ror8 lo k = (hi * 18446744073709551616 + lo) / 2 ^ k % 256 := by
  have hm : (hi * 18446744073709551616 + lo) % 2 ^ 64 = lo := by
    rw [show hi * 18446744073709551616 + lo = lo + 2 ^ 64 * hi from by
      rw [show (2:Nat) ^ 64 = 18446744073709551616 from by norm_num]
      ring]
    rw [Nat.add_mul_mod_self_left, Nat.mod_eq_of_lt (by
      rw [show (2:Nat) ^ 64 = 18446744073709551616 from by norm_num]
      exact hlo)]
  have h2 := mod_pow_div_mod (hi * 18446744073709551616 + lo) k 64 8 hk
  rw [hm] at h2
  rw [ror8_div]
  norm_num at h2 ⊢
  rw [h2]

theorem beBytes128_words (hi lo : Nat) (hlo : lo < 18446744073709551616) :
    [ror8 hi 56, ror8 hi 48, ror8 hi 40, ror8 hi 32,
     ror8 hi 24, ror8 hi 16, ror8 hi 8, ror8 hi 0,
     ror8 lo 56, ror8 lo 48, ror8 lo 40, ror8 lo 32,
     ror8 lo 24, ror8 lo 16, ror8 lo 8, ror8 lo 0] =
      beBytes128 (hi * 18446744073709551616 + lo) := by
  rw [bb_hi hi lo 56 hlo (by norm_num), bb_hi hi lo 48 hlo (by norm_num),
    bb_hi hi lo 40 hlo (by norm_num), bb_hi hi lo 32 hlo (by norm_num),
    bb_hi hi lo 24 hlo (by norm_num), bb_hi hi lo 16 hlo (by norm_num),
    bb_hi hi lo 8 hlo (by norm_num), bb_hi hi lo 0 hlo (by norm_num),
    bb_lo hi lo 56 hlo (by norm_num), bb_lo hi lo 48 hlo (by norm_num),
    bb_lo hi lo 40 hlo (by norm_num), bb_lo hi lo 32 hlo (by norm_num),
    bb_lo hi lo 24 hlo (by norm_num), bb_lo hi lo 16 hlo (by norm_num),
    bb_lo hi lo 8 hlo (by norm_num), bb_lo hi lo 0 hlo (by norm_num)]
  norm_num [beBytes128]

theorem drop_tail_eq (l0 t : List Nat) (k : Nat) (h : t.length = k) :
    (l0 ++ t).drop ((l0 ++ t).length - k) = t := by
  rw [List.length_append, h, Nat.add_sub_cancel, List.drop_left]

theorem drop_tail_eight (l0 : List Nat) (t0 t1 t2 t3 t4 t5 t6 t7 : Nat) :
    (l0 ++ [t0, t1, t2, t3, t4, t5, t6, t7]).drop
        ((l0 ++ [t0, t1, t2, t3, t4, t5, t6, t7]).length - 8) =
      [t0, t1, t2, t3, t4, t5, t6, t7] :=
  drop_tail_eq l0 _ 8 rfl

theorem drop_tail_sixteen (l0 : List Nat)
    (t0 t1 t2 t3 t4 t5 t6 t7 t8 t9 t10 t11 t12 t13 t14 t15 : Nat) :
    (l0 ++ [t0, t1, t2, t3, t4, t5, t6, t7,
            t8, t9, t10, t11, t12, t13, t14, t15]).drop
        ((l0 ++ [t0, t1, t2, t3, t4, t5, t6, t7,
                 t8, t9, t10, t11, t12, t13, t14, t15]).length - 16) =
      [t0, t1, t2, t3, t4, t5, t6, t7, t8, t9, t10, t11, t12, t13, t14, t15] :=
  drop_tail_eq l0 _ 16 rfl

/-! ### The value of the size counters after arbitrary absorbed input -/

theorem mdImpl_counter (B : Nat) (cf : List Nat → List Nat → List Nat)
    (w : MDCore) (data : List Nat) :
    (mdImpl B cf w data).sizeCounter =
      (w.sizeCounter + data.length) % 18446744073709551616 :=
  blocksGo_md_counter B cf _ _ _

theorem md5_impl_counter (w : MDCore) (data : List Nat) :
    (MD5.addDataImpl w data).sizeCounter =
      (w.sizeCounter + data.length) % 18446744073709551616 :=
  mdImpl_counter 64 MD5.compressWords w data

theorem has160_impl_counter (w : MDCore) (data : List Nat) :
    (HAS160.addDataImpl w data).sizeCounter =
      (w.sizeCounter + data.length) % 18446744073709551616 :=
  mdImpl_counter 64 HAS160.compressWords w data

theorem ripemd160_impl_counter (w : MDCore) (data : List Nat) :
    (RIPEMD160.addDataImpl w data).sizeCounter =
      (w.sizeCounter + data.length) % 18446744073709551616 :=
  mdImpl_counter 64 RIPEMD160.compressWords w data

theorem whirlpool_impl_counter (w : Whirlpool.Core) (data : List Nat) :
    (Whirlpool.addDataImpl w data).sizeCounter = w.sizeCounter.addU64 data.length :=
  blocksGo_wh_counter _ _ _

theorem blake1_compressStep0_counter (w : Blake1_224.Core) (b : List Nat) :
    (Blake1_224.compressStep 0 w b).sizeCounter =
      (w.sizeCounter + 512) % 18446744073709551616 := rfl

theorem blake1_blocksGo_counter :
    ∀ (n : Nat) (w : Blake1_224.Core) (data : List Nat),
      w.sizeCounter < 18446744073709551616 →
      (blocksGo 64 (Blake1_224.compressStep 0) n w data).sizeCounter =
        (w.sizeCounter + 512 * n) % 18446744073709551616 := by
  intro n
  induction n with
  | zero =>
    intro w data h
    simp only [blocksGo]
    omega
  | succ n ih =>
    intro w data h
    simp only [blocksGo]
    rw [ih _ _ (by rw [blake1_compressStep0_counter]; exact Nat.mod_lt _ (by norm_num))]
    rw [blake1_compressStep0_counter, Nat.mod_add_mod]
    congr 1
    ring

theorem blake1_impl_counter (w : Blake1_224.Core) (data : List Nat)
    (h : w.sizeCounter < 18446744073709551616) :
    (Blake1_224.addDataImpl w data 0).sizeCounter =
      (w.sizeCounter + 512 * (data.length / 64)) % 18446744073709551616 :=
  blake1_blocksGo_counter (data.length / 64) w data h

/-! ### The bit-length values written by the finalizers -/

theorem absorbA_md_bits_core (B : Nat) (impl : MDCore → List Nat → MDCore)
    (himpl : ∀ w d, (impl w d).sizeCounter =
      (w.sizeCounter + d.length) % 18446744073709551616)
    (w0 : MDCore) (h0 : w0.sizeCounter = 0) (m : List Nat) :
    (((absorbA B impl w0 m).core.sizeCounter +
        (absorbA B impl w0 m).buffer.length) % 18446744073709551616 * 8) %
      18446744073709551616 = (8 * m.length) % 18446744073709551616 := by
  have h1 : (absorbA B impl w0 m).core =
      impl w0 (m.take (m.length - m.length % B)) := rfl
  have h2 : (absorbA B impl w0 m).buffer =
      m.drop (m.length - m.length % B) := rfl
  have hle := Nat.mod_le m.length B
  rw [h1, h2, himpl, h0, List.length_take, List.length_drop,
    min_eq_left (by omega), Nat.mod_add_mod, Nat.mod_mul_mod]
  congr 1
  omega

theorem absorbA_md5_bits (m : List Nat) :
    (MD5.finalCounter (absorbA 64 MD5.addDataImpl MD5.initState.core m) * 8) %
      18446744073709551616 = (8 * m.length) % 18446744073709551616 :=
  absorbA_md_bits_core 64 MD5.addDataImpl md5_impl_counter MD5.initState.core rfl m

theorem absorbA_has160_bits (m : List Nat) :
    (HAS160.finalCounter (absorbA 64 HAS160.addDataImpl HAS160.initState.core m) * 8) %
      18446744073709551616 = (8 * m.length) % 18446744073709551616 :=
  absorbA_md_bits_core 64 HAS160.addDataImpl has160_impl_counter
    HAS160.initState.core rfl m

theorem absorbA_ripemd160_bits (m : List Nat) :
    (RIPEMD160.finalCounter
        (absorbA 64 RIPEMD160.addDataImpl RIPEMD160.initState.core m) * 8) %
      18446744073709551616 = (8 * m.length) % 18446744073709551616 :=
  absorbA_md_bits_core 64 RIPEMD160.addDataImpl ripemd160_impl_counter
    RIPEMD160.initState.core rfl m

theorem absorbA_blake1_bits (m : List Nat) :
    Blake1_224.finalCounterBits
      (absorbA 64 (fun w d => Blake1_224.addDataImpl w d 0)
        Blake1_224.initState.core m) =
      (8 * m.length) % 18446744073709551616 := by
  have h1 : (absorbA 64 (fun w d => Blake1_224.addDataImpl w d 0)
      Blake1_224.initState.core m).core =
      Blake1_224.addDataImpl Blake1_224.initState.core
        (m.take (m.length - m.length % 64)) 0 := rfl
  have h2 : (absorbA 64 (fun w d => Blake1_224.addDataImpl w d 0)
      Blake1_224.initState.core m).buffer =
      m.drop (m.length - m.length % 64) := rfl
  simp only [Blake1_224.finalCounterBits]
  rw [h1, h2, blake1_impl_counter _ _
    (by rw [show Blake1_224.initState.core.sizeCounter = 0 from rfl]; norm_num)]
  rw [show Blake1_224.initState.core.sizeCounter = 0 from rfl]
  have hle := Nat.mod_le m.length 64
  rw [List.length_take, List.length_drop, min_eq_left (by omega), Nat.mod_add_mod]
  congr 1
  have hdm := Nat.div_add_mod m.length 64
  have hq : (m.length - m.length % 64) / 64 = m.length / 64 := by
    rw [show m.length - m.length % 64 = 64 * (m.length / 64) from by omega]
    exact Nat.mul_div_cancel_left _ (by norm_num)
  rw [hq]
  omega

theorem absorbA_wh_counter (m : List Nat) (hm : m.length < 18446744073709551616) :
    Whirlpool.finalCounter
      (absorbA 64 Whirlpool.addDataImpl Whirlpool.initState.core m) =
      Uint128.mk m.length 0 := by
  have h1 : (absorbA 64 Whirlpool.addDataImpl Whirlpool.initState.core m).core =
      Whirlpool.addDataImpl Whirlpool.initState.core
        (m.take (m.length - m.length % 64)) := rfl
  have h2 : (absorbA 64 Whirlpool.addDataImpl Whirlpool.initState.core m).buffer =
      m.drop (m.length - m.length % 64) := rfl
  simp only [Whirlpool.finalCounter]
  rw [h1, h2, whirlpool_impl_counter,
    show Whirlpool.initState.core.sizeCounter = Uint128.mk 0 0 from rfl]
  have hle := Nat.mod_le m.length 64
  rw [List.length_take, List.length_drop, min_eq_left (by omega)]
  rw [addU64_zero_chain _ _ (by omega)]
  rw [show m.length - m.length % 64 + (m.length - (m.length - m.length % 64)) =
    m.length from by omega]
  rw [addU64_lt _ _ hm (by simp; omega)]
  simp

theorem mul8_lo_word (L : Nat) (h : L < 18446744073709551616) :
    (Uint128.mk L 0).mul8 =
      ⟨(8 * L) % 18446744073709551616, 8 * L / 18446744073709551616⟩ := by
  have hdiv : L / 2305843009213693952 < 8 := by
    rw [Nat.div_lt_iff_lt_mul (by norm_num)]
    omega
  have hmask : (L >>> 61) &&& 255 = L / 2305843009213693952 := by
    rw [Nat.shiftRight_eq_div_pow]
    have h8 := Nat.and_pow_two_sub_one_eq_mod (L / 2 ^ 61) 8
    norm_num at h8 ⊢
    rw [h8, Nat.mod_eq_of_lt (by omega)]
  have hhi : 8 * L / 18446744073709551616 = L / 2305843009213693952 := by
    rw [show (18446744073709551616:Nat) = 8 * 2305843009213693952 from by norm_num,
      Nat.mul_div_mul_left _ _ (by norm_num)]
  simp only [Uint128.mul8, Uint128.mk.injEq]
  constructor
  · rw [Nat.shiftLeft_eq]
    congr 1
    ring
  · rw [show (0:Nat) <<< 3 = 0 from rfl, Nat.zero_or, hmask,
      Nat.mod_eq_of_lt (by omega), hhi]

theorem mdPad_tail (buffer : List Nat) (c : Nat) :
    (mdPad buffer c).drop ((mdPad buffer c).length - 8) =
      leBytes64 (c * 8 % 18446744073709551616) := by
  simp only [mdPad]
  rw [List.replicate_add, show List.replicate 8 (0:Nat) = [0, 0, 0, 0, 0, 0, 0, 0]
    from rfl, ← List.append_assoc, writeTailLE8_append, drop_tail_eight]
  exact leBytes64_halves _

/-- C6: length-field correctness — for every sequence of `addData` calls
totalling `L` bytes, the bit-length field written by `finalize` into the last
8 bytes of the padded data is the 64-bit little-endian encoding of `8·L`
(modulo 2^64) for MD5, HAS-160 and RIPEMD-160, the 64-bit big-endian
high/low split encoding of `8·L` (modulo 2^64) for BLAKE1-224, and — for
messages shorter than 2^64 bytes — the exact 128-bit big-endian encoding of
`8·L` in the last 16 bytes for Whirlpool; padding bytes are never counted.
When `8·L` fits in 64 bits the 64-bit fields are exact as well. -/
theorem claim_c6_length_fields (chunks : List (List Nat)) :
    ((MD5.finalPad (List.foldl MD5.addData MD5.initState chunks)).drop
        ((MD5.finalPad (List.foldl MD5.addData MD5.initState chunks)).length - 8) =
      leBytes64 (8 * chunks.flatten.length % 18446744073709551616)) ∧
    ((HAS160.finalPad (List.foldl HAS160.addData HAS160.initState chunks)).drop
        ((HAS160.finalPad (List.foldl HAS160.addData HAS160.initState chunks)).length
          - 8) =
      leBytes64 (8 * chunks.flatten.length % 18446744073709551616)) ∧
    ((RIPEMD160.finalPad
        (List.foldl RIPEMD160.addData RIPEMD160.initState chunks)).drop
        ((RIPEMD160.finalPad
          (List.foldl RIPEMD160.addData RIPEMD160.initState chunks)).length - 8) =
      leBytes64 (8 * chunks.flatten.length % 18446744073709551616)) ∧
    ((Blake1_224.finalPad
        (List.foldl Blake1_224.addData Blake1_224.initState chunks)).drop
        ((Blake1_224.finalPad
          (List.foldl Blake1_224.addData Blake1_224.initState chunks)).length - 8) =
      beBytes64 (8 * chunks.flatten.length % 18446744073709551616)) ∧
    (chunks.flatten.length < 18446744073709551616 →
      (Whirlpool.finalPad
          (List.foldl Whirlpool.addData Whirlpool.initState chunks)).drop
          ((Whirlpool.finalPad
            (List.foldl Whirlpool.addData Whirlpool.initState chunks)).length - 16) =
        beBytes128 (8 * chunks.flatten.length)) ∧
    (8 * chunks.flatten.length < 18446744073709551616 →
      (MD5.finalPad (List.foldl MD5.addData MD5.initState chunks)).drop
          ((MD5.finalPad (List.foldl MD5.addData MD5.initState chunks)).length - 8) =
        leBytes64 (8 * chunks.flatten.length) ∧
      (Blake1_224.finalPad
          (List.foldl Blake1_224.addData Blake1_224.initState chunks)).drop
          ((Blake1_224.finalPad
            (List.foldl Blake1_224.addData Blake1_224.initState chunks)).length - 8) =
        beBytes64 (8 * chunks.flatten.length)) := by
  have hmd5 : (MD5.finalPad (List.foldl MD5.addData MD5.initState chunks)).drop
      ((MD5.finalPad (List.foldl MD5.addData MD5.initState chunks)).length - 8) =
      leBytes64 (8 * chunks.flatten.length % 18446744073709551616) := by
    rw [md5_feed chunks]
    simp only [MD5.finalPad]
    rw [mdPad_tail, absorbA_md5_bits]
  have hhas : (HAS160.finalPad (List.foldl HAS160.addData HAS160.initState chunks)).drop
      ((HAS160.finalPad (List.foldl HAS160.addData HAS160.initState chunks)).length
        - 8) =
      leBytes64 (8 * chunks.flatten.length % 18446744073709551616) := by
    rw [has160_feed chunks]
    simp only [HAS160.finalPad]
    rw [mdPad_tail, absorbA_has160_bits]
  have hrip : (RIPEMD160.finalPad
      (List.foldl RIPEMD160.addData RIPEMD160.initState chunks)).drop
      ((RIPEMD160.finalPad
        (List.foldl RIPEMD160.addData RIPEMD160.initState chunks)).length - 8) =
      leBytes64 (8 * chunks.flatten.length % 18446744073709551616) := by
    rw [ripemd160_feed chunks]
    simp only [RIPEMD160.finalPad]
    rw [mdPad_tail, absorbA_ripemd160_bits]
  have hb1 : (Blake1_224.finalPad
      (List.foldl Blake1_224.addData Blake1_224.initState chunks)).drop
      ((Blake1_224.finalPad
        (List.foldl Blake1_224.addData Blake1_224.initState chunks)).length - 8) =
      beBytes64 (8 * chunks.flatten.length % 18446744073709551616) := by
    rw [blake1_feed chunks]
    simp only [Blake1_224.finalPad]
    rw [List.replicate_add, show List.replicate 8 (0:Nat) = [0, 0, 0, 0, 0, 0, 0, 0]
      from rfl, ← List.append_assoc, writeTailBE8_append, drop_tail_eight]
    exact (beBytes64_halves _).trans (congrArg beBytes64 (absorbA_blake1_bits _))
  refine ⟨hmd5, hhas, hrip, hb1, ?_, ?_⟩
  · intro hlen
    rw [whirlpool_feed chunks hlen]
    simp only [Whirlpool.finalPad]
    rw [show Whirlpool.padLen (absorbA 64 Whirlpool.addDataImpl
        Whirlpool.initState.core chunks.flatten) + 32 =
      Whirlpool.padLen (absorbA 64 Whirlpool.addDataImpl
        Whirlpool.initState.core chunks.flatten) + 16 + 16 from by omega]
    rw [List.replicate_add, show List.replicate 16 (0:Nat) =
      [0, 0, 0, 0, 0, 0, 0, 0, 0, 0, 0, 0, 0, 0, 0, 0] from rfl,
      ← List.append_assoc, writeTailBE16_append, drop_tail_sixteen]
    rw [absorbA_wh_counter chunks.flatten hlen, mul8_lo_word _ hlen]
    exact (beBytes128_words _ _ (Nat.mod_lt _ (by norm_num))).trans
      (congrArg beBytes128 (by
        show 8 * chunks.flatten.length / 18446744073709551616 * 18446744073709551616 +
          8 * chunks.flatten.length % 18446744073709551616 = 8 * chunks.flatten.length
        have hdm := Nat.div_add_mod (8 * chunks.flatten.length) 18446744073709551616
        omega))
  · intro h8
    constructor
    · have h := hmd5
      rw [Nat.mod_eq_of_lt h8] at h
      exact h
    · have h := hb1
      rw [Nat.mod_eq_of_lt h8] at h
      exact h

/-- C6 witness: the Whirlpool 128-bit field conjunct and the exact 64-bit
field conjunct applied to the concrete two-chunk input `[[1], [2]]`
(`L = 2`, bit length 16). -/
theorem claim_c6_length_fields_witness :
    ((Whirlpool.finalPad
        (List.foldl Whirlpool.addData Whirlpool.initState [[1], [2]])).drop
        ((Whirlpool.finalPad
          (List.foldl Whirlpool.addData Whirlpool.initState [[1], [2]])).length - 16) =
      beBytes128 (8 * ([[1], [2]] : List (List Nat)).flatten.length)) ∧
    ((MD5.finalPad (List.foldl MD5.addData MD5.initState [[1], [2]])).drop
        ((MD5.finalPad (List.foldl MD5.addData MD5.initState [[1], [2]])).length - 8) =
      leBytes64 (8 * ([[1], [2]] : List (List Nat)).flatten.length)) :=
  ⟨(claim_c6_length_fields [[1], [2]]).2.2.2.2.1 (by decide),
   ((claim_c6_length_fields [[1], [2]]).2.2.2.2.2 (by decide)).1⟩

end HashSpec
